import Mathlib

/-!
# WiFi evil-twin simulator: the decision and detection engine of `server.js`

A shallow embedding of the packet protocol (`verifyAndDecryptAtAP`), the per-AP
Bayesian detector (`BayesianAPDetector`), the payoff tables and strategy router
(`NashEquilibriumRouter`) and the traffic generator (`createSendPacket`).

Conventions of the embedding.

* JavaScript numbers are taken in exact arithmetic: every numeric definition is written
  over an arbitrary linear ordered field `F` (run it at `ℚ`, reason about it at `ℝ`).
  `NaN` and the infinities are not represented.
* `Date.now()` and `now()` are reads of the wall clock; every read is an explicit `Int`
  argument (milliseconds).
* `Math.random()` draws are explicit arguments.
* `Math.exp`, `Math.log`, `Number(...)` and the Node `crypto` primitives are not code of
  the repository: they are parameters (`JsMath`, `Host`).
* Objects that are shared between several registries (the access points) live in a heap
  and the registries hold references, as in the source.
* A read `obj[k]` of a plain object also sees the members of `Object.prototype`
  (`constructor`, `toString`, ...). `JsObject.read` is that read; `JsObject.get` is the
  own-property lookup, which is the same read wherever the key is an own key by
  construction (a key taken from `Object.keys`, a generated guest id) and is `map.get`
  for a `Map`. The socket commands `connectDevice` and `manualToggleEvil` are modelled
  for ids that are not the name of a member of `Object.prototype`.
-/

set_option linter.unusedSectionVars false

namespace WifiSim

/-! ## Payoff tables -/

/-- One cell of a payoff matrix: `{ device, ap, cost }`. -/
structure Payoff (F : Type) where
  device : F
  ap : F
  cost : F

/-- The six cells of one sensitivity mode of `PAYOFF_MATRICES`. -/
structure PayoffMatrix (F : Type) where
  TRUST_COOPERATE : Payoff F
  TRUST_DEFECT : Payoff F
  VERIFY_COOPERATE : Payoff F
  VERIFY_DEFECT : Payoff F
  AVOID_COOPERATE : Payoff F
  AVOID_DEFECT : Payoff F

/-- The value of `DATA_SENSITIVITY`: the string `'non'` or `'sensitive'`. -/
inductive Sensitivity where
  | non
  | sensitive
  deriving DecidableEq, Repr

/-- The elements of `STRATEGIES = ['TRUST','VERIFY','AVOID']`. -/
inductive Strategy where
  | TRUST
  | VERIFY
  | AVOID
  deriving DecidableEq, Repr

section Numeric

variable {F : Type} [LinearOrderedField F]

/-- The literal `PAYOFF_MATRICES.non`. -/
def PAYOFF_MATRICES_non : PayoffMatrix F where
  TRUST_COOPERATE := { device := 10, ap := 5, cost := 1 }
  TRUST_DEFECT := { device := -50, ap := 40, cost := 45 }
  VERIFY_COOPERATE := { device := 8, ap := 4, cost := 14 / 10 }
  VERIFY_DEFECT := { device := -5, ap := -10, cost := 25 / 10 }
  AVOID_COOPERATE := { device := 3, ap := -2, cost := 32 / 10 }
  AVOID_DEFECT := { device := 5, ap := -5, cost := 4 }

/-- The literal `PAYOFF_MATRICES.sensitive`. -/
def PAYOFF_MATRICES_sensitive : PayoffMatrix F where
  TRUST_COOPERATE := { device := 9, ap := 5, cost := 12 / 10 }
  TRUST_DEFECT := { device := -120, ap := 60, cost := 120 }
  VERIFY_COOPERATE := { device := 7, ap := 4, cost := 18 / 10 }
  VERIFY_DEFECT := { device := -20, ap := -15, cost := 4 }
  AVOID_COOPERATE := { device := 2, ap := -3, cost := 45 / 10 }
  AVOID_DEFECT := { device := 4, ap := -7, cost := 7 }

/-- The lookup `PAYOFF_MATRICES[mode]`. -/
def PAYOFF_MATRICES : Sensitivity → PayoffMatrix F
  | .non => PAYOFF_MATRICES_non
  | .sensitive => PAYOFF_MATRICES_sensitive

/-! ## Bayesian detector -/

/-- The two `Math` functions the detector calls. -/
structure JsMath (F : Type) where
  exp : F → F
  log : F → F

/-- One entry of `observations`: `{ success, timestamp }`. -/
structure Observation where
  success : Bool
  timestamp : Int
  deriving DecidableEq, Repr

/-- The fields of a `BayesianAPDetector` instance (`hasBeenCounted` is the expando flag
set by `createSendPacket`; absent reads as `false`). -/
structure BayesianAPDetector (F : Type) where
  apId : String
  priorEvil : F
  observations : List Observation
  posteriorEvil : F
  P_failure_given_evil : F
  P_failure_given_legitimate : F
  P_success_given_evil : F
  P_success_given_legitimate : F
  batchSize : Nat
  failureCount : Nat
  successCount : Nat
  logOdds : F
  lastUpdateAt : Int
  hasBeenCounted : Bool

/-- The constructor `new BayesianAPDetector(apId)`; `t0` is its `Date.now()` read. -/
def BayesianAPDetector.create (M : JsMath F) (apId : String) (t0 : Int) :
    BayesianAPDetector F where
  apId := apId
  priorEvil := 25 / 100
  observations := []
  posteriorEvil := 25 / 100
  P_failure_given_evil := 85 / 100
  P_failure_given_legitimate := 15 / 100
  P_success_given_evil := 15 / 100
  P_success_given_legitimate := 85 / 100
  batchSize := 100
  failureCount := 0
  successCount := 0
  logOdds := M.log ((25 / 100) / (1 - 25 / 100))
  lastUpdateAt := t0
  hasBeenCounted := false

/-- The likelihood ratio `lr` chosen in `observePacket`. -/
def BayesianAPDetector.lr (d : BayesianAPDetector F) (success : Bool) : F :=
  if success then d.P_success_given_evil / d.P_success_given_legitimate
  else d.P_failure_given_evil / d.P_failure_given_legitimate

/-- The method `observePacket(success)`. `tObs` is the `Date.now()` read stored with the
observation, `t` the one used for the decay. -/
def BayesianAPDetector.observePacket (M : JsMath F) (d : BayesianAPDetector F)
    (success : Bool) (tObs t : Int) : BayesianAPDetector F :=
  let pushed := d.observations ++ [{ success := success, timestamp := tObs }]
  let observations := if pushed.length > d.batchSize then pushed.tail else pushed
  let successCount := if success then d.successCount + 1 else d.successCount
  let failureCount := if success then d.failureCount else d.failureCount + 1
  let lr := d.lr success
  let dt : F := ((t - d.lastUpdateAt : Int) : F) / 1000
  let decay := M.exp (-dt / 30)
  let logOdds := d.logOdds * decay + M.log lr
  let posterior := 1 / (1 + M.exp (-logOdds))
  { d with
    observations := observations
    successCount := successCount
    failureCount := failureCount
    logOdds := logOdds
    lastUpdateAt := t
    posteriorEvil := max (1 / 1000) (min (999 / 1000) posterior) }

/-- The method `isLikelyEvil(threshold)`; the default threshold is `0.2`. -/
def BayesianAPDetector.isLikelyEvil (d : BayesianAPDetector F) (threshold : F := 2 / 10) :
    Bool :=
  decide (d.posteriorEvil > threshold)

/-- The method `getConfidence()`. -/
def BayesianAPDetector.getConfidence (d : BayesianAPDetector F) : F :=
  |d.posteriorEvil - 5 / 10| * 2

/-- A run of `observePacket` calls: each entry is `(success, tObs, t)`. -/
def BayesianAPDetector.observeAll (M : JsMath F) (d : BayesianAPDetector F)
    (obs : List (Bool × Int × Int)) : BayesianAPDetector F :=
  obs.foldl (fun acc o => acc.observePacket M o.1 o.2.1 o.2.2) d

/-! ## Strategy router -/

/-- The record stored per AP by `computeOptimalStrategy`. -/
structure StrategyChoice (F : Type) where
  strategy : Strategy
  evilProb : F
  trustExpected : F
  verifyExpected : F
  avoidExpected : F

/-- The body of the loop of `computeOptimalStrategy` for one belief `evilProb`, reading
the active matrix `PAYOFF_MATRIX`. -/
def computeOptimalStrategyFor (PAYOFF_MATRIX : PayoffMatrix F) (evilProb : F) :
    StrategyChoice F :=
  let trustExpected :=
    (1 - evilProb) * PAYOFF_MATRIX.TRUST_COOPERATE.device +
      evilProb * PAYOFF_MATRIX.TRUST_DEFECT.device
  let verifyExpected :=
    (1 - evilProb) * PAYOFF_MATRIX.VERIFY_COOPERATE.device +
      evilProb * PAYOFF_MATRIX.VERIFY_DEFECT.device
  let avoidExpected :=
    (1 - evilProb) * PAYOFF_MATRIX.AVOID_COOPERATE.device +
      evilProb * PAYOFF_MATRIX.AVOID_DEFECT.device
  let maxExpected := max (max trustExpected verifyExpected) avoidExpected
  let strategy :=
    if verifyExpected = maxExpected then Strategy.VERIFY
    else if avoidExpected = maxExpected then Strategy.AVOID
    else Strategy.TRUST
  { strategy := strategy
    evilProb := evilProb
    trustExpected := trustExpected
    verifyExpected := verifyExpected
    avoidExpected := avoidExpected }

/-- The method `NashEquilibriumRouter.computeOptimalStrategy(apBeliefs)`: the belief
object is its list of entries, the result the list of `strategies` entries. -/
def computeOptimalStrategy (PAYOFF_MATRIX : PayoffMatrix F) (apBeliefs : List (String × F)) :
    List (String × StrategyChoice F) :=
  apBeliefs.map (fun e => (e.1, computeOptimalStrategyFor PAYOFF_MATRIX e.2))

/-! ## JavaScript containers -/

/-- A plain object or `Map` keyed by strings: its entries in insertion order. -/
abbrev JsObject (α : Type) := List (String × α)

/-- The own property `k` of `obj`, `none` when `obj` has no own property `k`. This is
`map.get(k)` for a `Map`, and the read `obj[k]` of a plain object whenever `k` is an own
key or is not the name of a member of `Object.prototype`; the general read of a plain
object is `JsObject.read`. -/
def JsObject.get {α : Type} (o : JsObject α) (k : String) : Option α :=
  List.lookup k o

/-- The names of the members of `Object.prototype`, which every plain object inherits
(the ECMAScript members and the legacy accessors). -/
def objectPrototypeKeys : List String :=
  ["constructor", "__defineGetter__", "__defineSetter__", "hasOwnProperty",
    "__lookupGetter__", "__lookupSetter__", "isPrototypeOf", "propertyIsEnumerable",
    "toString", "valueOf", "__proto__", "toLocaleString"]

/-- What the read `obj[k]` of a plain object returns: `undefined`, a member inherited from
`Object.prototype` (a function, or the prototype itself for `__proto__`), or the own
property. -/
inductive PlainRead (α : Type) where
  | undefined
  | inherited
  | own (value : α)
  deriving DecidableEq, Repr

/-- The test `value !== undefined`. For the objects stored in the registries and for the
members of `Object.prototype` it is also the truthiness of `value`. -/
def PlainRead.isDefined {α : Type} : PlainRead α → Bool
  | .undefined => false
  | .inherited => true
  | .own _ => true

/-- The read `obj[k]` of a plain object: the own property if there is one, else the
member of `Object.prototype` of that name if there is one, else `undefined`. -/
def JsObject.read {α : Type} (o : JsObject α) (k : String) : PlainRead α :=
  match o.get k with
  | some v => .own v
  | none => if objectPrototypeKeys.contains k then .inherited else .undefined

/-- The write `obj[k] = v`: an existing key keeps its place, a new key goes last. -/
def JsObject.set {α : Type} (o : JsObject α) (k : String) (v : α) : JsObject α :=
  if o.any (fun e => e.1 == k) then o.map (fun e => if e.1 == k then (k, v) else e)
  else o ++ [(k, v)]

/-- The statement `delete obj[k]`. -/
def JsObject.delete {α : Type} (o : JsObject α) (k : String) : JsObject α :=
  o.filter (fun e => !(e.1 == k))

/-- The call `Object.keys(obj)`. -/
def JsObject.keys {α : Type} (o : JsObject α) : List String :=
  o.map Prod.fst

/-- The call `Object.values(obj)`. -/
def JsObject.values {α : Type} (o : JsObject α) : List α :=
  o.map Prod.snd

/-- The spread `{ ...target, ...src }`. -/
def JsObject.spread {α : Type} (target src : JsObject α) : JsObject α :=
  src.foldl (fun acc e => acc.set e.1 e.2) target

/-- The call `set.add(x)` on a `Set` of strings kept in insertion order. -/
def JsSet.add (s : List String) (x : String) : List String :=
  if s.contains x then s else s ++ [x]

/-- The call `set.delete(x)`. -/
def JsSet.delete (s : List String) (x : String) : List String :=
  s.filter (fun y => !(y == x))

/-! ## Packets and host primitives -/

/-- A byte buffer. -/
abbrev Buffer := List Nat

/-- A key pair `{ pub, priv }` of PEM strings. -/
structure KeyPair where
  pub : String
  priv : String
  deriving DecidableEq, Repr

/-- The packet header `{ from, toAp, ts, devX25519Pub, devEd25519Pub }`
(`sender` is the field `from`, a reserved word here). -/
structure Header where
  sender : String
  toAp : String
  ts : Int
  devX25519Pub : String
  devEd25519Pub : String
  deriving DecidableEq, Repr

/-- The result `{ iv, ct, tag }` of `encryptGCM`, base64 strings. -/
structure Cipher where
  iv : String
  ct : String
  tag : String
  deriving DecidableEq, Repr

/-- The packet body `{ iv, ct, tag, nonce }`. -/
structure Body where
  iv : String
  ct : String
  tag : String
  nonce : String
  deriving DecidableEq, Repr

/-- A packet `{ header, body, sig }`. -/
structure Packet where
  header : Header
  body : Body
  sig : String
  deriving DecidableEq, Repr

/-- The `reason` strings of a failed verdict:
`unknown` is `'unknown'`, `destNotFound` is `'dest AP not found'`, `staleTs n` is
`'stale ts <n>s'`, `untrusted` is `'untrusted AP - not in repository'`, `badSignature` is
`'bad signature'`, `replayDetected` is `'replay detected'`, `decryptFailed m` is
`'decrypt failed: <m>'`, `evilCaptured` is `'evil AP captured packet'`, `evilDetected` is
`'evil AP detected via verification'`, `avoided` is `'avoided suspicious AP'`,
`evilNotYetDetected` is `'evil AP not yet detected'`. -/
inductive Reason where
  | unknown
  | destNotFound
  | staleTs (secs : Int)
  | untrusted
  | badSignature
  | replayDetected
  | decryptFailed (message : String)
  | evilCaptured
  | evilDetected
  | avoided
  | evilNotYetDetected
  deriving DecidableEq, Repr

/-- A verdict object: `{ ok: true, plaintext }` or `{ ok: false, reason }`. -/
inductive Verdict where
  | accept (plaintext : String)
  | reject (reason : Reason)
  deriving DecidableEq, Repr

/-- The field `verdict.ok`. -/
def Verdict.ok : Verdict → Bool
  | .accept _ => true
  | .reject _ => false

/-- What the server calls but the repository does not define: `JSON.stringify`, `Buffer`
conversions, `Number(...)` and the Node `crypto` calls behind `shared/crypto.js`
(a thrown exception is an `Except.error` carrying its message). `toNumber s` is
`Number(s)` with `none` for `NaN`. `encryptGCM` takes the bytes drawn by
`crypto.randomBytes(12)` as its first argument. -/
structure Host (F : Type) where
  stringifyHeader : Header → String
  stringifyBody : String → String → String
  bufferFrom : String → Buffer
  bufferFromBase64 : String → Buffer
  toNumber : String → Option F
  cryptoVerify : Buffer → String → Buffer → Except String Bool
  signEd25519 : String → Buffer → Except String String
  deriveSharedX25519 : String → String → Except String Buffer
  hkdf : Buffer → Buffer → Buffer → Nat → Except String Buffer
  encryptGCM : Buffer → String → Buffer → Buffer → Except String Cipher
  decryptGCM : Cipher → Buffer → Buffer → Except String String

/-- The wrapper `verifyEd25519(pub, data, sig)` of `shared/crypto.js`: a throwing
`crypto.verify` counts as `false`. -/
def verifyEd25519 (H : Host F) (pub : String) (data : Buffer) (sig : String) : Bool :=
  match H.cryptoVerify data pub (H.bufferFromBase64 sig) with
  | .ok b => b
  | .error _ => false

/-! ## World state -/

/-- An access-point object as built by `makeAP`. The display-only fields `pos`, `load`,
`capacity` and `signalStrength` play no part in the protocol and are left out. -/
structure AP where
  bssid : String
  sign : KeyPair
  kex : KeyPair
  isLegitimate : Bool
  isGuest : Bool
  spawnTime : Int
  replay : List String
  deriving DecidableEq, Repr

/-- A device record of `DEVICES` (without its display position); `stats` is
`{ sent, delivered }`. -/
structure Device where
  id : String
  ed : KeyPair
  x : KeyPair
  connectedTo : String
  statsSent : Nat
  statsDelivered : Nat
  deriving DecidableEq, Repr

/-- The counters of `STATS`. -/
structure Stats (F : Type) where
  totalSent : Nat
  totalDelivered : Nat
  dropped : Nat
  spoofersSpawned : Nat
  spoofersDetected : Nat
  evilAPsDetectedCorrectly : Nat
  guestAPsSpawned : Nat
  evilGuestAPsSpawned : Nat
  packetsAvoided : Nat
  cumulativeCost : F

/-- One bucket of `PER_MODE`. -/
structure ModeStats (F : Type) where
  sent : Nat
  delivered : Nat
  dropped : Nat
  cost : F

/-- The object `PER_MODE`. -/
structure PerMode (F : Type) where
  TRUST : ModeStats F
  VERIFY : ModeStats F
  AVOID : ModeStats F

/-- The read `PER_MODE[s]`. -/
def PerMode.get (p : PerMode F) : Strategy → ModeStats F
  | .TRUST => p.TRUST
  | .VERIFY => p.VERIFY
  | .AVOID => p.AVOID

/-- An in-place update of `PER_MODE[s]`. -/
def PerMode.modify (p : PerMode F) (s : Strategy) (f : ModeStats F → ModeStats F) :
    PerMode F :=
  match s with
  | .TRUST => { p with TRUST := f p.TRUST }
  | .VERIFY => { p with VERIFY := f p.VERIFY }
  | .AVOID => { p with AVOID := f p.AVOID }

/-- The module-level mutable state of `server.js`. `heap` holds the AP objects; the three
AP registries map a bssid to a reference (an index into `heap`), so that one object can
sit in several registries as it does in the source. -/
structure World (F : Type) where
  heap : List AP
  LEGITIMATE_APS : JsObject Nat
  EVIL_APS : JsObject Nat
  GUEST_APS : JsObject Nat
  DEVICES : JsObject Device
  DETECTORS : JsObject (BayesianAPDetector F)
  AVOIDED_APS : List String
  STATS : Stats F
  costSinceLastTick : F
  STRAT_IDX : Nat
  ACTIVE_STRATEGY : Strategy
  MODE_ENDS_AT : Int
  PER_MODE : PerMode F
  tsTolSecs : F
  DATA_SENSITIVITY : Sensitivity
  PAYOFF_MATRIX : PayoffMatrix F
  evilProbability : F

/-- The function `getAllAPs()`: `{ ...LEGITIMATE_APS, ...EVIL_APS, ...GUEST_APS }`. -/
def getAllAPs (w : World F) : JsObject Nat :=
  JsObject.spread (JsObject.spread (JsObject.spread [] w.LEGITIMATE_APS) w.EVIL_APS)
    w.GUEST_APS

/-- The own property `bssid` of `getAllAPs()` followed to the object: the reference and
the AP. -/
def lookupAP (w : World F) (bssid : String) : Option (Nat × AP) :=
  ((getAllAPs w).get bssid).bind (fun r => (w.heap[r]?).map (fun ap => (r, ap)))

/-- The read `allAPs[bssid]` of the plain object `getAllAPs()`: the AP registered under
`bssid` with its reference, or a member of `Object.prototype` when no AP has that id and
`bssid` is the name of one, or `undefined`. -/
def readAP (w : World F) (bssid : String) : PlainRead (Nat × AP) :=
  match lookupAP w bssid with
  | some found => .own found
  | none => if objectPrototypeKeys.contains bssid then .inherited else .undefined

/-- An entry of the trusted repository. -/
structure RepoEntry where
  bssid : String
  ed25519Pub : String
  x25519Pub : String
  isLegitimate : Bool
  deriving DecidableEq, Repr

/-- The function `getTrustedRepo()`. -/
def getTrustedRepo (w : World F) : JsObject RepoEntry :=
  (JsObject.values w.LEGITIMATE_APS).foldl
    (fun repo r =>
      match w.heap[r]? with
      | some ap =>
        repo.set ap.bssid
          { bssid := ap.bssid, ed25519Pub := ap.sign.pub, x25519Pub := ap.kex.pub,
            isLegitimate := true }
      | none => repo)
    []

/-- The function `makeAP(name, x, y, isLegitimate, isGuest)`. `sign` and `kex` are the
key pairs returned by `genEd25519()` and `genX25519()`, `spawnTime` the `now()` read and
`tDetector` the `Date.now()` read of the detector's constructor. The new object gets the
next free reference. -/
def makeAP (M : JsMath F) (w : World F) (name : String) (isLegitimate isGuest : Bool)
    (sign kex : KeyPair) (spawnTime tDetector : Int) : World F :=
  let ap : AP :=
    { bssid := name, sign := sign, kex := kex, isLegitimate := isLegitimate,
      isGuest := isGuest, spawnTime := spawnTime, replay := [] }
  let ref := w.heap.length
  let w := { w with heap := w.heap ++ [ap] }
  let w : World F :=
    if isGuest then
      let w := { w with
        GUEST_APS := w.GUEST_APS.set name ref
        STATS := { w.STATS with guestAPsSpawned := w.STATS.guestAPsSpawned + 1 } }
      if !isLegitimate then
        { w with
          EVIL_APS := w.EVIL_APS.set name ref
          STATS := { w.STATS with evilGuestAPsSpawned := w.STATS.evilGuestAPsSpawned + 1 } }
      else w
    else if isLegitimate then
      { w with LEGITIMATE_APS := w.LEGITIMATE_APS.set name ref }
    else
      { w with
        EVIL_APS := w.EVIL_APS.set name ref
        STATS := { w.STATS with spoofersSpawned := w.STATS.spoofersSpawned + 1 } }
  { w with DETECTORS := w.DETECTORS.set name (BayesianAPDetector.create M name tDetector) }

/-- The module state before the first `makeAP` call. `tol` is the start value of
`tsTolSecs` (`cfg.timestampToleranceSecs || 60`) and `t0` the `Date.now()` read of
`MODE_ENDS_AT`. -/
def emptyWorld (tol : F) (t0 : Int) : World F where
  heap := []
  LEGITIMATE_APS := []
  EVIL_APS := []
  GUEST_APS := []
  DEVICES := []
  DETECTORS := []
  AVOIDED_APS := []
  STATS :=
    { totalSent := 0, totalDelivered := 0, dropped := 0, spoofersSpawned := 0,
      spoofersDetected := 0, evilAPsDetectedCorrectly := 0, guestAPsSpawned := 0,
      evilGuestAPsSpawned := 0, packetsAvoided := 0, cumulativeCost := 0 }
  costSinceLastTick := 0
  STRAT_IDX := 0
  ACTIVE_STRATEGY := .TRUST
  MODE_ENDS_AT := t0 + 30000
  PER_MODE :=
    { TRUST := { sent := 0, delivered := 0, dropped := 0, cost := 0 }
      VERIFY := { sent := 0, delivered := 0, dropped := 0, cost := 0 }
      AVOID := { sent := 0, delivered := 0, dropped := 0, cost := 0 } }
  tsTolSecs := tol
  DATA_SENSITIVITY := .non
  PAYOFF_MATRIX := PAYOFF_MATRICES .non
  evilProbability := 40 / 100

/-- The state after the six start-up calls `makeAP('AP1', ..., true)` to
`makeAP('AP6', ..., true)`; `keys n` gives the two key pairs generated for the `n`-th
call. -/
def initialWorld (M : JsMath F) (tol : F) (t0 : Int) (keys : Nat → KeyPair × KeyPair) :
    World F :=
  ["AP1", "AP2", "AP3", "AP4", "AP5", "AP6"].enum.foldl
    (fun w e => makeAP M w e.2 true false (keys e.1).1 (keys e.1).2 t0 t0)
    (emptyWorld tol t0)

/-! ## Packet processing -/

/-- The constant `NONCE_TTL_MS`. -/
def NONCE_TTL_MS : Int := 120000

/-- The first piece of `String(n).split(':')`: the text before the first colon. -/
def firstField (n : String) : String :=
  String.mk (n.toList.takeWhile (fun c => !(c == ':')))

/-- The test of `pruneReplay` that deletes the nonce `n` at clock read `t`. -/
def nonceExpired (H : Host F) (t : Int) (n : String) : Bool :=
  match H.toNumber (firstField n) with
  | some ts => decide ((t : F) - ts > (NONCE_TTL_MS : F))
  | none => false

/-- The function `pruneReplay(ap)` on the set `ap.replay`; `t` is its `now()` read. -/
def pruneReplay (H : Host F) (t : Int) (replay : List String) : List String :=
  replay.filter (fun n => !(nonceExpired H t n))

/-- A write to `ap.replay` through the reference `r`. -/
def World.setReplay (w : World F) (r : Nat) (replay : List String) : World F :=
  { w with heap := w.heap.modify (fun ap => { ap with replay := replay }) r }

/-- The `try` block of `verifyAndDecryptAtAP`: key agreement, key derivation and
authenticated decryption; any throw is caught as one error. -/
def decryptAtAP (H : Host F) (ap : AP) (packet : Packet) (head : Buffer) :
    Except String String :=
  match H.deriveSharedX25519 ap.kex.priv packet.header.devX25519Pub with
  | .error e => .error e
  | .ok shared =>
    match H.hkdf shared (H.bufferFrom "wifi-sim-salt") (H.bufferFrom "ap-payload") 32 with
    | .error e => .error e
    | .ok key =>
      H.decryptGCM { iv := packet.body.iv, ct := packet.body.ct, tag := packet.body.tag }
        key head

/-- The function `verifyAndDecryptAtAP(packet)`: the verdict object it returns and the
state it leaves, or the exception it throws. `tNow` is the `now()` read of the age check
and `tPrune` the one inside `pruneReplay`. `Math.round(age/1000)` of a whole non-negative
`age` is `(age + 500) / 1000`. `allAPs` and `trustedRepo` are plain objects, so both
reads also see the members of `Object.prototype`. Such a member has no `isLegitimate` and
no `replay` property: `ap.isLegitimate` is `undefined` and `Array.from(ap.replay)` in
`pruneReplay` throws a `TypeError`, which nothing in the function catches (the text of
its message is the runtime's). -/
def verifyAndDecryptAtAP (H : Host F) (w : World F) (packet : Packet) (tNow tPrune : Int) :
    Except String (Verdict × World F) :=
  match readAP w packet.header.toAp with
  | .undefined => .ok (.reject .destNotFound, w)
  | ap =>
    let age : Int := |tNow - packet.header.ts|
    if (age : F) > w.tsTolSecs * 1000 then
      .ok (.reject (.staleTs ((age + 500) / 1000)), w)
    else
      let trustedRepo := getTrustedRepo w
      let isKnownLegitimateAP := (trustedRepo.read packet.header.toAp).isDefined
      let apIsLegitimate : Bool :=
        match ap with
        | .own found => found.2.isLegitimate
        | _ => false
      if !isKnownLegitimateAP && !apIsLegitimate then
        .ok (.reject .untrusted, w)
      else
        let head := H.bufferFrom (H.stringifyHeader packet.header)
        let sigPayload := head ++ H.bufferFromBase64 packet.body.ct
        let sigOK := verifyEd25519 H packet.header.devEd25519Pub sigPayload packet.sig
        if !sigOK then
          .ok (.reject .badSignature, w)
        else
          match ap with
          | .own (r, ap) =>
            let pruned := pruneReplay H tPrune ap.replay
            if pruned.contains packet.body.nonce then
              .ok (.reject .replayDetected, w.setReplay r pruned)
            else
              let w1 := w.setReplay r (pruned ++ [packet.body.nonce])
              match decryptAtAP H ap packet head with
              | .ok pt => .ok (.accept pt, w1)
              | .error e => .ok (.reject (.decryptFailed e), w1)
          | _ => .error "TypeError: undefined is not iterable"

/-- The packet that differs from `packet` in the field `body.nonce` only. -/
def Packet.withNonce (packet : Packet) (nonce : String) : Packet :=
  { packet with body := { packet.body with nonce := nonce } }

/-! ### The receiver's checks as the specification lists them -/

/-- The six checks of the receiver, numbered as in the specification. -/
inductive Check where
  | destUnknown
  | staleTimestamp
  | untrustedAP
  | badSignature
  | replay
  | decryptFailure
  deriving DecidableEq, Repr

/-- The order in which the specification lists the checks. -/
def Check.order : List Check :=
  [.destUnknown, .staleTimestamp, .untrustedAP, .badSignature, .replay, .decryptFailure]

/-- The bytes `Buffer.from(JSON.stringify(packet.header))`. -/
def headOf (H : Host F) (packet : Packet) : Buffer :=
  H.bufferFrom (H.stringifyHeader packet.header)

/-- One check of the specification, on its own: `some reason` when the check fails.
(1) the destination id is unknown; (2) `|now - ts| > tolerance`; (3) the destination is
neither in the trusted repository nor marked legitimate; (4) the signature over
header and ciphertext fails under the key the header claims; (5) the nonce is in the
pruned replay window; (6) authenticated decryption fails. A check that needs the
destination AP passes when there is none. -/
def checkFails (H : Host F) (w : World F) (packet : Packet) (tNow tPrune : Int) :
    Check → Option Reason
  | .destUnknown =>
    if (lookupAP w packet.header.toAp).isNone then some .destNotFound else none
  | .staleTimestamp =>
    if ((|tNow - packet.header.ts| : Int) : F) > w.tsTolSecs * 1000 then
      some (.staleTs ((|tNow - packet.header.ts| + 500) / 1000))
    else none
  | .untrustedAP =>
    match lookupAP w packet.header.toAp with
    | some (_, ap) =>
      if ((getTrustedRepo w).get packet.header.toAp).isNone ∧ ap.isLegitimate = false then
        some .untrusted
      else none
    | none => none
  | .badSignature =>
    if verifyEd25519 H packet.header.devEd25519Pub
        (headOf H packet ++ H.bufferFromBase64 packet.body.ct) packet.sig = false then
      some .badSignature
    else none
  | .replay =>
    match lookupAP w packet.header.toAp with
    | some (_, ap) =>
      if packet.body.nonce ∈ pruneReplay H tPrune ap.replay then some .replayDetected
      else none
    | none => none
  | .decryptFailure =>
    match lookupAP w packet.header.toAp with
    | some (_, ap) =>
      match decryptAtAP H ap packet (headOf H packet) with
      | .error e => some (.decryptFailed e)
      | .ok _ => none
    | none => none

/-- The specification's verdict: the reason of the first failing check in the listed
order, and otherwise acceptance with the decrypted plaintext. -/
def verdictBySpec (H : Host F) (w : World F) (packet : Packet) (tNow tPrune : Int) :
    Option Verdict :=
  match Check.order.findSome? (checkFails H w packet tNow tPrune) with
  | some reason => some (.reject reason)
  | none =>
    match lookupAP w packet.header.toAp with
    | some (_, ap) =>
      match decryptAtAP H ap packet (headOf H packet) with
      | .ok pt => some (.accept pt)
      | .error _ => none
    | none => none

/-! ## Traffic generator -/

/-- The nondeterministic reads of one `createSendPacket` call: `pick` is the value of
`Math.floor(Math.random() * pool.length)`, `salt` the text
`Math.random().toString(36).slice(2, 10)`, `iv` the bytes of `crypto.randomBytes(12)`;
`ts`, `tVerify`, `tPrune` are the `now()` reads of `createSendPacket`,
`verifyAndDecryptAtAP` and `pruneReplay`; `tObs`, `tUpd` the two `Date.now()` reads of
`observePacket`. -/
structure SendDraws where
  pick : Nat
  salt : String
  iv : Buffer
  ts : Int
  tVerify : Int
  tPrune : Int
  tObs : Int
  tUpd : Int

/-- The exclusion test of the AVOID filter for one bssid: a detector exists and reports
`isLikelyEvil(0.3) && getConfidence() > 0.4`. -/
def avoidExcluded (w : World F) (bssid : String) : Bool :=
  match w.DETECTORS.get bssid with
  | none => false
  | some detector => detector.isLikelyEvil (3 / 10) && decide (detector.getConfidence > 4 / 10)

/-- The block "Select destination AP": the chosen `dst` (`none` is `undefined`) and the
avoided set after the filter has run. -/
def selectDestination (w : World F) (apKeys : List String) (pick : Nat) :
    Option String × List String :=
  match w.ACTIVE_STRATEGY with
  | .AVOID =>
    let availableAPs := apKeys.filter (fun bssid => !(avoidExcluded w bssid))
    let avoided := (apKeys.filter (fun bssid => avoidExcluded w bssid)).foldl JsSet.add
      w.AVOIDED_APS
    let targetPool :=
      if availableAPs.length > 0 then availableAPs else JsObject.keys w.LEGITIMATE_APS
    (targetPool.get? pick, avoided)
  | _ => (apKeys.get? pick, w.AVOIDED_APS)

/-- The sender side of the block "Build packet": the packet for a legitimate `dstAP`. -/
def buildPacket (H : Host F) (dev : Device) (dstAP : AP) (header : Header) (nonce : String)
    (iv : Buffer) : Except String Packet :=
  match H.deriveSharedX25519 dev.x.priv dstAP.kex.pub with
  | .error e => .error e
  | .ok sharedDev =>
    match H.hkdf sharedDev (H.bufferFrom "wifi-sim-salt") (H.bufferFrom "ap-payload") 32 with
    | .error e => .error e
    | .ok keyDev =>
      let headerBuf := H.bufferFrom (H.stringifyHeader header)
      match H.encryptGCM iv (H.stringifyBody "micro-pkt" nonce) keyDev headerBuf with
      | .error e => .error e
      | .ok enc =>
        match H.signEd25519 dev.ed.priv (headerBuf ++ H.bufferFromBase64 enc.ct) with
        | .error e => .error e
        | .ok sig =>
          .ok { header := header
                body := { iv := enc.iv, ct := enc.ct, tag := enc.tag, nonce := nonce }
                sig := sig }

/-- The block "Calculate cost based on ACTIVE_STRATEGY": the cost, `wasAvoided`, and the
verdict after the branch has (or has not) overwritten it. `inAvoided` is
`AVOIDED_APS.has(dst)`. -/
def assignCost (PAYOFF_MATRIX : PayoffMatrix F) (strategy : Strategy) (inAvoided : Bool)
    (actuallyEvil : Bool) (verdict : Verdict) : F × Bool × Verdict :=
  match strategy with
  | .TRUST =>
    if actuallyEvil then (PAYOFF_MATRIX.TRUST_DEFECT.cost, false, .reject .evilCaptured)
    else (PAYOFF_MATRIX.TRUST_COOPERATE.cost, false, verdict)
  | .VERIFY =>
    if actuallyEvil then (PAYOFF_MATRIX.VERIFY_DEFECT.cost, false, .reject .evilDetected)
    else (PAYOFF_MATRIX.VERIFY_COOPERATE.cost, false, verdict)
  | .AVOID =>
    if inAvoided then (PAYOFF_MATRIX.AVOID_DEFECT.cost, true, .reject .avoided)
    else if actuallyEvil then
      (PAYOFF_MATRIX.AVOID_DEFECT.cost, false, .reject .evilNotYetDetected)
    else (PAYOFF_MATRIX.AVOID_COOPERATE.cost, false, verdict)

/-- The block "Update statistics" (with the `packetsAvoided` increment of the AVOID
branch). -/
def updateStatistics (w : World F) (id : String) (dev : Device) (cost : F)
    (wasAvoided : Bool) (ok : Bool) : World F :=
  let stats := w.STATS
  let stats := { stats with
    packetsAvoided := if wasAvoided then stats.packetsAvoided + 1 else stats.packetsAvoided
    totalSent := stats.totalSent + 1
    cumulativeCost := stats.cumulativeCost + cost }
  let perMode := w.PER_MODE.modify w.ACTIVE_STRATEGY
    (fun m => { m with sent := m.sent + 1, cost := m.cost + cost })
  if ok then
    { w with
      STATS := { stats with totalDelivered := stats.totalDelivered + 1 }
      PER_MODE := perMode.modify w.ACTIVE_STRATEGY
        (fun m => { m with delivered := m.delivered + 1 })
      costSinceLastTick := w.costSinceLastTick + cost
      DEVICES := w.DEVICES.set id { dev with statsSent := dev.statsSent + 1 } }
  else
    { w with
      STATS := { stats with dropped := stats.dropped + 1 }
      PER_MODE := perMode.modify w.ACTIVE_STRATEGY
        (fun m => { m with dropped := m.dropped + 1 })
      costSinceLastTick := w.costSinceLastTick + cost }

/-- The block "Update detector" for an existing detector of `dst`. -/
def updateDetector (M : JsMath F) (w : World F) (dst : String)
    (detector : BayesianAPDetector F) (ok : Bool) (actuallyEvil : Bool) (tObs tUpd : Int) :
    World F :=
  let detector := detector.observePacket M ok tObs tUpd
  if detector.isLikelyEvil (2 / 10) && decide (detector.getConfidence > 5 / 10) &&
      actuallyEvil then
    if !detector.hasBeenCounted then
      { w with
        STATS := { w.STATS with
          evilAPsDetectedCorrectly := w.STATS.evilAPsDetectedCorrectly + 1 }
        DETECTORS := w.DETECTORS.set dst { detector with hasBeenCounted := true } }
    else { w with DETECTORS := w.DETECTORS.set dst detector }
  else { w with DETECTORS := w.DETECTORS.set dst detector }

/-- What one completed send did: the locals `dst`, `cost`, `wasAvoided`, the verdict as
returned by the protocol step (`protocolVerdict`), the verdict after the cost branch
(`verdict`, whose `ok` goes into the `packetCreated` event), and the argument handed to
`observePacket` (`observed`, `none` when `dst` has no detector). -/
structure SendTrace (F : Type) where
  dst : Option String
  strategy : Strategy
  actuallyEvil : Bool
  protocolVerdict : Verdict
  verdict : Verdict
  cost : F
  wasAvoided : Bool
  observed : Option Bool

/-- How a `createSendPacket` call ends: an early `return` (unknown device, no AP), an
exception escaping the sender-side crypto, or a completed send. -/
inductive SendOutcome (F : Type) where
  | noDevice
  | noAPs
  | threw (message : String)
  | sent (trace : SendTrace F)

/-- The block "Build packet" of `createSendPacket`: for a destination marked legitimate
the packet is built and handed to `verifyAndDecryptAtAP`; otherwise the verdict stays
`{ ok: false, reason: 'unknown' }`. An error is an exception thrown by the sender-side
crypto or by `verifyAndDecryptAtAP`. -/
def runProtocol (H : Host F) (w0 : World F) (id : String) (dev : Device)
    (dst : Option String) (dstAP : Option AP) (nonce : String) (draws : SendDraws) :
    Except String (Verdict × World F) :=
  match dst, dstAP with
  | some d, some ap =>
    if ap.isLegitimate then
      let header : Header :=
        { sender := id, toAp := d, ts := draws.ts, devX25519Pub := dev.x.pub,
          devEd25519Pub := dev.ed.pub }
      match buildPacket H dev ap header nonce draws.iv with
      | .error e => .error e
      | .ok packet => verifyAndDecryptAtAP H w0 packet draws.tVerify draws.tPrune
    else .ok (.reject .unknown, w0)
  | _, _ => .ok (.reject .unknown, w0)

/-- The test `AVOIDED_APS.has(dst)`; an `undefined` destination is in no set. -/
def dstInAvoided (avoided : List String) (dst : Option String) : Bool :=
  match dst with
  | some d => avoided.contains d
  | none => false

/-- The guarded call `if (detector) { ... }` of the block "Update detector": `detector` is
`DETECTORS.get(dst)`. -/
def feedDetector (M : JsMath F) (w2 : World F) (dst : Option String)
    (detector : Option (BayesianAPDetector F)) (ok : Bool) (actuallyEvil : Bool)
    (tObs tUpd : Int) : World F :=
  match dst, detector with
  | some d, some det => updateDetector M w2 d det ok actuallyEvil tObs tUpd
  | _, _ => w2

/-- The rest of `createSendPacket` after the protocol step: cost, statistics, detector
feedback, and the record of what was done. -/
def finishSend (M : JsMath F) (w1 : World F) (id : String) (dev : Device)
    (dst : Option String) (actuallyEvil : Bool) (protocolVerdict : Verdict)
    (draws : SendDraws) : SendTrace F × World F :=
  let inAvoided : Bool := dstInAvoided w1.AVOIDED_APS dst
  let priced := assignCost w1.PAYOFF_MATRIX w1.ACTIVE_STRATEGY inAvoided actuallyEvil
    protocolVerdict
  let cost := priced.1
  let wasAvoided := priced.2.1
  let verdict := priced.2.2
  let w2 := updateStatistics w1 id dev cost wasAvoided verdict.ok
  let detector := dst.bind w2.DETECTORS.get
  let w3 := feedDetector M w2 dst detector verdict.ok actuallyEvil draws.tObs draws.tUpd
  ({ dst := dst
     strategy := w1.ACTIVE_STRATEGY
     actuallyEvil := actuallyEvil
     protocolVerdict := protocolVerdict
     verdict := verdict
     cost := cost
     wasAvoided := wasAvoided
     observed := detector.map (fun _ => verdict.ok) }, w3)

/-- The function `createSendPacket(id)`. -/
def createSendPacket (M : JsMath F) (H : Host F) (w : World F) (id : String)
    (draws : SendDraws) : SendOutcome F × World F :=
  match w.DEVICES.get id with
  | none => (.noDevice, w)
  | some dev =>
    let apKeys := JsObject.keys (getAllAPs w)
    if apKeys.length = 0 then (.noAPs, w)
    else
      let sel := selectDestination w apKeys draws.pick
      let dst := sel.1
      let w0 : World F := { w with AVOIDED_APS := sel.2 }
      let nonce := toString draws.ts ++ ":" ++ draws.salt
      let dstAP : Option AP := (dst.bind (lookupAP w0)).map Prod.snd
      let actuallyEvil : Bool :=
        match dstAP with
        | some ap => !ap.isLegitimate
        | none => true
      match runProtocol H w0 id dev dst dstAP nonce draws with
      | .error e => (.threw e, w0)
      | .ok (protocolVerdict, w1) =>
        let done := finishSend M w1 id dev dst actuallyEvil protocolVerdict draws
        (.sent done.1, done.2)

/-! ### Names for the locals of `createSendPacket` -/

/-- The local `dst` of a `createSendPacket` call. -/
def chosenDst (w : World F) (draws : SendDraws) : Option String :=
  (selectDestination w (JsObject.keys (getAllAPs w)) draws.pick).1

/-- The set `AVOIDED_APS` once the destination has been selected. -/
def avoidedAfterSelection (w : World F) (draws : SendDraws) : List String :=
  (selectDestination w (JsObject.keys (getAllAPs w)) draws.pick).2

/-- The world once the destination has been selected. -/
def afterSelection (w : World F) (draws : SendDraws) : World F :=
  { w with AVOIDED_APS := avoidedAfterSelection w draws }

/-- The local `dstAP`. -/
def chosenAP (w : World F) (draws : SendDraws) : Option AP :=
  ((chosenDst w draws).bind (lookupAP (afterSelection w draws))).map Prod.snd

/-- The legitimacy flag of the destination, `false` when there is no such AP: the
negation of the local `actuallyEvil`. -/
def chosenIsLegitimate (w : World F) (draws : SendDraws) : Bool :=
  match chosenAP w draws with
  | some ap => ap.isLegitimate
  | none => false

/-- The test `AVOIDED_APS.has(dst)` as `createSendPacket` evaluates it. -/
def chosenInAvoided (w : World F) (draws : SendDraws) : Bool :=
  dstInAvoided (avoidedAfterSelection w draws) (chosenDst w draws)

/-- The protocol step of a `createSendPacket` call for the device record `dev`. -/
def protocolStep (H : Host F) (w : World F) (id : String) (dev : Device)
    (draws : SendDraws) : Except String (Verdict × World F) :=
  runProtocol H (afterSelection w draws) id dev (chosenDst w draws) (chosenAP w draws)
    (toString draws.ts ++ ":" ++ draws.salt) draws

/-- The cost table as the specification words it: the defect cost of the active strategy
when the destination is not legitimate (under AVOID also when it is in the avoided set),
the cooperate cost otherwise. -/
def costBySpec (PAYOFF_MATRIX : PayoffMatrix F) (strategy : Strategy) (inAvoided : Bool)
    (legitimate : Bool) : F :=
  match strategy with
  | .TRUST =>
    if legitimate = false then PAYOFF_MATRIX.TRUST_DEFECT.cost
    else PAYOFF_MATRIX.TRUST_COOPERATE.cost
  | .VERIFY =>
    if legitimate = false then PAYOFF_MATRIX.VERIFY_DEFECT.cost
    else PAYOFF_MATRIX.VERIFY_COOPERATE.cost
  | .AVOID =>
    if inAvoided = true ∨ legitimate = false then PAYOFF_MATRIX.AVOID_DEFECT.cost
    else PAYOFF_MATRIX.AVOID_COOPERATE.cost

/-- The expected device payoff of a strategy as the specification words it:
`(1 - p) * cooperate + p * defect` with the entries of the given matrix. -/
def expectedPayoff (PAYOFF_MATRIX : PayoffMatrix F) (strategy : Strategy) (p : F) : F :=
  match strategy with
  | .TRUST =>
    (1 - p) * PAYOFF_MATRIX.TRUST_COOPERATE.device + p * PAYOFF_MATRIX.TRUST_DEFECT.device
  | .VERIFY =>
    (1 - p) * PAYOFF_MATRIX.VERIFY_COOPERATE.device + p * PAYOFF_MATRIX.VERIFY_DEFECT.device
  | .AVOID =>
    (1 - p) * PAYOFF_MATRIX.AVOID_COOPERATE.device + p * PAYOFF_MATRIX.AVOID_DEFECT.device

/-- The largest of the three expected payoffs. -/
def bestExpectedPayoff (PAYOFF_MATRIX : PayoffMatrix F) (p : F) : F :=
  max (max (expectedPayoff PAYOFF_MATRIX .TRUST p) (expectedPayoff PAYOFF_MATRIX .VERIFY p))
    (expectedPayoff PAYOFF_MATRIX .AVOID p)

/-! ## Timers and socket commands -/

/-- The constant `STRATEGIES`. -/
def STRATEGIES : List Strategy := [.TRUST, .VERIFY, .AVOID]

/-- The constant `STRATEGY_WINDOW_MS`. -/
def STRATEGY_WINDOW_MS : Int := 30000

/-- The callback of the strategy rotation timer; `t` is its `Date.now()` read. -/
def rotateStrategy (w : World F) (t : Int) : World F :=
  let idx := (w.STRAT_IDX + 1) % STRATEGIES.length
  { w with
    STRAT_IDX := idx
    ACTIVE_STRATEGY := STRATEGIES.get ⟨idx, Nat.mod_lt _ (by decide)⟩
    MODE_ENDS_AT := t + STRATEGY_WINDOW_MS }

/-- The function `despawnGuestAP(bssid)`. -/
def despawnGuestAP (w : World F) (bssid : String) : World F :=
  match w.GUEST_APS.get bssid with
  | some _ =>
    { w with
      GUEST_APS := w.GUEST_APS.delete bssid
      EVIL_APS := if (w.EVIL_APS.get bssid).isSome then w.EVIL_APS.delete bssid else w.EVIL_APS
      DETECTORS := w.DETECTORS.delete bssid
      AVOIDED_APS := JsSet.delete w.AVOIDED_APS bssid }
  | none => w

/-- The random reads of one iteration of the loop of `spawnGuestAPs`: `pick` is
`Math.floor(Math.random() * legitKeys.length)`, `evilDraw` the `Math.random()` compared
with `SPOOF_CONFIG.evilProbability`, `stamp` the text
`Date.now().toString(36).slice(-4)`; `sign`, `kex`, `spawnTime` and `tDetector` are the
reads of the `makeAP` call. -/
structure GuestDraw (F : Type) where
  pick : Nat
  evilDraw : F
  stamp : String
  sign : KeyPair
  kex : KeyPair
  spawnTime : Int
  tDetector : Int

/-- The constant `SPOOF_CONFIG.guestAPsPerSpawn`. -/
def guestAPsPerSpawn : Nat := 4

/-- The id given to the `i`-th guest of a batch that mimics `target`. -/
def guestIdOf (target : AP) (stamp : String) (i : Nat) : String :=
  target.bssid ++ "_guest_" ++ stamp ++ "_" ++ toString i

/-- The loop of `spawnGuestAPs` over the remaining indices. An index whose target lookup
fails ends the call (the source would throw on `targetAP.pos`). -/
def spawnGuestLoop (M : JsMath F) (legitKeys : List String) (draws : Nat → GuestDraw F) :
    World F → List Nat → World F
  | w, [] => w
  | w, i :: rest =>
    match (legitKeys.get? (draws i).pick).bind
        (fun k => (w.LEGITIMATE_APS.get k).bind (fun r => w.heap[r]?)) with
    | none => w
    | some targetAP =>
      let isEvil := decide ((draws i).evilDraw < w.evilProbability)
      let isLegitimate := !isEvil
      let guestId := guestIdOf targetAP (draws i).stamp i
      spawnGuestLoop M legitKeys draws
        (makeAP M w guestId isLegitimate true (draws i).sign (draws i).kex (draws i).spawnTime
          (draws i).tDetector)
        rest

/-- The function `spawnGuestAPs()` (`SPOOF_CONFIG.enabled` is the constant `true`);
`draws i` are the random reads of iteration `i`. -/
def spawnGuestAPs (M : JsMath F) (w : World F) (draws : Nat → GuestDraw F) : World F :=
  let legitKeys := JsObject.keys w.LEGITIMATE_APS
  if legitKeys.length = 0 then w
  else spawnGuestLoop M legitKeys draws w (List.range guestAPsPerSpawn)

/-- The handler of `setTolerance`; `secs` is the value of `Number(secs)`, `none` for
`NaN`. -/
def setTolerance (w : World F) (secs : Option F) : World F :=
  let s : F :=
    match secs with
    | some n => if n = 0 then w.tsTolSecs else n
    | none => w.tsTolSecs
  { w with tsTolSecs := max 5 (min 300 s) }

/-- The handler of `setSensitivity`. -/
def setSensitivity (w : World F) (sensitivity : String) : World F :=
  let mode : Sensitivity := if sensitivity = "sensitive" then .sensitive else .non
  { w with DATA_SENSITIVITY := mode, PAYOFF_MATRIX := PAYOFF_MATRICES mode }

/-- The handler of `setEvilProbability`; `percent` is the value of `Number(percent)`,
`none` for `NaN`. -/
def setEvilProbability (w : World F) (percent : Option F) : World F :=
  let n : F :=
    match percent with
    | some n => n
    | none => 0
  { w with evilProbability := max 0 (min 100 n) / 100 }

/-- The handler of `connectDevice` for a string id that is not the name of a member of
`Object.prototype` (for such a name `DEVICES[id]` is the member, which the source stores
as the device); `ed` and `x` are the key pairs generated by the call. An empty id is
ignored, a known id keeps its record. -/
def connectDevice (w : World F) (id : String) (ed x : KeyPair) : World F :=
  if id = "" then w
  else
    match w.DEVICES.get id with
    | some dev => { w with DEVICES := w.DEVICES.set id dev }
    | none =>
      { w with
        DEVICES := w.DEVICES.set id
          { id := id, ed := ed, x := x, connectedTo := "AP1", statsSent := 0,
            statsDelivered := 0 } }

/-- The handler of `manualToggleEvil` for an id that is not the name of a member of
`Object.prototype`: only then is `allAPs[bssid]` the own-property lookup (for such a
name the source finds the member and writes `isLegitimate` on it, outside the state
modelled here). -/
def manualToggleEvil (w : World F) (bssid : String) : World F :=
  match lookupAP w bssid with
  | none => w
  | some (r, ap) =>
    let isLegitimate := !ap.isLegitimate
    let heap := w.heap.modify (fun a => { a with isLegitimate := isLegitimate }) r
    if isLegitimate then
      { w with
        heap := heap
        EVIL_APS :=
          if (w.EVIL_APS.get bssid).isSome then w.EVIL_APS.delete bssid else w.EVIL_APS
        AVOIDED_APS := JsSet.delete w.AVOIDED_APS bssid }
    else
      { w with
        heap := heap
        EVIL_APS := w.EVIL_APS.set bssid r
        STATS := { w.STATS with spoofersSpawned := w.STATS.spoofersSpawned + 1 } }

/-- The end of the stats timer callback: `costSinceLastTick = 0`. -/
def statsTick (w : World F) : World F :=
  { w with costSinceLastTick := 0 }

/-- Everything that changes the module state after start-up: the timer callbacks and the
socket commands, each with the values it reads from outside. The despawn timers and the
per-device send timers appear as free `despawnGuestAP` and `createSendPacket` events. -/
inductive Event (F : Type) where
  | rotate (t : Int)
  | spawnGuestAPs (draws : Nat → GuestDraw F)
  | despawnGuestAP (bssid : String)
  | createSendPacket (id : String) (draws : SendDraws)
  | setTolerance (secs : Option F)
  | setSensitivity (sensitivity : String)
  | setEvilProbability (percent : Option F)
  | connectDevice (id : String) (ed x : KeyPair)
  | manualToggleEvil (bssid : String)
  | statsTick

/-- One callback, run to completion. -/
def applyEvent (M : JsMath F) (H : Host F) (w : World F) : Event F → World F
  | .rotate t => rotateStrategy w t
  | .spawnGuestAPs draws => spawnGuestAPs M w draws
  | .despawnGuestAP bssid => despawnGuestAP w bssid
  | .createSendPacket id draws => (createSendPacket M H w id draws).2
  | .setTolerance secs => setTolerance w secs
  | .setSensitivity sensitivity => setSensitivity w sensitivity
  | .setEvilProbability percent => setEvilProbability w percent
  | .connectDevice id ed x => connectDevice w id ed x
  | .manualToggleEvil bssid => manualToggleEvil w bssid
  | .statsTick => statsTick w

/-- The state after a sequence of callbacks. -/
def run (M : JsMath F) (H : Host F) (w : World F) (events : List (Event F)) : World F :=
  events.foldl (applyEvent M H) w

/-- Whether an event is a tick of the rotation timer. -/
def Event.isRotate : Event F → Bool
  | .rotate _ => true
  | _ => false

/-- The scheduler and tuning variables: written by the rotation timer and the `set...`
commands only. -/
def World.settings (w : World F) :
    Nat × Strategy × Int × F × Sensitivity × PayoffMatrix F × F :=
  (w.STRAT_IDX, w.ACTIVE_STRATEGY, w.MODE_ENDS_AT, w.tsTolSecs, w.DATA_SENSITIVITY,
    w.PAYOFF_MATRIX, w.evilProbability)

/-- The fields of an AP object that nothing writes after `makeAP`. -/
def AP.identity (ap : AP) : String × KeyPair × KeyPair × Bool :=
  (ap.bssid, ap.sign, ap.kex, ap.isGuest)

/-- The counters that `createSendPacket` keeps both globally and per strategy. -/
def World.traffic (w : World F) : Nat × Nat × Nat × F × PerMode F :=
  (w.STATS.totalSent, w.STATS.totalDelivered, w.STATS.dropped, w.STATS.cumulativeCost,
    w.PER_MODE)

/-- The statement that each global counter is the sum of the three per-strategy
buckets. -/
def World.countersAgree (w : World F) : Prop :=
  w.STATS.totalSent = w.PER_MODE.TRUST.sent + w.PER_MODE.VERIFY.sent + w.PER_MODE.AVOID.sent ∧
  w.STATS.totalDelivered =
    w.PER_MODE.TRUST.delivered + w.PER_MODE.VERIFY.delivered + w.PER_MODE.AVOID.delivered ∧
  w.STATS.dropped =
    w.PER_MODE.TRUST.dropped + w.PER_MODE.VERIFY.dropped + w.PER_MODE.AVOID.dropped ∧
  w.STATS.cumulativeCost =
    w.PER_MODE.TRUST.cost + w.PER_MODE.VERIFY.cost + w.PER_MODE.AVOID.cost

/-- The names of the six APs made at start-up. -/
def fixedNames : List String := ["AP1", "AP2", "AP3", "AP4", "AP5", "AP6"]

/-- The registry `LEGITIMATE_APS` as the start-up calls leave it: the `n`-th fixed name
bound to the `n`-th object. -/
def fixedRegistry : JsObject Nat :=
  fixedNames.enum.map (fun e => (e.2, e.1))

/-- The trusted-repository entry of the `n`-th fixed AP, made with the keys generated for
it at start-up. -/
def fixedRepoEntry (keys : Nat → KeyPair × KeyPair) (n : Nat) (name : String) : RepoEntry :=
  { bssid := name, ed25519Pub := (keys n).1.pub, x25519Pub := (keys n).2.pub,
    isLegitimate := true }

/-- The statement that the fixed APs are where start-up put them: `LEGITIMATE_APS` is
`fixedRegistry` and the `n`-th object still has its name, its keys and `isGuest = false`. -/
def World.fixedAPsIntact (keys : Nat → KeyPair × KeyPair) (w : World F) : Prop :=
  w.LEGITIMATE_APS = fixedRegistry ∧
  ∀ (i : Nat) (name : String), fixedNames[i]? = some name →
    (w.heap[i]?).map AP.identity = some (name, (keys i).1, (keys i).2, false)

/-- The statement that every id in the guest registry is longer than a fixed name. -/
def World.guestIdsLong (w : World F) : Prop :=
  ∀ k ∈ w.GUEST_APS.keys, 3 < k.length

end Numeric

/-! ## A small host and start state for worked examples -/

section Examples

variable {F : Type} [LinearOrderedField F]

/-- The value of a non-empty string of decimal digits. -/
def digitsValue (s : String) : Option Nat :=
  if s.toList.isEmpty || !(s.toList.all Char.isDigit) then none
  else some (s.toList.foldl (fun acc c => 10 * acc + (c.toNat - 48)) 0)

/-- A stand-in host for worked examples. Key pairs have `pub = priv`; a signature is the
signer's key and verifies when it equals the claimed public key; encryption is the
identity and decryption always succeeds; `toNumber` reads decimal digit strings (on which
it agrees with `Number`). -/
def toyHost : Host F where
  stringifyHeader h := h.sender ++ "," ++ h.toAp ++ "," ++ toString h.ts
  stringifyBody msg nonce := msg ++ "," ++ nonce
  bufferFrom s := s.toList.map Char.toNat
  bufferFromBase64 s := s.toList.map Char.toNat
  toNumber s := (digitsValue s).map Nat.cast
  cryptoVerify _ pub sig := .ok (decide (sig = pub.toList.map Char.toNat))
  signEd25519 priv _ := .ok priv
  deriveSharedX25519 _ _ := .ok []
  hkdf km _ _ _ := .ok km
  encryptGCM _ plaintext _ _ := .ok { iv := "", ct := plaintext, tag := "" }
  decryptGCM enc _ _ := .ok enc.ct

/-- The key pairs of the worked examples: the same toy pair for every AP. -/
def toyKeys (_ : Nat) : KeyPair × KeyPair :=
  ({ pub := "s", priv := "s" }, { pub := "k", priv := "k" })

/-- A device `d1` as `connectDevice` would store it, with toy keys. -/
def toyDevice : Device :=
  { id := "d1", ed := { pub := "e", priv := "e" }, x := { pub := "x", priv := "x" },
    connectedTo := "AP1", statsSent := 0, statsDelivered := 0 }

/-- The start state with toy keys and tolerance 60 s, after `connectDevice` of `d1`. -/
def demoWorld (M : JsMath F) : World F :=
  { initialWorld M 60 0 toyKeys with DEVICES := [("d1", toyDevice)] }

/-- The object `AP1` of `demoWorld`. -/
def demoAP1 : AP :=
  { bssid := "AP1", sign := (toyKeys 0).1, kex := (toyKeys 0).2, isLegitimate := true,
    isGuest := false, spawnTime := 0, replay := [] }

/-- The packet that `buildPacket` makes under `toyHost` for `d1` sending to `AP1` at
`ts = 1000000` with the random nonce suffix `abc`. -/
def demoPacket : Packet :=
  { header :=
      { sender := "d1", toAp := "AP1", ts := 1000000, devX25519Pub := "x",
        devEd25519Pub := "e" }
    body := { iv := "", ct := "micro-pkt,1000000:abc", tag := "", nonce := "1000000:abc" }
    sig := "e" }

/-- The packet `demoPacket` with the destination id `constructor` in its header: an id
that no AP has and that names a member of `Object.prototype`. -/
def demoStrayPacket : Packet :=
  { demoPacket with header := { demoPacket.header with toAp := "constructor" } }

/-- The state `demoWorld` in an AVOID window with the legitimate `AP1` in the avoided set
while its posterior is below the exclusion threshold, as when an AP that was avoided in an
earlier window has since collected successes. What the worked send shows does not depend
on the contents of the detectors. -/
def demoAvoidWorld (M : JsMath F) : World F :=
  { demoWorld M with STRAT_IDX := 2, ACTIVE_STRATEGY := .AVOID, AVOIDED_APS := ["AP1"] }

/-- The draws of the worked send: first pool entry, nonce suffix `abc`, every clock read
at 1000000 ms. -/
def demoDraws : SendDraws :=
  { pick := 0, salt := "abc", iv := [], ts := 1000000, tVerify := 1000000,
    tPrune := 1000000, tObs := 1000000, tUpd := 1000000 }

/-- The random reads of a guest batch in which every iteration mimics the first fixed AP,
reads the clock at 5000 ms (stamp `abcd`) and draws `evilDraw` for the evil test. Two
batches handled within one millisecond read the same stamp. -/
def demoBatch (evilDraw : F) (_ : Nat) : GuestDraw F :=
  { pick := 0, evilDraw := evilDraw, stamp := "abcd", sign := { pub := "gs", priv := "gs" },
    kex := { pub := "gk", priv := "gk" }, spawnTime := 5000, tDetector := 5000 }

end Examples

/-! # Theorems -/

section DetectorFacts

variable {F : Type} [LinearOrderedField F]

theorem observePacket_posterior_mem (M : JsMath F) (d : BayesianAPDetector F) (success : Bool)
    (tObs t : Int) :
    1 / 1000 ≤ (d.observePacket M success tObs t).posteriorEvil ∧
      (d.observePacket M success tObs t).posteriorEvil ≤ 999 / 1000 := by
  constructor
  · exact le_max_left _ _
  · exact max_le (by norm_num) (min_le_left _ _)

theorem observeAll_posterior_mem (M : JsMath F) (obs : List (Bool × Int × Int)) :
    ∀ d : BayesianAPDetector F,
      (1 / 1000 ≤ d.posteriorEvil ∧ d.posteriorEvil ≤ 999 / 1000) →
      1 / 1000 ≤ (d.observeAll M obs).posteriorEvil ∧
        (d.observeAll M obs).posteriorEvil ≤ 999 / 1000 := by
  induction obs with
  | nil => intro d h; exact h
  | cons o rest ih =>
    intro d _
    exact ih _ (observePacket_posterior_mem M d o.1 o.2.1 o.2.2)

/-- C8: after construction and after any finite run of `observePacket` calls, with any
outcomes and any clock reads, `posteriorEvil` lies in `[0.001, 0.999]`; this holds for
whatever `Math.exp` and `Math.log` return. -/
theorem C8_posterior_in_clamp_interval (M : JsMath F) (apId : String) (t0 : Int)
    (obs : List (Bool × Int × Int)) :
    1 / 1000 ≤ ((BayesianAPDetector.create M apId t0).observeAll M obs).posteriorEvil ∧
      ((BayesianAPDetector.create M apId t0).observeAll M obs).posteriorEvil ≤ 999 / 1000 := by
  apply observeAll_posterior_mem
  constructor <;> norm_num [BayesianAPDetector.create]

/-- C2 (as the code behaves): under the "non" matrix, every AP of the belief map whose
evil-probability is exactly 1 gets the strategy AVOID, whose defect payoff 5 is the
largest of the three (TRUST -50, VERIFY -5). -/
theorem C2_non_evilProb_one_selects_AVOID (apBeliefs : List (String × F)) (apId : String)
    (h : (apId, (1 : F)) ∈ apBeliefs) :
    (apId,
      ({ strategy := Strategy.AVOID, evilProb := 1, trustExpected := -50,
         verifyExpected := -5, avoidExpected := 5 } : StrategyChoice F)) ∈
      computeOptimalStrategy (PAYOFF_MATRICES Sensitivity.non) apBeliefs := by
  have hone : computeOptimalStrategyFor (PAYOFF_MATRICES Sensitivity.non) (1 : F) =
      { strategy := Strategy.AVOID, evilProb := 1, trustExpected := -50,
        verifyExpected := -5, avoidExpected := 5 } := by
    simp only [computeOptimalStrategyFor, PAYOFF_MATRICES, PAYOFF_MATRICES_non]
    norm_num
  unfold computeOptimalStrategy
  rw [← hone]
  exact List.mem_map.2 ⟨(apId, 1), h, rfl⟩

theorem C2_non_evilProb_one_selects_AVOID_witness :
    (("AP1", (1 : ℚ)) ∈ [("AP1", (1 : ℚ)), ("AP2", 1 / 4)]) ∧
      ("AP1",
        ({ strategy := Strategy.AVOID, evilProb := 1, trustExpected := -50,
           verifyExpected := -5, avoidExpected := 5 } : StrategyChoice ℚ)) ∈
        computeOptimalStrategy (PAYOFF_MATRICES Sensitivity.non)
          [("AP1", (1 : ℚ)), ("AP2", 1 / 4)] :=
  ⟨by simp, C2_non_evilProb_one_selects_AVOID _ _ (by simp)⟩

/-- C2 fails as stated: with the "non" matrix and evil-probability 1 the router does not
return VERIFY. -/
theorem C2_counterexample :
    (computeOptimalStrategyFor (PAYOFF_MATRICES Sensitivity.non : PayoffMatrix ℚ) 1).strategy ≠
      Strategy.VERIFY := by
  simp only [computeOptimalStrategyFor, PAYOFF_MATRICES, PAYOFF_MATRICES_non]
  norm_num
  decide

theorem observeAll_cons (M : JsMath F) (d : BayesianAPDetector F) (o : Bool × Int × Int)
    (rest : List (Bool × Int × Int)) :
    d.observeAll M (o :: rest) = (d.observePacket M o.1 o.2.1 o.2.2).observeAll M rest :=
  rfl

/-- With `Math.exp(0) = 1`, `n` observations of one outcome at the instant of the last
update add `n` times the log likelihood ratio to the log-odds. -/
theorem observeAll_same_instant (M : JsMath F) (hexp : M.exp 0 = 1) (s : Bool)
    (tObs t : Int) :
    ∀ (n : Nat) (d : BayesianAPDetector F), d.lastUpdateAt = t →
      (d.observeAll M (List.replicate n (s, tObs, t))).logOdds =
        d.logOdds + n * M.log (d.lr s) := by
  intro n
  induction n with
  | zero => intro d _; simp [BayesianAPDetector.observeAll]
  | succ k ih =>
    intro d hd
    rw [List.replicate_succ, observeAll_cons, ih _ rfl]
    have hlr : (d.observePacket M s tObs t).lr s = d.lr s := rfl
    have hlo : (d.observePacket M s tObs t).logOdds = d.logOdds + M.log (d.lr s) := by
      simp [BayesianAPDetector.observePacket, hd, hexp]
    rw [hlr, hlo]
    push_cast
    ring

/-- After at least one observation the posterior is the clamped logistic of the
log-odds. -/
theorem observeAll_posterior_eq (M : JsMath F) (o : Bool × Int × Int)
    (rest : List (Bool × Int × Int)) (d : BayesianAPDetector F) :
    (d.observeAll M (o :: rest)).posteriorEvil =
      max (1 / 1000)
        (min (999 / 1000) (1 / (1 + M.exp (-(d.observeAll M (o :: rest)).logOdds)))) := by
  induction rest generalizing d o with
  | nil => rfl
  | cons o2 rest ih =>
    rw [observeAll_cons]
    exact ih o2 _

end DetectorFacts

section RealDetector

/-! ### The detector over the reals, with the true `exp` and `log` -/

theorem log_likelihood_ratio_gt_one : (1 : ℝ) < Real.log (17 / 3) := by
  rw [Real.lt_log_iff_exp_lt (by norm_num)]
  have h := Real.exp_one_lt_d9
  norm_num at h ⊢
  linarith

theorem log_three_bounds : 0 < Real.log 3 ∧ Real.log 3 ≤ 2 := by
  constructor
  · exact Real.log_pos (by norm_num)
  · have h := Real.log_le_sub_one_of_pos (show (0 : ℝ) < 3 by norm_num)
    linarith

theorem create_logOdds_real (apId : String) (t0 : Int) :
    (BayesianAPDetector.create (JsMath.mk Real.exp Real.log) apId t0).logOdds =
      -Real.log 3 := by
  have h : ((25 : ℝ) / 100) / (1 - 25 / 100) = 3⁻¹ := by norm_num
  simp only [BayesianAPDetector.create]
  rw [h, Real.log_inv]

theorem create_lr_real (apId : String) (t0 : Int) (success : Bool) :
    Real.log ((BayesianAPDetector.create (JsMath.mk Real.exp Real.log) apId t0).lr success) =
      if success then -Real.log (17 / 3) else Real.log (17 / 3) := by
  cases success
  · have h : ((85 : ℝ) / 100) / (15 / 100) = 17 / 3 := by norm_num
    simp [BayesianAPDetector.create, BayesianAPDetector.lr, h]
  · have h : ((15 : ℝ) / 100) / (85 / 100) = (17 / 3)⁻¹ := by norm_num
    simp only [BayesianAPDetector.create, BayesianAPDetector.lr, if_true]
    rw [h, Real.log_inv]

/-- The decay factor of an update after a non-negative elapsed time lies in `(0, 1]`. -/
theorem decay_mem (t0 t1 : Int) (h : t0 ≤ t1) :
    0 < Real.exp (-(((t1 - t0 : Int) : ℝ) / 1000) / 30) ∧
      Real.exp (-(((t1 - t0 : Int) : ℝ) / 1000) / 30) ≤ 1 := by
  refine ⟨Real.exp_pos _, Real.exp_le_one_iff.2 ?_⟩
  have h' : (0 : ℝ) ≤ ((t1 - t0 : Int) : ℝ) := by exact_mod_cast sub_nonneg.2 h
  have : 0 ≤ ((t1 - t0 : Int) : ℝ) / 1000 / 30 := by positivity
  linarith [neg_div (30 : ℝ) (((t1 - t0 : Int) : ℝ) / 1000)]

/-- The log-odds after the first observation of a fresh detector. -/
theorem first_observation_logOdds (apId : String) (t0 t1 tObs : Int) (success : Bool) :
    ((BayesianAPDetector.create (JsMath.mk Real.exp Real.log) apId t0).observePacket
        (JsMath.mk Real.exp Real.log) success tObs t1).logOdds =
      -Real.log 3 * Real.exp (-(((t1 - t0 : Int) : ℝ) / 1000) / 30) +
        (if success then -Real.log (17 / 3) else Real.log (17 / 3)) := by
  have h1 := create_logOdds_real apId t0
  have h2 := create_lr_real apId t0 success
  simp only [BayesianAPDetector.observePacket] at *
  rw [h1, h2]
  rfl

theorem logistic_gt_of_ge {L : ℝ} (h : 48 ≤ L) : 9 / 10 < 1 / (1 + Real.exp (-L)) := by
  have h1 : Real.exp (-L) ≤ Real.exp (-48) := Real.exp_le_exp.2 (by linarith)
  have h2 : Real.exp (-48) ≤ 1 / 49 := by
    rw [Real.exp_neg, inv_eq_one_div]
    apply one_div_le_one_div_of_le (by norm_num)
    have := Real.add_one_le_exp 48
    linarith
  have h3 : 0 < Real.exp (-L) := Real.exp_pos _
  rw [lt_div_iff₀ (by linarith)]
  linarith

theorem logistic_lt_of_le {L : ℝ} (h : L ≤ -50) : 1 / (1 + Real.exp (-L)) < 1 / 10 := by
  have h1 : Real.exp 50 ≤ Real.exp (-L) := Real.exp_le_exp.2 (by linarith)
  have h2 : (51 : ℝ) ≤ Real.exp 50 := by
    have := Real.add_one_le_exp 50
    linarith
  rw [div_lt_div_iff₀ (by linarith) (by norm_num)]
  linarith

/-- C9: a fresh detector (prior 0.25) fed 50 observations at one instant `t1` not before
its construction: 50 failures give `posteriorEvil > 0.9` and `isLikelyEvil(0.5)`, 50
successes give `posteriorEvil < 0.1` (exact real arithmetic). -/
theorem C9_convergence_fifty_observations (apId : String) (t0 t1 tObs : Int) (h : t0 ≤ t1) :
    (((BayesianAPDetector.create (JsMath.mk Real.exp Real.log) apId t0).observeAll
          (JsMath.mk Real.exp Real.log) (List.replicate 50 (false, tObs, t1))).posteriorEvil
        > 9 / 10 ∧
      ((BayesianAPDetector.create (JsMath.mk Real.exp Real.log) apId t0).observeAll
          (JsMath.mk Real.exp Real.log) (List.replicate 50 (false, tObs, t1))).isLikelyEvil
        (1 / 2) = true) ∧
    ((BayesianAPDetector.create (JsMath.mk Real.exp Real.log) apId t0).observeAll
        (JsMath.mk Real.exp Real.log) (List.replicate 50 (true, tObs, t1))).posteriorEvil
      < 1 / 10 := by
  have hc := log_likelihood_ratio_gt_one
  obtain ⟨hl3, hl3'⟩ := log_three_bounds
  obtain ⟨hd0, hd1⟩ := decay_mem t0 t1 h
  have hL : ∀ success : Bool,
      ((BayesianAPDetector.create (JsMath.mk Real.exp Real.log) apId t0).observeAll
          (JsMath.mk Real.exp Real.log) (List.replicate 50 (success, tObs, t1))).logOdds =
        -Real.log 3 * Real.exp (-(((t1 - t0 : Int) : ℝ) / 1000) / 30) +
          50 * (if success then -Real.log (17 / 3) else Real.log (17 / 3)) := by
    intro success
    rw [show (50 : Nat) = 49 + 1 from rfl, List.replicate_succ, observeAll_cons,
      observeAll_same_instant (JsMath.mk Real.exp Real.log) Real.exp_zero success tObs t1 49 _
        rfl,
      first_observation_logOdds]
    have hlr : ((BayesianAPDetector.create (JsMath.mk Real.exp Real.log) apId t0).observePacket
        (JsMath.mk Real.exp Real.log) success tObs t1).lr success =
        (BayesianAPDetector.create (JsMath.mk Real.exp Real.log) apId t0).lr success := rfl
    rw [hlr]
    have hlog := create_lr_real apId t0 success
    dsimp only at hlog ⊢
    rw [hlog]
    push_cast
    ring
  have hprod : Real.log 3 * Real.exp (-(((t1 - t0 : Int) : ℝ) / 1000) / 30) ≤ 2 := by
    nlinarith
  have hprod0 : 0 ≤ Real.log 3 * Real.exp (-(((t1 - t0 : Int) : ℝ) / 1000) / 30) := by
    positivity
  have hfail : 9 / 10 <
      ((BayesianAPDetector.create (JsMath.mk Real.exp Real.log) apId t0).observeAll
          (JsMath.mk Real.exp Real.log) (List.replicate 50 (false, tObs, t1))).posteriorEvil := by
    rw [show (50 : Nat) = 49 + 1 from rfl, List.replicate_succ, observeAll_posterior_eq,
      ← List.replicate_succ, ← show (50 : Nat) = 49 + 1 from rfl, hL false]
    apply lt_max_of_lt_right
    apply lt_min (by norm_num)
    apply logistic_gt_of_ge
    simp only [Bool.false_eq_true, if_false]
    nlinarith
  refine ⟨⟨hfail, ?_⟩, ?_⟩
  · simp only [BayesianAPDetector.isLikelyEvil, decide_eq_true_eq]
    linarith
  · rw [show (50 : Nat) = 49 + 1 from rfl, List.replicate_succ, observeAll_posterior_eq,
      ← List.replicate_succ, ← show (50 : Nat) = 49 + 1 from rfl, hL true]
    apply max_lt (by norm_num)
    apply min_lt_of_right_lt
    apply logistic_lt_of_le
    simp only [if_true]
    nlinarith

theorem C9_convergence_fifty_observations_witness :
    ((0 : Int) ≤ 0) ∧
    ((((BayesianAPDetector.create (JsMath.mk Real.exp Real.log) "AP1" 0).observeAll
          (JsMath.mk Real.exp Real.log) (List.replicate 50 (false, 0, 0))).posteriorEvil
        > 9 / 10 ∧
      ((BayesianAPDetector.create (JsMath.mk Real.exp Real.log) "AP1" 0).observeAll
          (JsMath.mk Real.exp Real.log) (List.replicate 50 (false, 0, 0))).isLikelyEvil
        (1 / 2) = true) ∧
    ((BayesianAPDetector.create (JsMath.mk Real.exp Real.log) "AP1" 0).observeAll
        (JsMath.mk Real.exp Real.log) (List.replicate 50 (true, 0, 0))).posteriorEvil
      < 1 / 10) :=
  ⟨le_refl 0, C9_convergence_fifty_observations "AP1" 0 0 0 (le_refl 0)⟩

/-- The decay factor after an idle gap of at least 300 s is at most `1/11`. -/
theorem decay_after_long_gap (t1 t2 : Int) (hgap : t1 + 300000 ≤ t2) :
    0 < Real.exp (-(((t2 - t1 : Int) : ℝ) / 1000) / 30) ∧
      Real.exp (-(((t2 - t1 : Int) : ℝ) / 1000) / 30) ≤ 1 / 11 := by
  refine ⟨Real.exp_pos _, ?_⟩
  have h' : (300000 : ℝ) ≤ ((t2 - t1 : Int) : ℝ) := by
    have : (300000 : Int) ≤ t2 - t1 := by linarith
    exact_mod_cast this
  have h1 : -(((t2 - t1 : Int) : ℝ) / 1000) / 30 ≤ -10 := by
    rw [neg_div, neg_le_neg_iff, le_div_iff₀ (by norm_num), le_div_iff₀ (by norm_num)]
    linarith
  have h2 : Real.exp (-10) ≤ 1 / 11 := by
    rw [Real.exp_neg, inv_eq_one_div]
    apply one_div_le_one_div_of_le (by norm_num)
    have := Real.add_one_le_exp 10
    linarith
  exact le_trans (Real.exp_le_exp.2 h1) h2

/-- C10: a fresh detector receives one observation at `t1` (not before its construction)
and a second one after an idle gap of at least 300 s. The resulting log-odds is
`(L0 * exp(-dt1/30) + log LR1) * exp(-dt2/30) + log LR2` and its magnitude is strictly
below `|log LR1| + |log LR2|` (exact real arithmetic). -/
theorem C10_decay_after_idle_gap (apId : String) (t0 t1 t2 tObs1 tObs2 : Int) (s1 s2 : Bool)
    (h01 : t0 ≤ t1) (hgap : t1 + 300000 ≤ t2) :
    ((((BayesianAPDetector.create (JsMath.mk Real.exp Real.log) apId t0).observePacket
          (JsMath.mk Real.exp Real.log) s1 tObs1 t1).observePacket
          (JsMath.mk Real.exp Real.log) s2 tObs2 t2).logOdds =
        ((BayesianAPDetector.create (JsMath.mk Real.exp Real.log) apId t0).logOdds *
              Real.exp (-(((t1 - t0 : Int) : ℝ) / 1000) / 30) +
            Real.log ((BayesianAPDetector.create (JsMath.mk Real.exp Real.log) apId t0).lr s1)) *
            Real.exp (-(((t2 - t1 : Int) : ℝ) / 1000) / 30) +
          Real.log ((BayesianAPDetector.create (JsMath.mk Real.exp Real.log) apId t0).lr s2)) ∧
    |(((BayesianAPDetector.create (JsMath.mk Real.exp Real.log) apId t0).observePacket
          (JsMath.mk Real.exp Real.log) s1 tObs1 t1).observePacket
          (JsMath.mk Real.exp Real.log) s2 tObs2 t2).logOdds| <
      |Real.log ((BayesianAPDetector.create (JsMath.mk Real.exp Real.log) apId t0).lr s1)| +
        |Real.log ((BayesianAPDetector.create (JsMath.mk Real.exp Real.log) apId t0).lr s2)| := by
  have hc := log_likelihood_ratio_gt_one
  obtain ⟨hl3, hl3'⟩ := log_three_bounds
  obtain ⟨hd0, hd1⟩ := decay_mem t0 t1 h01
  obtain ⟨he0, he1⟩ := decay_after_long_gap t1 t2 hgap
  have hL0 := create_logOdds_real apId t0
  have ha : ∀ s : Bool,
      |Real.log ((BayesianAPDetector.create (JsMath.mk Real.exp Real.log) apId t0).lr s)| =
        Real.log (17 / 3) := by
    intro s
    rw [create_lr_real]
    cases s
    · simp only [Bool.false_eq_true, if_false]
      exact abs_of_pos (by linarith)
    · simp only [if_true, abs_neg]
      exact abs_of_pos (by linarith)
  have heq : (((BayesianAPDetector.create (JsMath.mk Real.exp Real.log) apId t0).observePacket
          (JsMath.mk Real.exp Real.log) s1 tObs1 t1).observePacket
          (JsMath.mk Real.exp Real.log) s2 tObs2 t2).logOdds =
        ((BayesianAPDetector.create (JsMath.mk Real.exp Real.log) apId t0).logOdds *
              Real.exp (-(((t1 - t0 : Int) : ℝ) / 1000) / 30) +
            Real.log ((BayesianAPDetector.create (JsMath.mk Real.exp Real.log) apId t0).lr s1)) *
            Real.exp (-(((t2 - t1 : Int) : ℝ) / 1000) / 30) +
          Real.log ((BayesianAPDetector.create (JsMath.mk Real.exp Real.log) apId t0).lr s2) :=
    rfl
  refine ⟨heq, ?_⟩
  rw [heq, ha s1, ha s2, hL0]
  have h1 : |(-Real.log 3) * Real.exp (-(((t1 - t0 : Int) : ℝ) / 1000) / 30) +
      Real.log ((BayesianAPDetector.create (JsMath.mk Real.exp Real.log) apId t0).lr s1)| ≤
      2 + Real.log (17 / 3) := by
    refine le_trans (abs_add _ _) ?_
    rw [ha s1, abs_mul, abs_neg, abs_of_pos hl3, abs_of_pos hd0]
    nlinarith
  refine lt_of_le_of_lt (abs_add _ _) ?_
  rw [ha s2, abs_mul, abs_of_pos he0]
  have h2 := abs_nonneg ((-Real.log 3) * Real.exp (-(((t1 - t0 : Int) : ℝ) / 1000) / 30) +
      Real.log ((BayesianAPDetector.create (JsMath.mk Real.exp Real.log) apId t0).lr s1))
  nlinarith

theorem C10_decay_after_idle_gap_witness :
    ((0 : Int) ≤ 1000 ∧ (1000 : Int) + 300000 ≤ 301000) ∧
    |(((BayesianAPDetector.create (JsMath.mk Real.exp Real.log) "AP1" 0).observePacket
          (JsMath.mk Real.exp Real.log) false 1000 1000).observePacket
          (JsMath.mk Real.exp Real.log) false 301000 301000).logOdds| <
      |Real.log ((BayesianAPDetector.create (JsMath.mk Real.exp Real.log) "AP1" 0).lr false)| +
        |Real.log ((BayesianAPDetector.create (JsMath.mk Real.exp Real.log) "AP1" 0).lr false)| :=
  ⟨⟨by decide, by decide⟩,
    (C10_decay_after_idle_gap "AP1" 0 1000 301000 1000 301000 false false (by decide)
      (by decide)).2⟩

end RealDetector

section Protocol

variable {F : Type} [LinearOrderedField F]

/-! ### The reads of `verifyAndDecryptAtAP` -/

theorem readAP_own (w : World F) (bssid : String) (r : Nat) (ap : AP)
    (hl : lookupAP w bssid = some (r, ap)) : readAP w bssid = .own (r, ap) := by
  simp only [readAP, hl]

theorem readAP_undefined (w : World F) (bssid : String) (hl : lookupAP w bssid = none)
    (hname : objectPrototypeKeys.contains bssid = false) : readAP w bssid = .undefined := by
  simp only [readAP, hl, hname, Bool.false_eq_true, if_false]

theorem readAP_inherited (w : World F) (bssid : String) (hl : lookupAP w bssid = none)
    (hname : objectPrototypeKeys.contains bssid = true) : readAP w bssid = .inherited := by
  simp only [readAP, hl, hname, if_true]

/-- For a key that is not the name of a member of `Object.prototype` the read is defined
exactly when there is an own property. -/
theorem read_isDefined_of_plain {α : Type} (o : JsObject α) (k : String)
    (hname : objectPrototypeKeys.contains k = false) :
    (o.read k).isDefined = (o.get k).isSome := by
  unfold JsObject.read
  cases o.get k with
  | none => simp only [hname, Bool.false_eq_true, if_false]; rfl
  | some v => rfl

/-- For the name of a member of `Object.prototype` the read is always defined. -/
theorem read_isDefined_of_inherited {α : Type} (o : JsObject α) (k : String)
    (hname : objectPrototypeKeys.contains k = true) : (o.read k).isDefined = true := by
  unfold JsObject.read
  cases o.get k with
  | none => simp only [hname, if_true]; rfl
  | some v => rfl

/-- An own property is a defined read. -/
theorem read_isDefined_of_get {α : Type} (o : JsObject α) (k : String)
    (h : (o.get k).isSome = true) : (o.read k).isDefined = true := by
  unfold JsObject.read
  cases hg : o.get k with
  | none => rw [hg] at h; cases h
  | some v => rfl

/-! ### `verifyAndDecryptAtAP`, one path at a time -/

theorem verify_dest_unknown (H : Host F) (w : World F) (packet : Packet) (tNow tPrune : Int)
    (hl : lookupAP w packet.header.toAp = none)
    (hname : objectPrototypeKeys.contains packet.header.toAp = false) :
    verifyAndDecryptAtAP H w packet tNow tPrune = .ok (.reject .destNotFound, w) := by
  simp only [verifyAndDecryptAtAP, readAP_undefined w _ hl hname]

theorem verify_stale (H : Host F) (w : World F) (packet : Packet) (tNow tPrune : Int)
    (r : Nat) (ap : AP) (hl : lookupAP w packet.header.toAp = some (r, ap))
    (h2 : ((|tNow - packet.header.ts| : Int) : F) > w.tsTolSecs * 1000) :
    verifyAndDecryptAtAP H w packet tNow tPrune =
      .ok (.reject (.staleTs ((|tNow - packet.header.ts| + 500) / 1000)), w) := by
  simp only [verifyAndDecryptAtAP, readAP_own w _ r ap hl, if_pos h2]

theorem verify_untrusted (H : Host F) (w : World F) (packet : Packet) (tNow tPrune : Int)
    (r : Nat) (ap : AP) (hl : lookupAP w packet.header.toAp = some (r, ap))
    (h2 : ¬ ((|tNow - packet.header.ts| : Int) : F) > w.tsTolSecs * 1000)
    (h3 : (!((getTrustedRepo w).read packet.header.toAp).isDefined && !ap.isLegitimate) =
      true) :
    verifyAndDecryptAtAP H w packet tNow tPrune = .ok (.reject .untrusted, w) := by
  simp only [verifyAndDecryptAtAP, readAP_own w _ r ap hl, if_neg h2, h3, if_true]

theorem verify_bad_signature (H : Host F) (w : World F) (packet : Packet) (tNow tPrune : Int)
    (r : Nat) (ap : AP) (hl : lookupAP w packet.header.toAp = some (r, ap))
    (h2 : ¬ ((|tNow - packet.header.ts| : Int) : F) > w.tsTolSecs * 1000)
    (h3 : (!((getTrustedRepo w).read packet.header.toAp).isDefined && !ap.isLegitimate) =
      false)
    (h4 : verifyEd25519 H packet.header.devEd25519Pub
      (headOf H packet ++ H.bufferFromBase64 packet.body.ct) packet.sig = false) :
    verifyAndDecryptAtAP H w packet tNow tPrune = .ok (.reject .badSignature, w) := by
  simp only [headOf] at h4
  simp only [verifyAndDecryptAtAP, readAP_own w _ r ap hl, if_neg h2, h3, h4,
    Bool.false_eq_true, if_false, Bool.not_false, if_true]

theorem verify_replay (H : Host F) (w : World F) (packet : Packet) (tNow tPrune : Int)
    (r : Nat) (ap : AP) (hl : lookupAP w packet.header.toAp = some (r, ap))
    (h2 : ¬ ((|tNow - packet.header.ts| : Int) : F) > w.tsTolSecs * 1000)
    (h3 : (!((getTrustedRepo w).read packet.header.toAp).isDefined && !ap.isLegitimate) =
      false)
    (h4 : verifyEd25519 H packet.header.devEd25519Pub
      (headOf H packet ++ H.bufferFromBase64 packet.body.ct) packet.sig = true)
    (h5 : packet.body.nonce ∈ pruneReplay H tPrune ap.replay) :
    verifyAndDecryptAtAP H w packet tNow tPrune =
      .ok (.reject .replayDetected, w.setReplay r (pruneReplay H tPrune ap.replay)) := by
  simp only [headOf] at h4
  have h5' : (pruneReplay H tPrune ap.replay).contains packet.body.nonce = true :=
    List.elem_iff.2 h5
  simp only [verifyAndDecryptAtAP, readAP_own w _ r ap hl, if_neg h2, h3, h4, h5',
    Bool.false_eq_true, if_false, Bool.not_true, if_true]

theorem verify_past_replay (H : Host F) (w : World F) (packet : Packet) (tNow tPrune : Int)
    (r : Nat) (ap : AP) (hl : lookupAP w packet.header.toAp = some (r, ap))
    (h2 : ¬ ((|tNow - packet.header.ts| : Int) : F) > w.tsTolSecs * 1000)
    (h3 : (!((getTrustedRepo w).read packet.header.toAp).isDefined && !ap.isLegitimate) =
      false)
    (h4 : verifyEd25519 H packet.header.devEd25519Pub
      (headOf H packet ++ H.bufferFromBase64 packet.body.ct) packet.sig = true)
    (h5 : packet.body.nonce ∉ pruneReplay H tPrune ap.replay) :
    verifyAndDecryptAtAP H w packet tNow tPrune =
      .ok (match decryptAtAP H ap packet (headOf H packet) with
        | .ok pt => Verdict.accept pt
        | .error e => Verdict.reject (.decryptFailed e),
        w.setReplay r (pruneReplay H tPrune ap.replay ++ [packet.body.nonce])) := by
  simp only [headOf] at h4
  have h5' : (pruneReplay H tPrune ap.replay).contains packet.body.nonce = false := by
    cases hc : (pruneReplay H tPrune ap.replay).contains packet.body.nonce
    · rfl
    · exact absurd (List.elem_iff.1 hc) h5
  simp only [verifyAndDecryptAtAP, readAP_own w _ r ap hl, if_neg h2, h3, h4, h5',
    Bool.false_eq_true, if_false, Bool.not_true, headOf]
  cases decryptAtAP H ap packet (H.bufferFrom (H.stringifyHeader packet.header)) <;> rfl

/-! ### A destination id that names a member of `Object.prototype` -/

/-- When no AP has the destination id and the id is the name of a member of
`Object.prototype`, the lookup finds the member: the call does not report an unknown
destination. It returns the stale-timestamp rejection or the bad-signature rejection, and
otherwise throws in `pruneReplay`. -/
theorem verify_inherited (H : Host F) (w : World F) (packet : Packet) (tNow tPrune : Int)
    (hl : lookupAP w packet.header.toAp = none)
    (hname : objectPrototypeKeys.contains packet.header.toAp = true) :
    verifyAndDecryptAtAP H w packet tNow tPrune =
      if ((|tNow - packet.header.ts| : Int) : F) > w.tsTolSecs * 1000 then
        .ok (.reject (.staleTs ((|tNow - packet.header.ts| + 500) / 1000)), w)
      else if verifyEd25519 H packet.header.devEd25519Pub
          (headOf H packet ++ H.bufferFromBase64 packet.body.ct) packet.sig = false then
        .ok (.reject .badSignature, w)
      else .error "TypeError: undefined is not iterable" := by
  have hrepo := read_isDefined_of_inherited (getTrustedRepo w) packet.header.toAp hname
  simp only [verifyAndDecryptAtAP, readAP_inherited w _ hl hname, hrepo, headOf]
  by_cases h2 : ((|tNow - packet.header.ts| : Int) : F) > w.tsTolSecs * 1000
  · simp only [if_pos h2]
  · simp only [if_neg h2]
    by_cases hs : verifyEd25519 H packet.header.devEd25519Pub
      (H.bufferFrom (H.stringifyHeader packet.header) ++ H.bufferFromBase64 packet.body.ct)
      packet.sig = false
    · simp [hs]
    · have hs' : verifyEd25519 H packet.header.devEd25519Pub
          (H.bufferFrom (H.stringifyHeader packet.header) ++
            H.bufferFromBase64 packet.body.ct) packet.sig = true := by
        simpa using hs
      simp [hs']

theorem verify_inherited_never_unknown (H : Host F) (w : World F) (packet : Packet)
    (tNow tPrune : Int) (hl : lookupAP w packet.header.toAp = none)
    (hname : objectPrototypeKeys.contains packet.header.toAp = true) (w1 : World F) :
    verifyAndDecryptAtAP H w packet tNow tPrune ≠ .ok (.reject .destNotFound, w1) := by
  rw [verify_inherited H w packet tNow tPrune hl hname]
  split
  · intro h; cases h
  · split
    · intro h; cases h
    · intro h; cases h

theorem untrusted_test_iff {α : Type} (o : Option α) (b : Bool) :
    (!o.isSome && !b) = true ↔ (o.isNone = true ∧ b = false) := by
  cases o <;> cases b <;> simp

/-- For a destination id that is not the name of a member of `Object.prototype`, the code
computes the specification's verdict, and accepts exactly when no check fails. -/
theorem verify_matches_spec (H : Host F) (w : World F) (packet : Packet)
    (tNow tPrune : Int)
    (hname : objectPrototypeKeys.contains packet.header.toAp = false) :
    ∃ v w1, verifyAndDecryptAtAP H w packet tNow tPrune = .ok (v, w1) ∧
      verdictBySpec H w packet tNow tPrune = some v ∧
      (v.ok = true ↔ ∀ c : Check, checkFails H w packet tNow tPrune c = none) := by
  have hrepo := read_isDefined_of_plain (getTrustedRepo w) packet.header.toAp hname
  cases hl : lookupAP w packet.header.toAp with
  | none =>
    have c1 : checkFails H w packet tNow tPrune .destUnknown = some .destNotFound := by
      simp only [checkFails, hl, Option.isNone_none, if_true]
    refine ⟨_, _, verify_dest_unknown H w packet tNow tPrune hl hname, ?_, ?_⟩
    · simp only [verdictBySpec, Check.order, List.findSome?, c1]
    constructor
    · intro h; cases h
    · intro h; rw [h] at c1; cases c1
  | some p =>
    obtain ⟨r, ap⟩ := p
    have c1 : checkFails H w packet tNow tPrune .destUnknown = none := by
      simp only [checkFails, hl, Option.isNone_some, Bool.false_eq_true, if_false]
    by_cases h2 : ((|tNow - packet.header.ts| : Int) : F) > w.tsTolSecs * 1000
    · have c2 : checkFails H w packet tNow tPrune .staleTimestamp =
          some (.staleTs ((|tNow - packet.header.ts| + 500) / 1000)) := by
        simp only [checkFails, if_pos h2]
      refine ⟨_, _, verify_stale H w packet tNow tPrune r ap hl h2, ?_, ?_⟩
      · simp only [verdictBySpec, Check.order, List.findSome?, c1, c2]
      constructor
      · intro h; cases h
      · intro h; rw [h] at c2; cases c2
    · have c2 : checkFails H w packet tNow tPrune .staleTimestamp = none := by
        simp only [checkFails, if_neg h2]
      by_cases h3 : ((getTrustedRepo w).get packet.header.toAp).isNone = true ∧
          ap.isLegitimate = false
      · have c3 : checkFails H w packet tNow tPrune .untrustedAP = some .untrusted := by
          simp only [checkFails, hl, if_pos h3]
        refine ⟨_, _, verify_untrusted H w packet tNow tPrune r ap hl h2
          (by rw [hrepo]; exact (untrusted_test_iff _ _).2 h3), ?_, ?_⟩
        · simp only [verdictBySpec, Check.order, List.findSome?, c1, c2, c3]
        constructor
        · intro h; cases h
        · intro h; rw [h] at c3; cases c3
      · have c3 : checkFails H w packet tNow tPrune .untrustedAP = none := by
          simp only [checkFails, hl, if_neg h3]
        have h3' : (!((getTrustedRepo w).read packet.header.toAp).isDefined &&
            !ap.isLegitimate) = false := by
          rw [hrepo]
          cases hb : (!((getTrustedRepo w).get packet.header.toAp).isSome && !ap.isLegitimate)
          · rfl
          · exact absurd ((untrusted_test_iff _ _).1 hb) h3
        cases h4 : verifyEd25519 H packet.header.devEd25519Pub
            (headOf H packet ++ H.bufferFromBase64 packet.body.ct) packet.sig with
        | false =>
          have c4 : checkFails H w packet tNow tPrune .badSignature = some .badSignature := by
            simp only [checkFails, h4, if_true]
          refine ⟨_, _, verify_bad_signature H w packet tNow tPrune r ap hl h2 h3' h4, ?_, ?_⟩
          · simp only [verdictBySpec, Check.order, List.findSome?, c1, c2, c3, c4]
          constructor
          · intro h; cases h
          · intro h; rw [h] at c4; cases c4
        | true =>
          have c4 : checkFails H w packet tNow tPrune .badSignature = none := by
            simp only [checkFails, h4, Bool.true_eq_false, if_false]
          by_cases h5 : packet.body.nonce ∈ pruneReplay H tPrune ap.replay
          · have c5 : checkFails H w packet tNow tPrune .replay = some .replayDetected := by
              simp only [checkFails, hl, if_pos h5]
            refine ⟨_, _, verify_replay H w packet tNow tPrune r ap hl h2 h3' h4 h5, ?_, ?_⟩
            · simp only [verdictBySpec, Check.order, List.findSome?, c1, c2, c3, c4, c5]
            constructor
            · intro h; cases h
            · intro h; rw [h] at c5; cases c5
          · have c5 : checkFails H w packet tNow tPrune .replay = none := by
              simp only [checkFails, hl, if_neg h5]
            have hv := verify_past_replay H w packet tNow tPrune r ap hl h2 h3' h4 h5
            cases h6 : decryptAtAP H ap packet (headOf H packet) with
            | error e =>
              have c6 : checkFails H w packet tNow tPrune .decryptFailure =
                  some (.decryptFailed e) := by
                simp only [checkFails, hl, h6]
              rw [h6] at hv
              refine ⟨_, _, hv, ?_, ?_⟩
              · simp only [verdictBySpec, Check.order, List.findSome?, c1, c2, c3, c4, c5, c6]
              constructor
              · intro h; cases h
              · intro h; rw [h] at c6; cases c6
            | ok pt =>
              have c6 : checkFails H w packet tNow tPrune .decryptFailure = none := by
                simp only [checkFails, hl, h6]
              rw [h6] at hv
              refine ⟨_, _, hv, ?_, ?_⟩
              · simp only [verdictBySpec, Check.order, List.findSome?, c1, c2, c3, c4, c5, c6,
                  hl, h6]
              constructor
              · intro _ c
                cases c <;> assumption
              · intro _; rfl

/-- A packet to a registered AP that passes the six checks is accepted, with the
plaintext of the decryption, and its nonce is appended to the pruned replay window. -/
theorem verify_all_pass (H : Host F) (w : World F) (packet : Packet) (tNow tPrune : Int)
    (r : Nat) (ap : AP) (hl : lookupAP w packet.header.toAp = some (r, ap))
    (hall : ∀ c : Check, checkFails H w packet tNow tPrune c = none) :
    ∃ pt, decryptAtAP H ap packet (headOf H packet) = .ok pt ∧
      verifyAndDecryptAtAP H w packet tNow tPrune =
        .ok (.accept pt,
          w.setReplay r (pruneReplay H tPrune ap.replay ++ [packet.body.nonce])) := by
  have h2 : ¬ ((|tNow - packet.header.ts| : Int) : F) > w.tsTolSecs * 1000 := by
    intro h
    have := hall .staleTimestamp
    simp only [checkFails, if_pos h] at this
    cases this
  have h3 : (!((getTrustedRepo w).read packet.header.toAp).isDefined && !ap.isLegitimate) =
      false := by
    cases hb : (!((getTrustedRepo w).read packet.header.toAp).isDefined && !ap.isLegitimate)
    · rfl
    · exfalso
      simp only [Bool.and_eq_true, Bool.not_eq_true'] at hb
      have hnone : ((getTrustedRepo w).get packet.header.toAp).isNone = true := by
        cases hg : ((getTrustedRepo w).get packet.header.toAp) with
        | none => rfl
        | some v =>
          have := read_isDefined_of_get (getTrustedRepo w) packet.header.toAp
            (by rw [hg]; rfl)
          rw [this] at hb
          cases hb.1
      have := hall .untrustedAP
      simp only [checkFails, hl, if_pos (And.intro hnone hb.2)] at this
      cases this
  have h4 : verifyEd25519 H packet.header.devEd25519Pub
      (headOf H packet ++ H.bufferFromBase64 packet.body.ct) packet.sig = true := by
    cases hs : verifyEd25519 H packet.header.devEd25519Pub
      (headOf H packet ++ H.bufferFromBase64 packet.body.ct) packet.sig
    · have := hall .badSignature
      simp only [checkFails, hs, if_true] at this
      cases this
    · rfl
  have h5 : packet.body.nonce ∉ pruneReplay H tPrune ap.replay := by
    intro h
    have := hall .replay
    simp only [checkFails, hl, if_pos h] at this
    cases this
  have hv := verify_past_replay H w packet tNow tPrune r ap hl h2 h3 h4 h5
  cases h6 : decryptAtAP H ap packet (headOf H packet) with
  | error e =>
    have := hall .decryptFailure
    simp only [checkFails, hl, h6] at this
    cases this
  | ok pt =>
    rw [h6] at hv
    exact ⟨pt, rfl, hv⟩

/-- A packet to a known destination that is not stale ends in one of the later
outcomes. -/
theorem verify_fresh_cases (H : Host F) (w : World F) (packet : Packet) (tNow tPrune : Int)
    (r : Nat) (ap : AP) (hl : lookupAP w packet.header.toAp = some (r, ap))
    (h2 : ¬ ((|tNow - packet.header.ts| : Int) : F) > w.tsTolSecs * 1000) :
    (verifyAndDecryptAtAP H w packet tNow tPrune).map Prod.fst = .ok (.reject .untrusted) ∨
      (verifyAndDecryptAtAP H w packet tNow tPrune).map Prod.fst =
        .ok (.reject .badSignature) ∨
      (verifyAndDecryptAtAP H w packet tNow tPrune).map Prod.fst =
        .ok (.reject .replayDetected) ∨
      (∃ e, (verifyAndDecryptAtAP H w packet tNow tPrune).map Prod.fst =
        .ok (.reject (.decryptFailed e))) ∨
      (∃ pt, (verifyAndDecryptAtAP H w packet tNow tPrune).map Prod.fst =
        .ok (.accept pt)) := by
  cases h3 : (!((getTrustedRepo w).read packet.header.toAp).isDefined && !ap.isLegitimate) with
  | true => left; rw [verify_untrusted H w packet tNow tPrune r ap hl h2 h3]; rfl
  | false =>
    cases h4 : verifyEd25519 H packet.header.devEd25519Pub
        (headOf H packet ++ H.bufferFromBase64 packet.body.ct) packet.sig with
    | false =>
      right; left; rw [verify_bad_signature H w packet tNow tPrune r ap hl h2 h3 h4]; rfl
    | true =>
      by_cases h5 : packet.body.nonce ∈ pruneReplay H tPrune ap.replay
      · right; right; left
        rw [verify_replay H w packet tNow tPrune r ap hl h2 h3 h4 h5]; rfl
      · rw [verify_past_replay H w packet tNow tPrune r ap hl h2 h3 h4 h5]
        cases decryptAtAP H ap packet (headOf H packet) with
        | error e => right; right; right; left; exact ⟨e, rfl⟩
        | ok pt => right; right; right; right; exact ⟨pt, rfl⟩

/-- A call for a destination id that an AP has returns a verdict object: it does not
throw. -/
theorem verify_returns_of_own (H : Host F) (w : World F) (packet : Packet)
    (tNow tPrune : Int) (r : Nat) (ap : AP)
    (hl : lookupAP w packet.header.toAp = some (r, ap)) :
    ∃ v w1, verifyAndDecryptAtAP H w packet tNow tPrune = .ok (v, w1) := by
  by_cases h2 : ((|tNow - packet.header.ts| : Int) : F) > w.tsTolSecs * 1000
  · exact ⟨_, _, verify_stale H w packet tNow tPrune r ap hl h2⟩
  · cases h3 : (!((getTrustedRepo w).read packet.header.toAp).isDefined &&
        !ap.isLegitimate) with
    | true => exact ⟨_, _, verify_untrusted H w packet tNow tPrune r ap hl h2 h3⟩
    | false =>
      cases h4 : verifyEd25519 H packet.header.devEd25519Pub
          (headOf H packet ++ H.bufferFromBase64 packet.body.ct) packet.sig with
      | false => exact ⟨_, _, verify_bad_signature H w packet tNow tPrune r ap hl h2 h3 h4⟩
      | true =>
        by_cases h5 : packet.body.nonce ∈ pruneReplay H tPrune ap.replay
        · exact ⟨_, _, verify_replay H w packet tNow tPrune r ap hl h2 h3 h4 h5⟩
        · exact ⟨_, _, verify_past_replay H w packet tNow tPrune r ap hl h2 h3 h4 h5⟩

/-- C4: for a packet to a known destination and any tolerance `T = tsTolSecs`: when
`|now - header.ts|` is exactly `T * 1000` ms the stale check passes, the verdict is not a
stale-timestamp rejection, and the packet is accepted as soon as the other checks pass;
when it is `T * 1000 + 1` ms the verdict is the stale-timestamp rejection. -/
theorem C4_timestamp_boundary (H : Host F) (w : World F) (packet : Packet)
    (tNow tPrune : Int) (r : Nat) (ap : AP)
    (hl : lookupAP w packet.header.toAp = some (r, ap)) :
    (((|tNow - packet.header.ts| : Int) : F) = w.tsTolSecs * 1000 →
        checkFails H w packet tNow tPrune .staleTimestamp = none ∧
        (∀ n, (verifyAndDecryptAtAP H w packet tNow tPrune).map Prod.fst ≠
          .ok (.reject (.staleTs n))) ∧
        ((∀ c : Check, c ≠ .staleTimestamp → checkFails H w packet tNow tPrune c = none) →
          (verifyAndDecryptAtAP H w packet tNow tPrune).map (fun res => res.1.ok) =
            .ok true)) ∧
      (((|tNow - packet.header.ts| : Int) : F) = w.tsTolSecs * 1000 + 1 →
        (verifyAndDecryptAtAP H w packet tNow tPrune).map Prod.fst =
          .ok (.reject (.staleTs ((|tNow - packet.header.ts| + 500) / 1000)))) := by
  constructor
  · intro hage
    have h2 : ¬ ((|tNow - packet.header.ts| : Int) : F) > w.tsTolSecs * 1000 := by
      rw [hage]; exact lt_irrefl _
    have c2 : checkFails H w packet tNow tPrune .staleTimestamp = none := by
      simp only [checkFails, if_neg h2]
    refine ⟨c2, ?_, ?_⟩
    · intro n hn
      rcases verify_fresh_cases H w packet tNow tPrune r ap hl h2 with
        h | h | h | ⟨e, h⟩ | ⟨pt, h⟩ <;>
        · rw [h] at hn; cases hn
    · intro hrest
      obtain ⟨pt, _, hv⟩ := verify_all_pass H w packet tNow tPrune r ap hl (by
        intro c
        by_cases hc : c = .staleTimestamp
        · rw [hc]; exact c2
        · exact hrest c hc)
      rw [hv]
      rfl
  · intro hage
    have h2 : ((|tNow - packet.header.ts| : Int) : F) > w.tsTolSecs * 1000 := by
      rw [hage]; exact lt_add_one _
    rw [verify_stale H w packet tNow tPrune r ap hl h2]
    rfl

/-! ### The replay window across calls -/

theorem getTrustedRepo_setReplay (w : World F) (r : Nat) (replay : List String) :
    getTrustedRepo (w.setReplay r replay) = getTrustedRepo w := by
  unfold getTrustedRepo World.setReplay
  congr 1
  funext repo r'
  simp only [List.getElem?_modify]
  cases w.heap[r']? with
  | none => rfl
  | some a =>
    by_cases h : r = r'
    · simp [h]
    · simp [h]

theorem lookupAP_setReplay (w : World F) (r : Nat) (replay : List String) (bssid : String)
    (ap : AP) (hl : lookupAP w bssid = some (r, ap)) :
    lookupAP (w.setReplay r replay) bssid = some (r, { ap with replay := replay }) := by
  unfold lookupAP at hl ⊢
  have hall : getAllAPs (w.setReplay r replay) = getAllAPs w := rfl
  rw [hall]
  cases hg : (getAllAPs w).get bssid with
  | none => rw [hg] at hl; cases hl
  | some r' =>
    rw [hg] at hl
    simp only [Option.some_bind] at hl ⊢
    cases hh : w.heap[r']? with
    | none => rw [hh] at hl; cases hl
    | some a =>
      rw [hh] at hl
      simp only [Option.map_some', Option.some.injEq, Prod.mk.injEq] at hl
      obtain ⟨h1, h2⟩ := hl
      subst h1 h2
      simp [World.setReplay, List.getElem?_modify, hh]

theorem mem_pruneReplay (H : Host F) (t : Int) (replay : List String) (n : String) :
    n ∈ pruneReplay H t replay ↔ n ∈ replay ∧ nonceExpired H t n = false := by
  simp [pruneReplay, List.mem_filter]

/-- An accepted packet passed every test, and the world it leaves differs only by the
destination's replay window: the pruned window followed by the packet's nonce. -/
theorem verify_accept_inv (H : Host F) (w w1 : World F) (packet : Packet) (tNow tPrune : Int)
    (pt : String) (h : verifyAndDecryptAtAP H w packet tNow tPrune = .ok (.accept pt, w1)) :
    ∃ r ap, lookupAP w packet.header.toAp = some (r, ap) ∧
      ¬ ((|tNow - packet.header.ts| : Int) : F) > w.tsTolSecs * 1000 ∧
      (!((getTrustedRepo w).read packet.header.toAp).isDefined && !ap.isLegitimate) = false ∧
      verifyEd25519 H packet.header.devEd25519Pub
        (headOf H packet ++ H.bufferFromBase64 packet.body.ct) packet.sig = true ∧
      packet.body.nonce ∉ pruneReplay H tPrune ap.replay ∧
      decryptAtAP H ap packet (headOf H packet) = .ok pt ∧
      w1 = w.setReplay r (pruneReplay H tPrune ap.replay ++ [packet.body.nonce]) := by
  cases hl : lookupAP w packet.header.toAp with
  | none =>
    cases hname : objectPrototypeKeys.contains packet.header.toAp with
    | false => rw [verify_dest_unknown H w packet tNow tPrune hl hname] at h; cases h
    | true =>
      rw [verify_inherited H w packet tNow tPrune hl hname] at h
      split at h
      · cases h
      · split at h
        · cases h
        · cases h
  | some p =>
    obtain ⟨r, ap⟩ := p
    by_cases h2 : ((|tNow - packet.header.ts| : Int) : F) > w.tsTolSecs * 1000
    · rw [verify_stale H w packet tNow tPrune r ap hl h2] at h; cases h
    · cases h3 : (!((getTrustedRepo w).read packet.header.toAp).isDefined &&
          !ap.isLegitimate) with
      | true => rw [verify_untrusted H w packet tNow tPrune r ap hl h2 h3] at h; cases h
      | false =>
        cases h4 : verifyEd25519 H packet.header.devEd25519Pub
            (headOf H packet ++ H.bufferFromBase64 packet.body.ct) packet.sig with
        | false =>
          rw [verify_bad_signature H w packet tNow tPrune r ap hl h2 h3 h4] at h; cases h
        | true =>
          by_cases h5 : packet.body.nonce ∈ pruneReplay H tPrune ap.replay
          · rw [verify_replay H w packet tNow tPrune r ap hl h2 h3 h4 h5] at h; cases h
          · rw [verify_past_replay H w packet tNow tPrune r ap hl h2 h3 h4 h5] at h
            cases h6 : decryptAtAP H ap packet (headOf H packet) with
            | error e => rw [h6] at h; cases h
            | ok pt' =>
              rw [h6] at h
              simp only [Except.ok.injEq, Prod.mk.injEq, Verdict.accept.injEq] at h
              obtain ⟨hp, hw⟩ := h
              subst hp
              refine ⟨r, ap, rfl, h2, ?_, ?_, h5, ?_, hw.symm⟩ <;> first | assumption | rfl

/-- C5 (as the code behaves): once a packet has been accepted, its nonce is in the
destination's replay window, and submitting the identical packet again is rejected with
"replay detected" provided the packet is still within the timestamp tolerance at the
second call and `pruneReplay` has not expired the nonce (its timestamp is at most 120 s
old, or does not parse). -/
theorem C5_resubmission_is_replay (H : Host F) (w w1 : World F) (packet : Packet)
    (t1 tPrune1 t2 tPrune2 : Int) (pt : String)
    (hfirst : verifyAndDecryptAtAP H w packet t1 tPrune1 = .ok (.accept pt, w1))
    (hfresh : ¬ ((|t2 - packet.header.ts| : Int) : F) > w1.tsTolSecs * 1000)
    (hlive : nonceExpired H tPrune2 packet.body.nonce = false) :
    (∃ r ap, lookupAP w1 packet.header.toAp = some (r, ap) ∧ packet.body.nonce ∈ ap.replay) ∧
      (verifyAndDecryptAtAP H w1 packet t2 tPrune2).map Prod.fst =
        .ok (.reject .replayDetected) := by
  obtain ⟨r, ap, hl, _, h3, h4, _, _, hw⟩ := verify_accept_inv H w w1 packet t1 tPrune1 pt hfirst
  subst hw
  have hl1 := lookupAP_setReplay w r (pruneReplay H tPrune1 ap.replay ++ [packet.body.nonce])
    packet.header.toAp ap hl
  refine ⟨⟨r, _, hl1, by simp⟩, ?_⟩
  have h3' : (!((getTrustedRepo (w.setReplay r
      (pruneReplay H tPrune1 ap.replay ++ [packet.body.nonce]))).read
        packet.header.toAp).isDefined &&
      !({ ap with replay := pruneReplay H tPrune1 ap.replay ++ [packet.body.nonce] } :
        AP).isLegitimate) = false := by
    rw [getTrustedRepo_setReplay]; exact h3
  have h5 : packet.body.nonce ∈ pruneReplay H tPrune2
      ({ ap with replay := pruneReplay H tPrune1 ap.replay ++ [packet.body.nonce] } :
        AP).replay :=
    (mem_pruneReplay H tPrune2 _ _).2 ⟨by simp, hlive⟩
  rw [verify_replay H _ packet t2 tPrune2 r _ hl1 hfresh h3' h4 h5]
  rfl

/-- C6: a nonce whose timestamp is more than 120 s old at the `pruneReplay` read is not in
the pruned replay window (whether or not the window held it), so a packet carrying it
that passes every other check is accepted. -/
theorem C6_expired_nonce_never_matched (H : Host F) (w : World F) (packet : Packet)
    (tNow tPrune : Int) (r : Nat) (ap : AP) (stamp : F)
    (hl : lookupAP w packet.header.toAp = some (r, ap))
    (hstamp : H.toNumber (firstField packet.body.nonce) = some stamp)
    (hold : (tPrune : F) - stamp > (NONCE_TTL_MS : F))
    (hothers : ∀ c : Check, c ≠ .replay → checkFails H w packet tNow tPrune c = none) :
    packet.body.nonce ∉ pruneReplay H tPrune ap.replay ∧
      (verifyAndDecryptAtAP H w packet tNow tPrune).map (fun res => res.1.ok) =
        .ok true := by
  have hexp : nonceExpired H tPrune packet.body.nonce = true := by
    simp only [nonceExpired, hstamp, decide_eq_true_eq]
    exact hold
  have h5 : packet.body.nonce ∉ pruneReplay H tPrune ap.replay := by
    intro hm
    have := ((mem_pruneReplay H tPrune _ _).1 hm).2
    rw [hexp] at this
    cases this
  obtain ⟨pt, _, hv⟩ := verify_all_pass H w packet tNow tPrune r ap hl (by
    intro c
    by_cases hc : c = .replay
    · rw [hc]
      simp only [checkFails, hl, if_neg h5]
    · exact hothers c hc)
  refine ⟨h5, ?_⟩
  rw [hv]
  rfl

end Protocol

section Sends

variable {F : Type} [LinearOrderedField F]

/-! ### One send, step by step -/

/-- How a call with a known device and a non-empty AP table unfolds. -/
theorem createSendPacket_eq (M : JsMath F) (H : Host F) (w : World F) (id : String)
    (draws : SendDraws) (dev : Device) (hdev : w.DEVICES.get id = some dev)
    (hkeys : (JsObject.keys (getAllAPs w)).length ≠ 0) :
    createSendPacket M H w id draws =
      match protocolStep H w id dev draws with
      | .error e => (.threw e, afterSelection w draws)
      | .ok (protocolVerdict, w1) =>
        (.sent (finishSend M w1 id dev (chosenDst w draws) (!chosenIsLegitimate w draws)
            protocolVerdict draws).1,
          (finishSend M w1 id dev (chosenDst w draws) (!chosenIsLegitimate w draws)
            protocolVerdict draws).2) := by
  have hevil : (match chosenAP w draws with
      | some ap => !ap.isLegitimate
      | none => true) = !chosenIsLegitimate w draws := by
    unfold chosenIsLegitimate
    cases chosenAP w draws <;> rfl
  simp only [createSendPacket, hdev, if_neg hkeys]
  unfold protocolStep
  rw [← hevil]
  rfl

/-- A completed send comes from a known device, a non-empty AP table and a protocol step
that did not throw. -/
theorem createSendPacket_sent_inv (M : JsMath F) (H : Host F) (w w' : World F) (id : String)
    (draws : SendDraws) (tr : SendTrace F)
    (h : createSendPacket M H w id draws = (.sent tr, w')) :
    ∃ dev protocolVerdict w1, w.DEVICES.get id = some dev ∧
      protocolStep H w id dev draws = .ok (protocolVerdict, w1) ∧
      (finishSend M w1 id dev (chosenDst w draws) (!chosenIsLegitimate w draws)
        protocolVerdict draws) = (tr, w') := by
  cases hdev : w.DEVICES.get id with
  | none => simp only [createSendPacket, hdev] at h; cases h
  | some dev =>
    by_cases hkeys : (JsObject.keys (getAllAPs w)).length = 0
    · simp only [createSendPacket, hdev, if_pos hkeys] at h; cases h
    · rw [createSendPacket_eq M H w id draws dev hdev hkeys] at h
      cases hp : protocolStep H w id dev draws with
      | error e => rw [hp] at h; cases h
      | ok res =>
        obtain ⟨pv, w1⟩ := res
        rw [hp] at h
        simp only [Prod.mk.injEq, SendOutcome.sent.injEq] at h
        exact ⟨dev, pv, w1, rfl, hp, Prod.ext h.1 h.2⟩

/-- A call of `verifyAndDecryptAtAP` that returns changes nothing but the heap. -/
theorem verify_frame (H : Host F) (w w1 : World F) (packet : Packet) (tNow tPrune : Int)
    (v : Verdict) (h : verifyAndDecryptAtAP H w packet tNow tPrune = .ok (v, w1)) :
    w1 = { w with heap := w1.heap } := by
  have key : ∀ (v' : Verdict) (w' : World F), w' = { w with heap := w'.heap } →
      (Except.ok (v', w') : Except String (Verdict × World F)) = .ok (v, w1) →
      w1 = { w with heap := w1.heap } := by
    intro v' w' hw' he
    simp only [Except.ok.injEq, Prod.mk.injEq] at he
    rw [← he.2]
    exact hw'
  cases hl : lookupAP w packet.header.toAp with
  | none =>
    cases hname : objectPrototypeKeys.contains packet.header.toAp with
    | false =>
      rw [verify_dest_unknown H w packet tNow tPrune hl hname] at h
      exact key _ _ rfl h
    | true =>
      rw [verify_inherited H w packet tNow tPrune hl hname] at h
      split at h
      · exact key _ _ rfl h
      · split at h
        · exact key _ _ rfl h
        · cases h
  | some p =>
    obtain ⟨r, ap⟩ := p
    by_cases h2 : ((|tNow - packet.header.ts| : Int) : F) > w.tsTolSecs * 1000
    · rw [verify_stale H w packet tNow tPrune r ap hl h2] at h
      exact key _ _ rfl h
    · cases h3 : (!((getTrustedRepo w).read packet.header.toAp).isDefined &&
          !ap.isLegitimate) with
      | true =>
        rw [verify_untrusted H w packet tNow tPrune r ap hl h2 h3] at h
        exact key _ _ rfl h
      | false =>
        cases h4 : verifyEd25519 H packet.header.devEd25519Pub
            (headOf H packet ++ H.bufferFromBase64 packet.body.ct) packet.sig with
        | false =>
          rw [verify_bad_signature H w packet tNow tPrune r ap hl h2 h3 h4] at h
          exact key _ _ rfl h
        | true =>
          by_cases h5 : packet.body.nonce ∈ pruneReplay H tPrune ap.replay
          · rw [verify_replay H w packet tNow tPrune r ap hl h2 h3 h4 h5] at h
            exact key _ _ rfl h
          · rw [verify_past_replay H w packet tNow tPrune r ap hl h2 h3 h4 h5] at h
            exact key _ _ rfl h

/-- The protocol step changes nothing but the heap. -/
theorem runProtocol_frame (H : Host F) (w0 w1 : World F) (id : String) (dev : Device)
    (dst : Option String) (dstAP : Option AP) (nonce : String) (draws : SendDraws)
    (pv : Verdict) (h : runProtocol H w0 id dev dst dstAP nonce draws = .ok (pv, w1)) :
    w1 = { w0 with heap := w1.heap } := by
  unfold runProtocol at h
  split at h
  · split at h
    · dsimp only at h
      split at h
      · cases h
      · rename_i packet _
        exact verify_frame H w0 w1 packet draws.tVerify draws.tPrune pv h
    · simp only [Except.ok.injEq, Prod.mk.injEq] at h
      rw [← h.2]
  · simp only [Except.ok.injEq, Prod.mk.injEq] at h
    rw [← h.2]

/-- A destination that is not marked legitimate gets the forced failure verdict. -/
theorem runProtocol_not_legitimate (H : Host F) (w0 : World F) (id : String) (dev : Device)
    (dst : Option String) (dstAP : Option AP) (nonce : String) (draws : SendDraws)
    (hevil : (match dstAP with
      | some ap => ap.isLegitimate
      | none => false) = false) :
    runProtocol H w0 id dev dst dstAP nonce draws = .ok (.reject .unknown, w0) := by
  unfold runProtocol
  cases dst with
  | none => rfl
  | some d =>
    cases dstAP with
    | none => rfl
    | some ap =>
      simp only at hevil
      simp only [hevil, Bool.false_eq_true, if_false]

theorem assignCost_cost (PM : PayoffMatrix F) (s : Strategy) (inAvoided actuallyEvil : Bool)
    (v : Verdict) :
    (assignCost PM s inAvoided actuallyEvil v).1 = costBySpec PM s inAvoided (!actuallyEvil) := by
  cases s <;> cases inAvoided <;> cases actuallyEvil <;> simp [assignCost, costBySpec]

theorem assignCost_ok (PM : PayoffMatrix F) (s : Strategy) (inAvoided actuallyEvil : Bool)
    (v : Verdict) (hv : actuallyEvil = true → v.ok = false) :
    (assignCost PM s inAvoided actuallyEvil v).2.2.ok =
      if s = .AVOID ∧ inAvoided = true then false else v.ok := by
  cases s <;> cases inAvoided <;> cases actuallyEvil <;>
    simp [assignCost, Verdict.ok] <;> simpa using hv

theorem lookup_map_replace {α : Type} (k : String) (v : α) :
    ∀ o : List (String × α), o.any (fun e => e.1 == k) = true →
      List.lookup k (o.map (fun e => if e.1 == k then (k, v) else e)) = some v := by
  intro o
  induction o with
  | nil => intro h; simp at h
  | cons e rest ih =>
    obtain ⟨a, b⟩ := e
    intro hany
    by_cases he : a = k
    · have h1 : (a == k) = true := by simpa using he
      rw [List.map_cons]
      dsimp only
      rw [if_pos h1, List.lookup_cons_self]
    · have h1 : (a == k) = false := by simpa using he
      have h2 : (k == a) = false := by simpa using fun h : k = a => he h.symm
      simp only [List.any_cons, h1, Bool.false_or] at hany
      rw [List.map_cons]
      dsimp only
      rw [if_neg (by simp [h1]), List.lookup_cons, h2]
      exact ih hany

theorem lookup_append_new {α : Type} (k : String) (v : α) :
    ∀ o : List (String × α), o.any (fun e => e.1 == k) = false →
      List.lookup k (o ++ [(k, v)]) = some v := by
  intro o
  induction o with
  | nil => intro _; simp [List.lookup]
  | cons e rest ih =>
    obtain ⟨a, b⟩ := e
    intro hany
    simp only [List.any_cons, Bool.or_eq_false_iff] at hany
    have h2 : (k == a) = false := by
      have h1 := hany.1
      simp only [beq_eq_false_iff_ne, ne_eq] at h1 ⊢
      exact fun h => h1 h.symm
    rw [List.cons_append, List.lookup_cons, h2]
    exact ih hany.2

theorem JsObject.get_set_self {α : Type} (o : JsObject α) (k : String) (v : α) :
    (o.set k v).get k = some v := by
  unfold JsObject.set JsObject.get
  cases hany : o.any (fun e => e.1 == k) with
  | true => simp only [if_true]; exact lookup_map_replace k v o hany
  | false => simp only [Bool.false_eq_true, if_false]; exact lookup_append_new k v o hany

theorem updateDetector_detector (M : JsMath F) (w : World F)
    (dst : String) (det : BayesianAPDetector F) (ok actuallyEvil : Bool) (tObs tUpd : Int) :
    ∃ counted, (updateDetector M w dst det ok actuallyEvil tObs tUpd).DETECTORS.get dst =
      some { det.observePacket M ok tObs tUpd with hasBeenCounted := counted } := by
  unfold updateDetector
  dsimp only
  split
  · split
    · exact ⟨true, JsObject.get_set_self _ _ _⟩
    · exact ⟨(det.observePacket M ok tObs tUpd).hasBeenCounted, JsObject.get_set_self _ _ _⟩
  · exact ⟨(det.observePacket M ok tObs tUpd).hasBeenCounted, JsObject.get_set_self _ _ _⟩

theorem updateDetector_costs (M : JsMath F) (w : World F)
    (dst : String) (det : BayesianAPDetector F) (ok actuallyEvil : Bool) (tObs tUpd : Int) :
    (updateDetector M w dst det ok actuallyEvil tObs tUpd).STATS.cumulativeCost =
        w.STATS.cumulativeCost ∧
      (updateDetector M w dst det ok actuallyEvil tObs tUpd).PER_MODE = w.PER_MODE ∧
      (updateDetector M w dst det ok actuallyEvil tObs tUpd).costSinceLastTick =
        w.costSinceLastTick := by
  unfold updateDetector
  dsimp only
  split
  · split <;> exact ⟨rfl, rfl, rfl⟩
  · exact ⟨rfl, rfl, rfl⟩

theorem updateStatistics_costs (w : World F) (id : String) (dev : Device) (cost : F)
    (wasAvoided ok : Bool) :
    (updateStatistics w id dev cost wasAvoided ok).STATS.cumulativeCost =
        w.STATS.cumulativeCost + cost ∧
      ((updateStatistics w id dev cost wasAvoided ok).PER_MODE.get w.ACTIVE_STRATEGY).cost =
        (w.PER_MODE.get w.ACTIVE_STRATEGY).cost + cost ∧
      (updateStatistics w id dev cost wasAvoided ok).costSinceLastTick =
        w.costSinceLastTick + cost ∧
      (updateStatistics w id dev cost wasAvoided ok).DETECTORS = w.DETECTORS := by
  unfold updateStatistics
  cases ok <;> cases hs : w.ACTIVE_STRATEGY <;>
    simp [PerMode.modify, PerMode.get]

theorem feedDetector_costs (M : JsMath F) (w2 : World F) (dst : Option String)
    (detector : Option (BayesianAPDetector F)) (ok actuallyEvil : Bool) (tObs tUpd : Int) :
    (feedDetector M w2 dst detector ok actuallyEvil tObs tUpd).STATS.cumulativeCost =
        w2.STATS.cumulativeCost ∧
      (feedDetector M w2 dst detector ok actuallyEvil tObs tUpd).PER_MODE = w2.PER_MODE ∧
      (feedDetector M w2 dst detector ok actuallyEvil tObs tUpd).costSinceLastTick =
        w2.costSinceLastTick := by
  cases dst with
  | none => exact ⟨rfl, rfl, rfl⟩
  | some d =>
    cases detector with
    | none => exact ⟨rfl, rfl, rfl⟩
    | some det => exact updateDetector_costs M w2 d det ok actuallyEvil tObs tUpd

/-- What `finishSend` does to the cost accumulators. -/
theorem finishSend_costs (M : JsMath F) (w1 : World F) (id : String) (dev : Device)
    (dst : Option String) (actuallyEvil : Bool) (pv : Verdict) (draws : SendDraws) :
    (finishSend M w1 id dev dst actuallyEvil pv draws).2.STATS.cumulativeCost =
        w1.STATS.cumulativeCost + (finishSend M w1 id dev dst actuallyEvil pv draws).1.cost ∧
      ((finishSend M w1 id dev dst actuallyEvil pv draws).2.PER_MODE.get w1.ACTIVE_STRATEGY).cost =
        (w1.PER_MODE.get w1.ACTIVE_STRATEGY).cost +
          (finishSend M w1 id dev dst actuallyEvil pv draws).1.cost ∧
      (finishSend M w1 id dev dst actuallyEvil pv draws).2.costSinceLastTick =
        w1.costSinceLastTick + (finishSend M w1 id dev dst actuallyEvil pv draws).1.cost := by
  refine ⟨?_, ?_, ?_⟩
  · exact (feedDetector_costs M _ dst _ _ _ _ _).1.trans
      (updateStatistics_costs w1 id dev _ _ _).1
  · have h := (feedDetector_costs M (updateStatistics w1 id dev
        (finishSend M w1 id dev dst actuallyEvil pv draws).1.cost
        (finishSend M w1 id dev dst actuallyEvil pv draws).1.wasAvoided
        (finishSend M w1 id dev dst actuallyEvil pv draws).1.verdict.ok) dst
        (dst.bind (updateStatistics w1 id dev
          (finishSend M w1 id dev dst actuallyEvil pv draws).1.cost
          (finishSend M w1 id dev dst actuallyEvil pv draws).1.wasAvoided
          (finishSend M w1 id dev dst actuallyEvil pv draws).1.verdict.ok).DETECTORS.get)
        (finishSend M w1 id dev dst actuallyEvil pv draws).1.verdict.ok actuallyEvil
        draws.tObs draws.tUpd).2.1
    have h2 := (updateStatistics_costs w1 id dev
        (finishSend M w1 id dev dst actuallyEvil pv draws).1.cost
        (finishSend M w1 id dev dst actuallyEvil pv draws).1.wasAvoided
        (finishSend M w1 id dev dst actuallyEvil pv draws).1.verdict.ok).2.1
    rw [← h] at h2
    exact h2
  · exact (feedDetector_costs M _ dst _ _ _ _ _).2.2.trans
      (updateStatistics_costs w1 id dev _ _ _).2.2.1

/-- The detector of `dst` after `finishSend`, and the boolean it was fed. -/
theorem finishSend_detector (M : JsMath F) (w1 : World F) (id : String) (dev : Device)
    (d : String) (det : BayesianAPDetector F) (actuallyEvil : Bool) (pv : Verdict)
    (draws : SendDraws) (hdet : w1.DETECTORS.get d = some det) :
    (finishSend M w1 id dev (some d) actuallyEvil pv draws).1.observed =
        some (finishSend M w1 id dev (some d) actuallyEvil pv draws).1.verdict.ok ∧
      ∃ counted,
        (finishSend M w1 id dev (some d) actuallyEvil pv draws).2.DETECTORS.get d =
          some { det.observePacket M
              (finishSend M w1 id dev (some d) actuallyEvil pv draws).1.verdict.ok
              draws.tObs draws.tUpd with hasBeenCounted := counted } := by
  have hD : ∀ (c : F) (wa ok : Bool),
      (updateStatistics w1 id dev c wa ok).DETECTORS.get d = some det := by
    intro c wa ok
    rw [(updateStatistics_costs w1 id dev c wa ok).2.2.2]; exact hdet
  constructor
  · show Option.map _ (Option.bind (some d) _) = _
    rw [Option.some_bind, hD]
    rfl
  · show ∃ counted, (feedDetector M _ (some d) (Option.bind (some d) _) _ _ _ _).DETECTORS.get d = _
    rw [Option.some_bind, hD]
    exact updateDetector_detector M _ d det _ actuallyEvil draws.tObs draws.tUpd

/-- The verdict of the protocol step: the forced failure for a destination that is not
marked legitimate, the result of `verifyAndDecryptAtAP` on the built packet otherwise. -/
theorem protocolStep_outcome (H : Host F) (w w1 : World F) (id : String) (dev : Device)
    (draws : SendDraws) (pv : Verdict)
    (h : protocolStep H w id dev draws = .ok (pv, w1)) :
    (chosenIsLegitimate w draws = false → pv = .reject .unknown) ∧
      (chosenIsLegitimate w draws = true →
        ∃ d ap packet, chosenDst w draws = some d ∧ chosenAP w draws = some ap ∧
          buildPacket H dev ap
            { sender := id, toAp := d, ts := draws.ts, devX25519Pub := dev.x.pub,
              devEd25519Pub := dev.ed.pub }
            (toString draws.ts ++ ":" ++ draws.salt) draws.iv = .ok packet ∧
          (verifyAndDecryptAtAP H (afterSelection w draws) packet draws.tVerify
            draws.tPrune).map Prod.fst = .ok pv) := by
  unfold protocolStep at h
  constructor
  · intro hl
    rw [runProtocol_not_legitimate H _ id dev _ _ _ draws hl] at h
    simp only [Except.ok.injEq, Prod.mk.injEq] at h
    exact h.1.symm
  · intro hl
    unfold chosenIsLegitimate at hl
    cases hap : chosenAP w draws with
    | none => rw [hap] at hl; cases hl
    | some ap =>
      rw [hap] at hl h
      simp only at hl
      cases hd : chosenDst w draws with
      | none =>
        unfold chosenAP at hap
        rw [hd] at hap
        cases hap
      | some d =>
        rw [hd] at h
        simp only [runProtocol, hl, if_true] at h
        cases hb : buildPacket H dev ap
            { sender := id, toAp := d, ts := draws.ts, devX25519Pub := dev.x.pub,
              devEd25519Pub := dev.ed.pub }
            (toString draws.ts ++ ":" ++ draws.salt) draws.iv with
        | error e => rw [hb] at h; cases h
        | ok packet =>
          rw [hb] at h
          have hv : verifyAndDecryptAtAP H (afterSelection w draws) packet draws.tVerify
              draws.tPrune = .ok (pv, w1) := h
          exact ⟨d, ap, packet, rfl, rfl, hb, by rw [hv]; rfl⟩

/-- A packet built by `buildPacket` carries the header it was given. -/
theorem buildPacket_header (H : Host F) (dev : Device) (ap : AP) (header : Header)
    (nonce : String) (iv : Buffer) (packet : Packet)
    (h : buildPacket H dev ap header nonce iv = .ok packet) : packet.header = header := by
  unfold buildPacket at h
  split at h
  · cases h
  · split at h
    · cases h
    · dsimp only at h
      split at h
      · cases h
      · split at h
        · cases h
        · simp only [Except.ok.injEq] at h
          rw [← h]

/-- The protocol step of a send throws only when the sender-side crypto does: the
destination it hands to `verifyAndDecryptAtAP` is an id that an AP has. -/
theorem protocolStep_error (H : Host F) (w : World F) (id : String) (dev : Device)
    (draws : SendDraws) (e : String) (h : protocolStep H w id dev draws = .error e) :
    ∃ d ap, chosenDst w draws = some d ∧ chosenAP w draws = some ap ∧
      ap.isLegitimate = true ∧
      buildPacket H dev ap
        { sender := id, toAp := d, ts := draws.ts, devX25519Pub := dev.x.pub,
          devEd25519Pub := dev.ed.pub }
        (toString draws.ts ++ ":" ++ draws.salt) draws.iv = .error e := by
  unfold protocolStep at h
  cases hd : chosenDst w draws with
  | none => rw [hd] at h; simp only [runProtocol] at h; cases h
  | some d =>
    cases hap : chosenAP w draws with
    | none => rw [hd, hap] at h; simp only [runProtocol] at h; cases h
    | some ap =>
      rw [hd, hap] at h
      cases hleg : ap.isLegitimate with
      | false =>
        simp only [runProtocol, hleg, Bool.false_eq_true, if_false] at h
        cases h
      | true =>
        simp only [runProtocol, hleg, if_true] at h
        cases hb : buildPacket H dev ap
            { sender := id, toAp := d, ts := draws.ts, devX25519Pub := dev.x.pub,
              devEd25519Pub := dev.ed.pub }
            (toString draws.ts ++ ":" ++ draws.salt) draws.iv with
        | error e' =>
          rw [hb] at h
          simp only [Except.error.injEq] at h
          rw [← h]
          exact ⟨d, ap, rfl, rfl, hleg, hb⟩
        | ok packet =>
          rw [hb] at h
          exfalso
          have hhead := buildPacket_header H dev ap _ _ _ packet hb
          have hfound : ∃ r, lookupAP (afterSelection w draws) packet.header.toAp =
              some (r, ap) := by
            rw [hhead]
            unfold chosenAP at hap
            rw [hd] at hap
            simp only [Option.some_bind] at hap
            cases hl : lookupAP (afterSelection w draws) d with
            | none => rw [hl] at hap; cases hap
            | some found =>
              rw [hl] at hap
              simp only [Option.map_some', Option.some.injEq] at hap
              exact ⟨found.1, by rw [← hap]⟩
          obtain ⟨r, hl⟩ := hfound
          obtain ⟨v, w1, hv⟩ := verify_returns_of_own H (afterSelection w draws) packet
            draws.tVerify draws.tPrune r ap hl
          have hv' : verifyAndDecryptAtAP H (afterSelection w draws) packet draws.tVerify
              draws.tPrune = .error e := h
          rw [hv] at hv'
          cases hv'

/-- C7: a send that is not aborted (known device, some AP, no exception from the
sender-side crypto) completes, and the cost it charges is the entry of the active payoff
matrix picked by the active strategy, the destination's legitimacy flag and, under AVOID,
membership in the avoided set; the verdict plays no part. The same cost is added to the
global, per-strategy and per-tick accumulators. -/
theorem C7_cost_read_from_payoff_table (M : JsMath F) (H : Host F) (w : World F)
    (id : String) (draws : SendDraws) (dev : Device)
    (hdev : w.DEVICES.get id = some dev)
    (hkeys : (JsObject.keys (getAllAPs w)).length ≠ 0)
    (hcrypto : ∀ e, protocolStep H w id dev draws ≠ .error e) :
    ∃ tr w', createSendPacket M H w id draws = (.sent tr, w') ∧
      tr.cost = costBySpec w.PAYOFF_MATRIX w.ACTIVE_STRATEGY (chosenInAvoided w draws)
        (chosenIsLegitimate w draws) ∧
      w'.STATS.cumulativeCost = w.STATS.cumulativeCost + tr.cost ∧
      (w'.PER_MODE.get w.ACTIVE_STRATEGY).cost =
        (w.PER_MODE.get w.ACTIVE_STRATEGY).cost + tr.cost ∧
      w'.costSinceLastTick = w.costSinceLastTick + tr.cost := by
  rw [createSendPacket_eq M H w id draws dev hdev hkeys]
  cases hp : protocolStep H w id dev draws with
  | error e => exact absurd hp (hcrypto e)
  | ok res =>
    obtain ⟨pv, w1⟩ := res
    have hframe := runProtocol_frame H _ w1 id dev _ _ _ draws pv hp
    have e1 : w1.PAYOFF_MATRIX = w.PAYOFF_MATRIX := by rw [hframe]; rfl
    have e2 : w1.ACTIVE_STRATEGY = w.ACTIVE_STRATEGY := by rw [hframe]; rfl
    have e3 : w1.AVOIDED_APS = avoidedAfterSelection w draws := by rw [hframe]; rfl
    have e4 : w1.STATS = w.STATS := by rw [hframe]; rfl
    have e5 : w1.PER_MODE = w.PER_MODE := by rw [hframe]; rfl
    have e6 : w1.costSinceLastTick = w.costSinceLastTick := by rw [hframe]; rfl
    obtain ⟨c1, c2, c3⟩ := finishSend_costs M w1 id dev (chosenDst w draws)
      (!chosenIsLegitimate w draws) pv draws
    rw [e4] at c1
    rw [e2, e5] at c2
    rw [e6] at c3
    refine ⟨_, _, rfl, ?_, c1, c2, c3⟩
    show (assignCost w1.PAYOFF_MATRIX w1.ACTIVE_STRATEGY
      (dstInAvoided w1.AVOIDED_APS (chosenDst w draws)) (!chosenIsLegitimate w draws) pv).1 = _
    rw [assignCost_cost, e1, e2, e3, Bool.not_not]
    rfl

/-- The boolean a completed send hands to the detector of its destination, and the
detector it leaves behind. -/
theorem send_detector_feed (M : JsMath F) (H : Host F)
    (w w' : World F) (id : String) (draws : SendDraws) (tr : SendTrace F)
    (h : createSendPacket M H w id draws = (.sent tr, w'))
    (d : String) (det : BayesianAPDetector F)
    (hdst : chosenDst w draws = some d) (hdet : w.DETECTORS.get d = some det) :
    ∃ dev w1, w.DEVICES.get id = some dev ∧
      protocolStep H w id dev draws = .ok (tr.protocolVerdict, w1) ∧
      tr.observed =
        some (if w.ACTIVE_STRATEGY = .AVOID ∧ chosenInAvoided w draws = true then false
          else tr.protocolVerdict.ok) ∧
      ∃ counted, w'.DETECTORS.get d =
        some { det.observePacket M
            (if w.ACTIVE_STRATEGY = .AVOID ∧ chosenInAvoided w draws = true then false
              else tr.protocolVerdict.ok)
            draws.tObs draws.tUpd with hasBeenCounted := counted } := by
  obtain ⟨dev, pv, w1, hdev, hp, hfin⟩ := createSendPacket_sent_inv M H w w' id draws tr h
  have hframe := runProtocol_frame H _ w1 id dev _ _ _ draws pv hp
  have e2 : w1.ACTIVE_STRATEGY = w.ACTIVE_STRATEGY := by rw [hframe]; rfl
  have e3 : w1.AVOIDED_APS = avoidedAfterSelection w draws := by rw [hframe]; rfl
  have e7 : w1.DETECTORS = w.DETECTORS := by rw [hframe]; rfl
  have htr : tr = (finishSend M w1 id dev (chosenDst w draws) (!chosenIsLegitimate w draws)
      pv draws).1 := by rw [hfin]
  have hw' : w' = (finishSend M w1 id dev (chosenDst w draws) (!chosenIsLegitimate w draws)
      pv draws).2 := by rw [hfin]
  have hpv : tr.protocolVerdict = pv := by rw [htr]; rfl
  have hev : (!chosenIsLegitimate w draws) = true → pv.ok = false := by
    intro hl
    have hl' : chosenIsLegitimate w draws = false := by simpa using hl
    rw [(protocolStep_outcome H w w1 id dev draws pv hp).1 hl']
    rfl
  have hok : tr.verdict.ok =
      (if w.ACTIVE_STRATEGY = .AVOID ∧ chosenInAvoided w draws = true then false
        else tr.protocolVerdict.ok) := by
    rw [hpv, htr]
    show (assignCost w1.PAYOFF_MATRIX w1.ACTIVE_STRATEGY
      (dstInAvoided w1.AVOIDED_APS (chosenDst w draws)) (!chosenIsLegitimate w draws) pv).2.2.ok
      = _
    rw [assignCost_ok _ _ _ _ _ hev, e2, e3]
    rfl
  rw [hdst] at htr hw'
  obtain ⟨o1, counted, o2⟩ := finishSend_detector M w1 id dev d det
    (!chosenIsLegitimate w draws) pv draws (by rw [e7]; exact hdet)
  rw [← htr] at o1 o2
  rw [← hw'] at o2
  rw [hok] at o1 o2
  exact ⟨dev, w1, hdev, by rw [hpv]; exact hp, o1, counted, o2⟩

/-- C1 (as the code behaves): on a completed send whose destination has a detector, the
boolean handed to `observePacket` is the `ok` flag of the protocol step (the result of
`verifyAndDecryptAtAP` for a destination marked legitimate, failure otherwise), except
under AVOID when the destination is in the avoided set: then it is `false` whatever the
protocol returned. -/
theorem C1_detector_fed_verdict_after_cost_branch (M : JsMath F) (H : Host F)
    (w w' : World F) (id : String) (draws : SendDraws) (tr : SendTrace F)
    (h : createSendPacket M H w id draws = (.sent tr, w'))
    (d : String) (det : BayesianAPDetector F)
    (hdst : chosenDst w draws = some d) (hdet : w.DETECTORS.get d = some det) :
    (∃ dev w1, w.DEVICES.get id = some dev ∧
      protocolStep H w id dev draws = .ok (tr.protocolVerdict, w1) ∧
      (chosenIsLegitimate w draws = false → tr.protocolVerdict = .reject .unknown) ∧
      (chosenIsLegitimate w draws = true →
        ∃ ap packet, chosenAP w draws = some ap ∧
          buildPacket H dev ap
            { sender := id, toAp := d, ts := draws.ts, devX25519Pub := dev.x.pub,
              devEd25519Pub := dev.ed.pub }
            (toString draws.ts ++ ":" ++ draws.salt) draws.iv = .ok packet ∧
          (verifyAndDecryptAtAP H (afterSelection w draws) packet
            draws.tVerify draws.tPrune).map Prod.fst = .ok tr.protocolVerdict)) ∧
      tr.observed =
        some (if w.ACTIVE_STRATEGY = .AVOID ∧ chosenInAvoided w draws = true then false
          else tr.protocolVerdict.ok) ∧
      ∃ counted, w'.DETECTORS.get d =
        some { det.observePacket M
            (if w.ACTIVE_STRATEGY = .AVOID ∧ chosenInAvoided w draws = true then false
              else tr.protocolVerdict.ok)
            draws.tObs draws.tUpd with hasBeenCounted := counted } := by
  obtain ⟨dev, w1, hdev, hp, hobs, hdetector⟩ :=
    send_detector_feed M H w w' id draws tr h d det hdst hdet
  obtain ⟨hevil, hlegit⟩ := protocolStep_outcome H w w1 id dev draws tr.protocolVerdict hp
  refine ⟨⟨dev, w1, hdev, hp, hevil, ?_⟩, hobs, hdetector⟩
  intro hl
  obtain ⟨d', ap, packet, hd', hap, hb, hv⟩ := hlegit hl
  rw [hdst] at hd'
  cases hd'
  exact ⟨ap, packet, hap, hb, hv⟩

end Sends

section WorkedExamples

/-! ### Worked examples on the start state (real arithmetic, toy host) -/

theorem demo_lookup_AP1 :
    lookupAP (demoWorld (JsMath.mk Real.exp Real.log)) demoPacket.header.toAp =
      some (0, demoAP1) := by
  decide

theorem demo_trusted_AP1 :
    (!((getTrustedRepo (demoWorld (JsMath.mk Real.exp Real.log))).read
        demoPacket.header.toAp).isDefined && !demoAP1.isLegitimate) = false := by
  decide

theorem demo_signature_ok :
    verifyEd25519 (toyHost : Host ℝ) demoPacket.header.devEd25519Pub
      (headOf (toyHost : Host ℝ) demoPacket ++
        (toyHost : Host ℝ).bufferFromBase64 demoPacket.body.ct)
      demoPacket.sig = true := by
  decide

theorem demo_nonce_stamp :
    (toyHost : Host ℝ).toNumber (firstField demoPacket.body.nonce) = some 1000000 := by
  have h : digitsValue (firstField demoPacket.body.nonce) = some 1000000 := by decide
  simp only [toyHost, h, Option.map_some', Nat.cast_ofNat]

theorem demo_tolerance : (demoWorld (JsMath.mk Real.exp Real.log)).tsTolSecs = 60 := rfl

/-- The first submission of `demoPacket` at its own timestamp is accepted and leaves the
nonce in the replay window of `AP1`. -/
theorem demo_first_accept :
    verifyAndDecryptAtAP toyHost (demoWorld (JsMath.mk Real.exp Real.log)) demoPacket 1000000
        1000000 =
      .ok (.accept "micro-pkt,1000000:abc",
        (demoWorld (JsMath.mk Real.exp Real.log)).setReplay 0 ["1000000:abc"]) := by
  have h2 : ¬ ((|(1000000 : Int) - demoPacket.header.ts| : Int) : ℝ) >
      (demoWorld (JsMath.mk Real.exp Real.log)).tsTolSecs * 1000 := by
    rw [demo_tolerance]
    norm_num [demoPacket]
  have h5 : demoPacket.body.nonce ∉ pruneReplay (toyHost : Host ℝ) 1000000 demoAP1.replay := by
    simp [pruneReplay, demoAP1]
  rw [verify_past_replay toyHost (demoWorld (JsMath.mk Real.exp Real.log)) demoPacket 1000000
    1000000 0 demoAP1 demo_lookup_AP1 h2 demo_trusted_AP1 demo_signature_ok h5]
  rfl

/-- C5 fails as stated: with the default tolerance of 60 s, the accepted `demoPacket`
resubmitted 90 s after its nonce's timestamp (less than 120 s) is rejected as stale, not
as a replay. -/
theorem C5_counterexample :
    verifyAndDecryptAtAP toyHost (demoWorld (JsMath.mk Real.exp Real.log)) demoPacket 1000000
        1000000 =
      .ok (.accept "micro-pkt,1000000:abc",
        (demoWorld (JsMath.mk Real.exp Real.log)).setReplay 0 ["1000000:abc"]) ∧
      (toyHost : Host ℝ).toNumber (firstField demoPacket.body.nonce) = some 1000000 ∧
      ((1090000 : Int) : ℝ) - 1000000 < (NONCE_TTL_MS : ℝ) ∧
      (verifyAndDecryptAtAP toyHost
          ((demoWorld (JsMath.mk Real.exp Real.log)).setReplay 0 ["1000000:abc"])
          demoPacket 1090000 1090000).map Prod.fst = .ok (.reject (.staleTs 90)) ∧
      Verdict.reject (.staleTs 90) ≠ Verdict.reject .replayDetected := by
  refine ⟨demo_first_accept, demo_nonce_stamp, by norm_num [NONCE_TTL_MS], ?_, by decide⟩
  have hl : lookupAP ((demoWorld (JsMath.mk Real.exp Real.log)).setReplay 0 ["1000000:abc"])
      demoPacket.header.toAp = some (0, { demoAP1 with replay := ["1000000:abc"] }) := by
    decide
  have h2 : ((|(1090000 : Int) - demoPacket.header.ts| : Int) : ℝ) >
      ((demoWorld (JsMath.mk Real.exp Real.log)).setReplay 0 ["1000000:abc"]).tsTolSecs *
        1000 := by
    show ((|(1090000 : Int) - demoPacket.header.ts| : Int) : ℝ) > (60 : ℝ) * 1000
    norm_num [demoPacket]
  rw [verify_stale toyHost _ demoPacket 1090000 1090000 0 _ hl h2]
  have hsecs : (|(1090000 : Int) - demoPacket.header.ts| + 500) / 1000 = 90 := by decide
  rw [hsecs]
  rfl

theorem C4_timestamp_boundary_witness :
    lookupAP (demoWorld (JsMath.mk Real.exp Real.log)) demoPacket.header.toAp =
        some (0, demoAP1) ∧
      (((|(1060000 : Int) - demoPacket.header.ts| : Int) : ℝ) =
          (demoWorld (JsMath.mk Real.exp Real.log)).tsTolSecs * 1000 ∧
        (verifyAndDecryptAtAP toyHost (demoWorld (JsMath.mk Real.exp Real.log)) demoPacket
          1060000 1060000).map Prod.fst ≠ .ok (.reject (.staleTs 60))) ∧
      (((|(1060001 : Int) - demoPacket.header.ts| : Int) : ℝ) =
          (demoWorld (JsMath.mk Real.exp Real.log)).tsTolSecs * 1000 + 1 ∧
        (verifyAndDecryptAtAP toyHost (demoWorld (JsMath.mk Real.exp Real.log)) demoPacket
          1060001 1060001).map Prod.fst = .ok (.reject (.staleTs 60))) := by
  have hexact : ((|(1060000 : Int) - demoPacket.header.ts| : Int) : ℝ) =
      (demoWorld (JsMath.mk Real.exp Real.log)).tsTolSecs * 1000 := by
    rw [demo_tolerance]; norm_num [demoPacket]
  have hbeyond : ((|(1060001 : Int) - demoPacket.header.ts| : Int) : ℝ) =
      (demoWorld (JsMath.mk Real.exp Real.log)).tsTolSecs * 1000 + 1 := by
    rw [demo_tolerance]; norm_num [demoPacket]
  exact ⟨demo_lookup_AP1,
    ⟨hexact, ((C4_timestamp_boundary toyHost (demoWorld (JsMath.mk Real.exp Real.log)) demoPacket
      1060000 1060000 0 demoAP1 demo_lookup_AP1).1 hexact).2.1 60⟩,
    ⟨hbeyond, (C4_timestamp_boundary toyHost (demoWorld (JsMath.mk Real.exp Real.log)) demoPacket
      1060001 1060001 0 demoAP1 demo_lookup_AP1).2 hbeyond⟩⟩

theorem C5_resubmission_is_replay_witness :
    (verifyAndDecryptAtAP toyHost (demoWorld (JsMath.mk Real.exp Real.log)) demoPacket 1000000
          1000000 =
        .ok (.accept "micro-pkt,1000000:abc",
          (demoWorld (JsMath.mk Real.exp Real.log)).setReplay 0 ["1000000:abc"]) ∧
      ¬ ((|(1050000 : Int) - demoPacket.header.ts| : Int) : ℝ) >
        ((demoWorld (JsMath.mk Real.exp Real.log)).setReplay 0 ["1000000:abc"]).tsTolSecs *
          1000 ∧
      nonceExpired (toyHost : Host ℝ) 1050000 demoPacket.body.nonce = false) ∧
    (verifyAndDecryptAtAP toyHost
      ((demoWorld (JsMath.mk Real.exp Real.log)).setReplay 0 ["1000000:abc"]) demoPacket
      1050000 1050000).map Prod.fst = .ok (.reject .replayDetected) := by
  have hfresh : ¬ ((|(1050000 : Int) - demoPacket.header.ts| : Int) : ℝ) >
      ((demoWorld (JsMath.mk Real.exp Real.log)).setReplay 0 ["1000000:abc"]).tsTolSecs *
        1000 := by
    show ¬ ((|(1050000 : Int) - demoPacket.header.ts| : Int) : ℝ) > (60 : ℝ) * 1000
    norm_num [demoPacket]
  have hlive : nonceExpired (toyHost : Host ℝ) 1050000 demoPacket.body.nonce = false := by
    simp only [nonceExpired, demo_nonce_stamp, NONCE_TTL_MS]
    norm_num
  exact ⟨⟨demo_first_accept, hfresh, hlive⟩,
    (C5_resubmission_is_replay toyHost _ _ demoPacket 1000000 1000000 1050000 1050000 _
      demo_first_accept hfresh hlive).2⟩

/-- The packet `demoPacket` re-sent with a fresh header timestamp and its old nonce. -/
theorem demo_late_packet_checks (c : Check) (hc : c ≠ .replay) :
    checkFails toyHost ((demoWorld (JsMath.mk Real.exp Real.log)).setReplay 0 ["1000000:abc"])
      { demoPacket with header := { demoPacket.header with ts := 1200000 } } 1200001 1200001
      c = none := by
  have hl : lookupAP ((demoWorld (JsMath.mk Real.exp Real.log)).setReplay 0 ["1000000:abc"])
      "AP1" = some (0, { demoAP1 with replay := ["1000000:abc"] }) := by
    decide
  cases c with
  | destUnknown => simp only [checkFails, demoPacket, hl]; rfl
  | staleTimestamp =>
    have h2 : ¬ ((|(1200001 : Int) - 1200000| : Int) : ℝ) >
        ((demoWorld (JsMath.mk Real.exp Real.log)).setReplay 0 ["1000000:abc"]).tsTolSecs *
          1000 := by
      show ¬ ((|(1200001 : Int) - 1200000| : Int) : ℝ) > (60 : ℝ) * 1000
      norm_num
    simp only [checkFails, demoPacket, if_neg h2]
  | untrustedAP =>
    have h3 : ¬ (((getTrustedRepo ((demoWorld (JsMath.mk Real.exp Real.log)).setReplay 0
        ["1000000:abc"])).get "AP1").isNone = true ∧
        ({ demoAP1 with replay := ["1000000:abc"] } : AP).isLegitimate = false) := by
      decide
    simp only [checkFails, demoPacket, hl, if_neg h3]
  | badSignature => simp only [checkFails, demoPacket]; rfl
  | replay => exact absurd rfl hc
  | decryptFailure => simp only [checkFails, demoPacket, hl]; rfl

theorem C6_expired_nonce_never_matched_witness :
    (lookupAP ((demoWorld (JsMath.mk Real.exp Real.log)).setReplay 0 ["1000000:abc"]) "AP1" =
        some (0, { demoAP1 with replay := ["1000000:abc"] }) ∧
      demoPacket.body.nonce ∈ ({ demoAP1 with replay := ["1000000:abc"] } : AP).replay ∧
      (toyHost : Host ℝ).toNumber (firstField demoPacket.body.nonce) = some 1000000 ∧
      (((1200001 : Int) : ℝ) - 1000000 > (NONCE_TTL_MS : ℝ))) ∧
    (demoPacket.body.nonce ∉ pruneReplay (toyHost : Host ℝ) 1200001 ["1000000:abc"] ∧
      (verifyAndDecryptAtAP toyHost
        ((demoWorld (JsMath.mk Real.exp Real.log)).setReplay 0 ["1000000:abc"])
        { demoPacket with header := { demoPacket.header with ts := 1200000 } } 1200001
        1200001).map (fun res => res.1.ok) = .ok true) := by
  have hl : lookupAP ((demoWorld (JsMath.mk Real.exp Real.log)).setReplay 0 ["1000000:abc"])
      "AP1" = some (0, { demoAP1 with replay := ["1000000:abc"] }) := by
    decide
  have hold : ((1200001 : Int) : ℝ) - 1000000 > (NONCE_TTL_MS : ℝ) := by
    norm_num [NONCE_TTL_MS]
  exact ⟨⟨hl, by decide, demo_nonce_stamp, hold⟩,
    C6_expired_nonce_never_matched toyHost _
      { demoPacket with header := { demoPacket.header with ts := 1200000 } } 1200001 1200001 0
      _ 1000000 hl demo_nonce_stamp hold demo_late_packet_checks⟩

/-! ### A destination id that names a member of `Object.prototype` -/

theorem demo_stray_lookup :
    lookupAP (demoWorld (JsMath.mk Real.exp Real.log)) demoStrayPacket.header.toAp = none := by
  decide

theorem demo_stray_name :
    objectPrototypeKeys.contains demoStrayPacket.header.toAp = true := by
  decide

theorem demo_stray_signature_ok :
    verifyEd25519 (toyHost : Host ℝ) demoStrayPacket.header.devEd25519Pub
      (headOf (toyHost : Host ℝ) demoStrayPacket ++
        (toyHost : Host ℝ).bufferFromBase64 demoStrayPacket.body.ct)
      demoStrayPacket.sig = true := by
  decide

/-- C3 (the code at the failing input): in the start state no AP has the id
`constructor`, so for a packet addressed to it the first check of the specification fails
and the specification's verdict is "dest AP not found". The code reads the inherited
member `allAPs.constructor` instead of `undefined`: at the packet's own timestamp, with a
good signature, it passes the age, repository and signature tests and throws in
`pruneReplay`; 90 s later, with the tolerance at 60 s, it returns the stale-timestamp
rejection. In neither case does it return "dest AP not found". -/
theorem C3_inherited_member_taken_for_AP :
    lookupAP (demoWorld (JsMath.mk Real.exp Real.log)) demoStrayPacket.header.toAp = none ∧
    checkFails toyHost (demoWorld (JsMath.mk Real.exp Real.log)) demoStrayPacket 1000000
      1000000 .destUnknown = some .destNotFound ∧
    verdictBySpec toyHost (demoWorld (JsMath.mk Real.exp Real.log)) demoStrayPacket 1000000
      1000000 = some (.reject .destNotFound) ∧
    verifyAndDecryptAtAP toyHost (demoWorld (JsMath.mk Real.exp Real.log)) demoStrayPacket
      1000000 1000000 = .error "TypeError: undefined is not iterable" ∧
    verifyAndDecryptAtAP toyHost (demoWorld (JsMath.mk Real.exp Real.log)) demoStrayPacket
      1090000 1090000 =
        .ok (.reject (.staleTs 90), demoWorld (JsMath.mk Real.exp Real.log)) := by
  have c1 : checkFails toyHost (demoWorld (JsMath.mk Real.exp Real.log)) demoStrayPacket
      1000000 1000000 .destUnknown = some .destNotFound := by
    simp only [checkFails, demo_stray_lookup, Option.isNone_none, if_true]
  have hfresh : ¬ ((|(1000000 : Int) - demoStrayPacket.header.ts| : Int) : ℝ) >
      (demoWorld (JsMath.mk Real.exp Real.log)).tsTolSecs * 1000 := by
    rw [demo_tolerance]
    norm_num [demoStrayPacket, demoPacket]
  have hstale : ((|(1090000 : Int) - demoStrayPacket.header.ts| : Int) : ℝ) >
      (demoWorld (JsMath.mk Real.exp Real.log)).tsTolSecs * 1000 := by
    rw [demo_tolerance]
    norm_num [demoStrayPacket, demoPacket]
  have hsig : ¬ verifyEd25519 (toyHost : Host ℝ) demoStrayPacket.header.devEd25519Pub
      (headOf (toyHost : Host ℝ) demoStrayPacket ++
        (toyHost : Host ℝ).bufferFromBase64 demoStrayPacket.body.ct)
      demoStrayPacket.sig = false := by
    rw [demo_stray_signature_ok]
    decide
  refine ⟨demo_stray_lookup, c1, ?_, ?_, ?_⟩
  · simp only [verdictBySpec, Check.order, List.findSome?, c1]
  · rw [verify_inherited toyHost _ demoStrayPacket 1000000 1000000 demo_stray_lookup
      demo_stray_name, if_neg hfresh, if_neg hsig]
  · rw [verify_inherited toyHost _ demoStrayPacket 1090000 1090000 demo_stray_lookup
      demo_stray_name, if_pos hstale]
    have hsecs : (|(1090000 : Int) - demoStrayPacket.header.ts| + 500) / 1000 = 90 := by
      decide
    rw [hsecs]

end WorkedExamples

section SendExamples

/-! ### A worked send under AVOID -/

theorem demo_detectors (M : JsMath ℝ) :
    (demoAvoidWorld M).DETECTORS =
      ["AP1", "AP2", "AP3", "AP4", "AP5", "AP6"].map
        (fun n => (n, BayesianAPDetector.create M n 0)) := by
  simp [demoAvoidWorld, demoWorld, initialWorld, makeAP, emptyWorld, JsObject.set, List.enum,
    List.enumFrom]

theorem fresh_table_posterior (M : JsMath ℝ) (b : String) (det : BayesianAPDetector ℝ) :
    ∀ names : List String,
      JsObject.get (names.map (fun n => (n, BayesianAPDetector.create M n 0))) b = some det →
      det.posteriorEvil = 25 / 100 := by
  intro names
  induction names with
  | nil => intro h; cases h
  | cons n rest ih =>
    intro h
    unfold JsObject.get at h ih
    rw [List.map_cons, List.lookup_cons] at h
    cases hb : (b == n) with
    | true =>
      rw [hb] at h
      simp only [Option.some.injEq] at h
      rw [← h]
      rfl
    | false =>
      rw [hb] at h
      exact ih h

/-- No AP of the demo state is excluded by the AVOID filter: every posterior is 0.25. -/
theorem demo_not_excluded (M : JsMath ℝ) (b : String) :
    avoidExcluded (demoAvoidWorld M) b = false := by
  unfold avoidExcluded
  cases hg : (demoAvoidWorld M).DETECTORS.get b with
  | none => rfl
  | some det =>
    have hp : det.posteriorEvil = 25 / 100 := by
      rw [demo_detectors] at hg
      exact fresh_table_posterior M b det _ hg
    simp only [BayesianAPDetector.isLikelyEvil, hp, Bool.and_eq_false_imp, decide_eq_true_eq]
    intro h
    norm_num at h

theorem demo_keys (M : JsMath ℝ) :
    JsObject.keys (getAllAPs (demoAvoidWorld M)) = ["AP1", "AP2", "AP3", "AP4", "AP5", "AP6"] := by
  simp [demoAvoidWorld, demoWorld, initialWorld, makeAP, emptyWorld, JsObject.set, List.enum,
    List.enumFrom, getAllAPs, JsObject.spread, JsObject.keys]

theorem demo_selection (M : JsMath ℝ) :
    selectDestination (demoAvoidWorld M) (JsObject.keys (getAllAPs (demoAvoidWorld M)))
      demoDraws.pick = (some "AP1", ["AP1"]) := by
  have hstrat : (demoAvoidWorld M).ACTIVE_STRATEGY = .AVOID := rfl
  have h1 : ∀ keys : List String,
      keys.filter (fun bssid => !(avoidExcluded (demoAvoidWorld M) bssid)) = keys := by
    intro keys
    apply List.filter_eq_self.2
    intro b _
    rw [demo_not_excluded]
    rfl
  have h2 : ∀ keys : List String,
      keys.filter (fun bssid => avoidExcluded (demoAvoidWorld M) bssid) = [] := by
    intro keys
    apply List.filter_eq_nil_iff.2
    intro b _
    rw [demo_not_excluded]
    simp
  unfold selectDestination
  rw [hstrat]
  simp only [h1, h2, List.foldl_nil, demo_keys]
  rfl

theorem demo_chosenDst (M : JsMath ℝ) : chosenDst (demoAvoidWorld M) demoDraws = some "AP1" := by
  unfold chosenDst
  rw [demo_selection]

theorem demo_afterSelection (M : JsMath ℝ) :
    afterSelection (demoAvoidWorld M) demoDraws = demoAvoidWorld M := by
  unfold afterSelection avoidedAfterSelection
  rw [demo_selection]
  rfl

theorem demo_avoid_lookup_AP1 :
    lookupAP (demoAvoidWorld (JsMath.mk Real.exp Real.log)) "AP1" = some (0, demoAP1) := by
  decide

theorem demo_chosenAP :
    chosenAP (demoAvoidWorld (JsMath.mk Real.exp Real.log)) demoDraws = some demoAP1 := by
  unfold chosenAP
  rw [demo_chosenDst, demo_afterSelection, Option.some_bind, demo_avoid_lookup_AP1]
  rfl

theorem demo_chosenIsLegitimate :
    chosenIsLegitimate (demoAvoidWorld (JsMath.mk Real.exp Real.log)) demoDraws = true := by
  unfold chosenIsLegitimate
  rw [demo_chosenAP]
  rfl

theorem demo_chosenInAvoided :
    chosenInAvoided (demoAvoidWorld (JsMath.mk Real.exp Real.log)) demoDraws = true := by
  unfold chosenInAvoided avoidedAfterSelection
  rw [demo_chosenDst, demo_selection]
  decide

theorem demo_buildPacket :
    buildPacket (toyHost : Host ℝ) toyDevice demoAP1
      { sender := "d1", toAp := "AP1", ts := demoDraws.ts, devX25519Pub := toyDevice.x.pub,
        devEd25519Pub := toyDevice.ed.pub }
      (toString demoDraws.ts ++ ":" ++ demoDraws.salt) demoDraws.iv = .ok demoPacket := by
  rfl

/-- Under AVOID too, the protocol accepts `demoPacket` at `AP1`. -/
theorem demo_avoid_accept :
    verifyAndDecryptAtAP toyHost (demoAvoidWorld (JsMath.mk Real.exp Real.log)) demoPacket
        1000000 1000000 =
      .ok (.accept "micro-pkt,1000000:abc",
        (demoAvoidWorld (JsMath.mk Real.exp Real.log)).setReplay 0 ["1000000:abc"]) := by
  have hl : lookupAP (demoAvoidWorld (JsMath.mk Real.exp Real.log)) demoPacket.header.toAp =
      some (0, demoAP1) := by decide
  have h2 : ¬ ((|(1000000 : Int) - demoPacket.header.ts| : Int) : ℝ) >
      (demoAvoidWorld (JsMath.mk Real.exp Real.log)).tsTolSecs * 1000 := by
    show ¬ ((|(1000000 : Int) - demoPacket.header.ts| : Int) : ℝ) > (60 : ℝ) * 1000
    norm_num [demoPacket]
  have h3 : (!((getTrustedRepo (demoAvoidWorld (JsMath.mk Real.exp Real.log))).read
      demoPacket.header.toAp).isDefined && !demoAP1.isLegitimate) = false := by decide
  have h5 : demoPacket.body.nonce ∉ pruneReplay (toyHost : Host ℝ) 1000000 demoAP1.replay := by
    simp [pruneReplay, demoAP1]
  rw [verify_past_replay toyHost _ demoPacket 1000000 1000000 0 demoAP1 hl h2 h3
    demo_signature_ok h5]
  rfl

theorem demo_protocolStep :
    protocolStep toyHost (demoAvoidWorld (JsMath.mk Real.exp Real.log)) "d1" toyDevice
        demoDraws =
      .ok (.accept "micro-pkt,1000000:abc",
        (demoAvoidWorld (JsMath.mk Real.exp Real.log)).setReplay 0 ["1000000:abc"]) := by
  unfold protocolStep
  rw [demo_chosenDst, demo_chosenAP, demo_afterSelection]
  simp only [runProtocol]
  rw [if_pos (by rfl), demo_buildPacket]
  simp only
  rw [show demoDraws.tVerify = 1000000 from rfl, show demoDraws.tPrune = 1000000 from rfl,
    demo_avoid_accept]

theorem demo_device :
    (demoAvoidWorld (JsMath.mk Real.exp Real.log)).DEVICES.get "d1" = some toyDevice := by
  decide

theorem demo_has_APs :
    (JsObject.keys (getAllAPs (demoAvoidWorld (JsMath.mk Real.exp Real.log)))).length ≠ 0 := by
  decide

theorem demo_detector_AP1 :
    (demoAvoidWorld (JsMath.mk Real.exp Real.log)).DETECTORS.get "AP1" =
      some (BayesianAPDetector.create (JsMath.mk Real.exp Real.log) "AP1" 0) := by
  rw [demo_detectors]
  rfl

/-- The worked send completes. -/
theorem demo_send :
    createSendPacket (JsMath.mk Real.exp Real.log) toyHost
        (demoAvoidWorld (JsMath.mk Real.exp Real.log)) "d1" demoDraws =
      (.sent (finishSend (JsMath.mk Real.exp Real.log)
          ((demoAvoidWorld (JsMath.mk Real.exp Real.log)).setReplay 0 ["1000000:abc"]) "d1"
          toyDevice (some "AP1") false (.accept "micro-pkt,1000000:abc") demoDraws).1,
        (finishSend (JsMath.mk Real.exp Real.log)
          ((demoAvoidWorld (JsMath.mk Real.exp Real.log)).setReplay 0 ["1000000:abc"]) "d1"
          toyDevice (some "AP1") false (.accept "micro-pkt,1000000:abc") demoDraws).2) := by
  rw [createSendPacket_eq _ _ _ _ _ toyDevice demo_device demo_has_APs, demo_protocolStep]
  simp only [demo_chosenDst, demo_chosenIsLegitimate, Bool.not_true]

/-- C1 fails as stated: under AVOID, with the legitimate `AP1` in the avoided set, the
protocol accepts the packet (`ok` is true) but the detector of `AP1` is fed `false`, and
counts one failure. -/
theorem C1_counterexample :
    ∃ tr w',
      createSendPacket (JsMath.mk Real.exp Real.log) toyHost
          (demoAvoidWorld (JsMath.mk Real.exp Real.log)) "d1" demoDraws = (.sent tr, w') ∧
        tr.dst = some "AP1" ∧ tr.strategy = .AVOID ∧ tr.actuallyEvil = false ∧
        tr.protocolVerdict = .accept "micro-pkt,1000000:abc" ∧
        tr.protocolVerdict.ok = true ∧
        tr.observed = some false ∧
        ∃ det, w'.DETECTORS.get "AP1" = some det ∧ det.failureCount = 1 ∧
          det.successCount = 0 := by
  refine ⟨_, _, demo_send, rfl, rfl, rfl, rfl, rfl, ?_, ?_⟩
  · obtain ⟨_, _, _, _, hobs, _⟩ := send_detector_feed _ _ _ _ _ _ _ demo_send "AP1" _
      (demo_chosenDst _) demo_detector_AP1
    rw [hobs, if_pos ⟨rfl, demo_chosenInAvoided⟩]
  · obtain ⟨_, _, _, _, _, counted, hdet⟩ := send_detector_feed _ _ _ _ _ _ _ demo_send "AP1" _
      (demo_chosenDst _) demo_detector_AP1
    rw [if_pos ⟨rfl, demo_chosenInAvoided⟩] at hdet
    exact ⟨_, hdet, rfl, rfl⟩

theorem C1_detector_fed_verdict_after_cost_branch_witness :
    (createSendPacket (JsMath.mk Real.exp Real.log) toyHost
          (demoAvoidWorld (JsMath.mk Real.exp Real.log)) "d1" demoDraws =
        (.sent (finishSend (JsMath.mk Real.exp Real.log)
            ((demoAvoidWorld (JsMath.mk Real.exp Real.log)).setReplay 0 ["1000000:abc"]) "d1"
            toyDevice (some "AP1") false (.accept "micro-pkt,1000000:abc") demoDraws).1,
          (finishSend (JsMath.mk Real.exp Real.log)
            ((demoAvoidWorld (JsMath.mk Real.exp Real.log)).setReplay 0 ["1000000:abc"]) "d1"
            toyDevice (some "AP1") false (.accept "micro-pkt,1000000:abc") demoDraws).2) ∧
      chosenDst (demoAvoidWorld (JsMath.mk Real.exp Real.log)) demoDraws = some "AP1" ∧
      (demoAvoidWorld (JsMath.mk Real.exp Real.log)).DETECTORS.get "AP1" =
        some (BayesianAPDetector.create (JsMath.mk Real.exp Real.log) "AP1" 0)) ∧
    (finishSend (JsMath.mk Real.exp Real.log)
        ((demoAvoidWorld (JsMath.mk Real.exp Real.log)).setReplay 0 ["1000000:abc"]) "d1"
        toyDevice (some "AP1") false (.accept "micro-pkt,1000000:abc") demoDraws).1.observed =
      some (if (demoAvoidWorld (JsMath.mk Real.exp Real.log)).ACTIVE_STRATEGY = .AVOID ∧
          chosenInAvoided (demoAvoidWorld (JsMath.mk Real.exp Real.log)) demoDraws = true
        then false
        else (finishSend (JsMath.mk Real.exp Real.log)
          ((demoAvoidWorld (JsMath.mk Real.exp Real.log)).setReplay 0 ["1000000:abc"]) "d1"
          toyDevice (some "AP1") false (.accept "micro-pkt,1000000:abc")
          demoDraws).1.protocolVerdict.ok) :=
  ⟨⟨demo_send, demo_chosenDst _, demo_detector_AP1⟩,
    (C1_detector_fed_verdict_after_cost_branch _ _ _ _ _ _ _ demo_send "AP1" _
      (demo_chosenDst _) demo_detector_AP1).2.1⟩

/-! ### A worked send under TRUST -/

theorem demo_trust_device :
    (demoWorld (JsMath.mk Real.exp Real.log)).DEVICES.get "d1" = some toyDevice := by
  decide

theorem demo_trust_has_APs :
    (JsObject.keys (getAllAPs (demoWorld (JsMath.mk Real.exp Real.log)))).length ≠ 0 := by
  decide

theorem demo_trust_chosenDst :
    chosenDst (demoWorld (JsMath.mk Real.exp Real.log)) demoDraws = some "AP1" := by
  decide

theorem demo_trust_chosenAP :
    chosenAP (demoWorld (JsMath.mk Real.exp Real.log)) demoDraws = some demoAP1 := by
  decide

theorem demo_trust_afterSelection :
    afterSelection (demoWorld (JsMath.mk Real.exp Real.log)) demoDraws =
      demoWorld (JsMath.mk Real.exp Real.log) := rfl

theorem demo_trust_no_throw (e : String) :
    protocolStep toyHost (demoWorld (JsMath.mk Real.exp Real.log)) "d1" toyDevice demoDraws ≠
      .error e := by
  unfold protocolStep
  rw [demo_trust_chosenDst, demo_trust_chosenAP, demo_trust_afterSelection]
  simp only [runProtocol]
  rw [if_pos (by rfl), demo_buildPacket]
  simp only
  rw [show demoDraws.tVerify = 1000000 from rfl, show demoDraws.tPrune = 1000000 from rfl,
    demo_first_accept]
  intro h
  cases h

theorem C7_cost_read_from_payoff_table_witness :
    ((demoWorld (JsMath.mk Real.exp Real.log)).DEVICES.get "d1" = some toyDevice ∧
      (JsObject.keys (getAllAPs (demoWorld (JsMath.mk Real.exp Real.log)))).length ≠ 0 ∧
      ∀ e, protocolStep toyHost (demoWorld (JsMath.mk Real.exp Real.log)) "d1" toyDevice
        demoDraws ≠ .error e) ∧
    ∃ tr w',
      createSendPacket (JsMath.mk Real.exp Real.log) toyHost
          (demoWorld (JsMath.mk Real.exp Real.log)) "d1" demoDraws = (.sent tr, w') ∧
        tr.cost = costBySpec (demoWorld (JsMath.mk Real.exp Real.log)).PAYOFF_MATRIX
          (demoWorld (JsMath.mk Real.exp Real.log)).ACTIVE_STRATEGY
          (chosenInAvoided (demoWorld (JsMath.mk Real.exp Real.log)) demoDraws)
          (chosenIsLegitimate (demoWorld (JsMath.mk Real.exp Real.log)) demoDraws) ∧
        w'.STATS.cumulativeCost =
          (demoWorld (JsMath.mk Real.exp Real.log)).STATS.cumulativeCost + tr.cost ∧
        (w'.PER_MODE.get (demoWorld (JsMath.mk Real.exp Real.log)).ACTIVE_STRATEGY).cost =
          ((demoWorld (JsMath.mk Real.exp Real.log)).PER_MODE.get
            (demoWorld (JsMath.mk Real.exp Real.log)).ACTIVE_STRATEGY).cost + tr.cost ∧
        w'.costSinceLastTick =
          (demoWorld (JsMath.mk Real.exp Real.log)).costSinceLastTick + tr.cost :=
  ⟨⟨demo_trust_device, demo_trust_has_APs, demo_trust_no_throw⟩,
    C7_cost_read_from_payoff_table _ toyHost _ "d1" demoDraws toyDevice demo_trust_device
      demo_trust_has_APs demo_trust_no_throw⟩

/-- In the worked TRUST send the table gives the cooperate cost 1.0. -/
theorem demo_trust_cost :
    costBySpec (demoWorld (JsMath.mk Real.exp Real.log)).PAYOFF_MATRIX
      (demoWorld (JsMath.mk Real.exp Real.log)).ACTIVE_STRATEGY
      (chosenInAvoided (demoWorld (JsMath.mk Real.exp Real.log)) demoDraws)
      (chosenIsLegitimate (demoWorld (JsMath.mk Real.exp Real.log)) demoDraws) = 1 := by
  have hl : chosenIsLegitimate (demoWorld (JsMath.mk Real.exp Real.log)) demoDraws = true := by
    unfold chosenIsLegitimate
    rw [demo_trust_chosenAP]
    rfl
  rw [hl]
  rfl

end SendExamples

section Router

variable {F : Type} [LinearOrderedField F]

/-- What the loop body of `computeOptimalStrategy` returns for one belief. -/
theorem computeOptimalStrategyFor_spec (PM : PayoffMatrix F) (p : F) :
    (computeOptimalStrategyFor PM p).evilProb = p ∧
    (computeOptimalStrategyFor PM p).trustExpected = expectedPayoff PM .TRUST p ∧
    (computeOptimalStrategyFor PM p).verifyExpected = expectedPayoff PM .VERIFY p ∧
    (computeOptimalStrategyFor PM p).avoidExpected = expectedPayoff PM .AVOID p ∧
    expectedPayoff PM (computeOptimalStrategyFor PM p).strategy p = bestExpectedPayoff PM p ∧
    ((computeOptimalStrategyFor PM p).strategy = .VERIFY ↔
      expectedPayoff PM .VERIFY p = bestExpectedPayoff PM p) ∧
    ((computeOptimalStrategyFor PM p).strategy = .AVOID ↔
      expectedPayoff PM .VERIFY p ≠ bestExpectedPayoff PM p ∧
        expectedPayoff PM .AVOID p = bestExpectedPayoff PM p) ∧
    ((computeOptimalStrategyFor PM p).strategy = .TRUST ↔
      expectedPayoff PM .VERIFY p ≠ bestExpectedPayoff PM p ∧
        expectedPayoff PM .AVOID p ≠ bestExpectedPayoff PM p) := by
  refine ⟨rfl, rfl, rfl, rfl, ?_⟩
  simp only [computeOptimalStrategyFor, bestExpectedPayoff]
  have ht : (1 - p) * PM.TRUST_COOPERATE.device + p * PM.TRUST_DEFECT.device =
      expectedPayoff PM .TRUST p := rfl
  have hv : (1 - p) * PM.VERIFY_COOPERATE.device + p * PM.VERIFY_DEFECT.device =
      expectedPayoff PM .VERIFY p := rfl
  have ha : (1 - p) * PM.AVOID_COOPERATE.device + p * PM.AVOID_DEFECT.device =
      expectedPayoff PM .AVOID p := rfl
  rw [ht, hv, ha]
  by_cases hv : expectedPayoff PM .VERIFY p =
      max (max (expectedPayoff PM .TRUST p) (expectedPayoff PM .VERIFY p))
        (expectedPayoff PM .AVOID p)
  · rw [if_pos hv]
    exact ⟨hv, ⟨fun _ => hv, fun _ => rfl⟩, ⟨(fun h => by cases h), fun h => absurd hv h.1⟩,
      ⟨(fun h => by cases h), fun h => absurd hv h.1⟩⟩
  · by_cases ha : expectedPayoff PM .AVOID p =
        max (max (expectedPayoff PM .TRUST p) (expectedPayoff PM .VERIFY p))
          (expectedPayoff PM .AVOID p)
    · rw [if_neg hv, if_pos ha]
      exact ⟨ha, ⟨(fun h => by cases h), fun h => absurd h hv⟩,
        ⟨fun _ => ⟨hv, ha⟩, fun _ => rfl⟩, ⟨(fun h => by cases h), fun h => absurd ha h.2⟩⟩
    · rw [if_neg hv, if_neg ha]
      refine ⟨?_, ⟨(fun h => by cases h), fun h => absurd h hv⟩,
        ⟨(fun h => by cases h), fun h => absurd h.2 ha⟩, ⟨fun _ => ⟨hv, ha⟩, fun _ => rfl⟩⟩
      rcases max_choice (max (expectedPayoff PM .TRUST p) (expectedPayoff PM .VERIFY p))
        (expectedPayoff PM .AVOID p) with h | h
      · rcases max_choice (expectedPayoff PM .TRUST p) (expectedPayoff PM .VERIFY p) with h' | h'
        · rw [h, h']
        · exact absurd (by rw [h, h']) hv
      · exact absurd h.symm ha

/-- C11: `computeOptimalStrategy` keeps the ids of the belief map in order, and for every
AP with evil-probability `p` it records the three expected payoffs
`(1-p)*cooperate.device + p*defect.device` of the active matrix and a strategy whose
expected payoff is their maximum: VERIFY exactly when VERIFY attains the maximum, AVOID
exactly when VERIFY does not and AVOID does, TRUST exactly when neither does. -/
theorem C11_argmax_with_tie_break (PM : PayoffMatrix F) (apBeliefs : List (String × F)) :
    (computeOptimalStrategy PM apBeliefs).map Prod.fst = apBeliefs.map Prod.fst ∧
    ∀ e ∈ computeOptimalStrategy PM apBeliefs,
      (e.1, e.2.evilProb) ∈ apBeliefs ∧
      e.2.trustExpected = expectedPayoff PM .TRUST e.2.evilProb ∧
      e.2.verifyExpected = expectedPayoff PM .VERIFY e.2.evilProb ∧
      e.2.avoidExpected = expectedPayoff PM .AVOID e.2.evilProb ∧
      expectedPayoff PM e.2.strategy e.2.evilProb = bestExpectedPayoff PM e.2.evilProb ∧
      (e.2.strategy = .VERIFY ↔
        expectedPayoff PM .VERIFY e.2.evilProb = bestExpectedPayoff PM e.2.evilProb) ∧
      (e.2.strategy = .AVOID ↔
        expectedPayoff PM .VERIFY e.2.evilProb ≠ bestExpectedPayoff PM e.2.evilProb ∧
          expectedPayoff PM .AVOID e.2.evilProb = bestExpectedPayoff PM e.2.evilProb) ∧
      (e.2.strategy = .TRUST ↔
        expectedPayoff PM .VERIFY e.2.evilProb ≠ bestExpectedPayoff PM e.2.evilProb ∧
          expectedPayoff PM .AVOID e.2.evilProb ≠ bestExpectedPayoff PM e.2.evilProb) := by
  constructor
  · simp [computeOptimalStrategy, List.map_map, Function.comp_def]
  · intro e he
    unfold computeOptimalStrategy at he
    obtain ⟨b, hb, rfl⟩ := List.mem_map.1 he
    obtain ⟨_, h2, h3, h4, h5, h6, h7, h8⟩ := computeOptimalStrategyFor_spec PM b.2
    exact ⟨hb, h2, h3, h4, h5, h6, h7, h8⟩

end Router

section Containers

/-! ### Keys of JavaScript objects -/

theorem JsObject.get_eq_none_iff {α : Type} (o : JsObject α) (k : String) :
    o.get k = none ↔ k ∉ o.keys := by
  unfold JsObject.get JsObject.keys
  induction o with
  | nil => simp
  | cons e rest ih =>
    obtain ⟨a, b⟩ := e
    rw [List.lookup_cons]
    by_cases h : k = a
    · subst h
      simp
    · have h2 : (k == a) = false := by simpa using h
      rw [h2]
      simp only [List.map_cons, List.mem_cons, not_or]
      exact ⟨fun hn => ⟨h, ih.1 hn⟩, fun hn => ih.2 hn.2⟩

theorem JsObject.mem_keys_set {α : Type} (o : JsObject α) (k : String) (v : α) (x : String) :
    x ∈ (o.set k v).keys ↔ x ∈ o.keys ∨ x = k := by
  unfold JsObject.set JsObject.keys
  cases hany : o.any (fun e => e.1 == k) with
  | true =>
    simp only [if_true, List.map_map]
    have hk : k ∈ o.map Prod.fst := by
      obtain ⟨e, he, hek⟩ := List.any_eq_true.1 hany
      have : e.1 = k := by simpa using hek
      exact this ▸ List.mem_map_of_mem _ he
    have hmap : List.map (Prod.fst ∘ fun e => if (e.1 == k) = true then (k, v) else e) o =
        List.map Prod.fst o := by
      apply List.map_congr_left
      intro e _
      by_cases h : (e.1 == k) = true
      · simp only [Function.comp, if_pos h]
        exact (by simpa using h : e.1 = k).symm
      · simp only [Function.comp, if_neg h]
    rw [hmap]
    constructor
    · exact fun h => Or.inl h
    · rintro (h | h)
      · exact h
      · exact h ▸ hk
  | false =>
    simp only [Bool.false_eq_true, if_false, List.map_append, List.map_cons, List.map_nil,
      List.mem_append, List.mem_singleton]

theorem JsObject.mem_keys_delete {α : Type} (o : JsObject α) (k : String) (x : String) :
    x ∈ (o.delete k).keys ↔ x ∈ o.keys ∧ x ≠ k := by
  unfold JsObject.delete JsObject.keys
  simp only [List.mem_map, List.mem_filter, Bool.not_eq_true', beq_eq_false_iff_ne, ne_eq]
  constructor
  · rintro ⟨e, ⟨he, hne⟩, rfl⟩
    exact ⟨⟨e, he, rfl⟩, hne⟩
  · rintro ⟨⟨e, he, rfl⟩, hne⟩
    exact ⟨e, ⟨he, hne⟩, rfl⟩

theorem JsObject.mem_keys_spread {α : Type} (src : JsObject α) :
    ∀ (target : JsObject α) (x : String),
      x ∈ (JsObject.spread target src).keys ↔ x ∈ target.keys ∨ x ∈ src.keys := by
  unfold JsObject.spread
  induction src with
  | nil => intro target x; simp [JsObject.keys]
  | cons e rest ih =>
    intro target x
    rw [List.foldl_cons, ih, JsObject.mem_keys_set]
    simp only [JsObject.keys, List.map_cons, List.mem_cons]
    tauto

theorem JsSet.not_mem_delete (s : List String) (x : String) : x ∉ JsSet.delete s x := by
  simp [JsSet.delete, List.mem_filter]

theorem JsObject.get_delete_self {α : Type} (o : JsObject α) (k : String) :
    (o.delete k).get k = none := by
  rw [JsObject.get_eq_none_iff, JsObject.mem_keys_delete]
  exact fun h => h.2 rfl

end Containers

section Frames

variable {F : Type} [LinearOrderedField F]

/-! ### What each callback leaves alone -/

theorem map_identity_modify (f : AP → AP) (hf : ∀ a, (f a).identity = a.identity) (r : Nat)
    (heap : List AP) : (heap.modify f r).map AP.identity = heap.map AP.identity := by
  apply List.ext_getElem?
  intro i
  rw [List.getElem?_map, List.getElem?_map, List.getElem?_modify]
  cases heap[i]? with
  | none => rfl
  | some a =>
    by_cases h : r = i
    · simp [h, hf]
    · simp [h]

theorem updateStatistics_frame (w : World F) (id : String) (dev : Device) (cost : F)
    (wasAvoided ok : Bool) :
    (updateStatistics w id dev cost wasAvoided ok).heap = w.heap ∧
    (updateStatistics w id dev cost wasAvoided ok).LEGITIMATE_APS = w.LEGITIMATE_APS ∧
    (updateStatistics w id dev cost wasAvoided ok).EVIL_APS = w.EVIL_APS ∧
    (updateStatistics w id dev cost wasAvoided ok).GUEST_APS = w.GUEST_APS ∧
    (updateStatistics w id dev cost wasAvoided ok).AVOIDED_APS = w.AVOIDED_APS ∧
    (updateStatistics w id dev cost wasAvoided ok).settings = w.settings := by
  unfold updateStatistics
  cases ok <;> exact ⟨rfl, rfl, rfl, rfl, rfl, rfl⟩

theorem feedDetector_frame (M : JsMath F) (w : World F) (dst : Option String)
    (detector : Option (BayesianAPDetector F)) (ok actuallyEvil : Bool) (tObs tUpd : Int) :
    (feedDetector M w dst detector ok actuallyEvil tObs tUpd).heap = w.heap ∧
    (feedDetector M w dst detector ok actuallyEvil tObs tUpd).LEGITIMATE_APS =
      w.LEGITIMATE_APS ∧
    (feedDetector M w dst detector ok actuallyEvil tObs tUpd).EVIL_APS = w.EVIL_APS ∧
    (feedDetector M w dst detector ok actuallyEvil tObs tUpd).GUEST_APS = w.GUEST_APS ∧
    (feedDetector M w dst detector ok actuallyEvil tObs tUpd).AVOIDED_APS = w.AVOIDED_APS ∧
    (feedDetector M w dst detector ok actuallyEvil tObs tUpd).settings = w.settings ∧
    (feedDetector M w dst detector ok actuallyEvil tObs tUpd).traffic = w.traffic := by
  unfold feedDetector
  cases dst with
  | none => exact ⟨rfl, rfl, rfl, rfl, rfl, rfl, rfl⟩
  | some d =>
    cases detector with
    | none => exact ⟨rfl, rfl, rfl, rfl, rfl, rfl, rfl⟩
    | some det =>
      simp only [updateDetector]
      split
      · split <;> exact ⟨rfl, rfl, rfl, rfl, rfl, rfl, rfl⟩
      · exact ⟨rfl, rfl, rfl, rfl, rfl, rfl, rfl⟩

theorem finishSend_frame (M : JsMath F) (w1 : World F) (id : String) (dev : Device)
    (dst : Option String) (actuallyEvil : Bool) (pv : Verdict) (draws : SendDraws) :
    (finishSend M w1 id dev dst actuallyEvil pv draws).2.heap = w1.heap ∧
    (finishSend M w1 id dev dst actuallyEvil pv draws).2.LEGITIMATE_APS = w1.LEGITIMATE_APS ∧
    (finishSend M w1 id dev dst actuallyEvil pv draws).2.EVIL_APS = w1.EVIL_APS ∧
    (finishSend M w1 id dev dst actuallyEvil pv draws).2.GUEST_APS = w1.GUEST_APS ∧
    (finishSend M w1 id dev dst actuallyEvil pv draws).2.AVOIDED_APS = w1.AVOIDED_APS ∧
    (finishSend M w1 id dev dst actuallyEvil pv draws).2.settings = w1.settings := by
  obtain ⟨a1, a2, a3, a4, a5, a6, _⟩ := feedDetector_frame M
    (updateStatistics w1 id dev
      (finishSend M w1 id dev dst actuallyEvil pv draws).1.cost
      (finishSend M w1 id dev dst actuallyEvil pv draws).1.wasAvoided
      (finishSend M w1 id dev dst actuallyEvil pv draws).1.verdict.ok)
    dst
    (dst.bind (updateStatistics w1 id dev
      (finishSend M w1 id dev dst actuallyEvil pv draws).1.cost
      (finishSend M w1 id dev dst actuallyEvil pv draws).1.wasAvoided
      (finishSend M w1 id dev dst actuallyEvil pv draws).1.verdict.ok).DETECTORS.get)
    (finishSend M w1 id dev dst actuallyEvil pv draws).1.verdict.ok actuallyEvil draws.tObs
    draws.tUpd
  obtain ⟨b1, b2, b3, b4, b5, b6⟩ := updateStatistics_frame w1 id dev
    (finishSend M w1 id dev dst actuallyEvil pv draws).1.cost
    (finishSend M w1 id dev dst actuallyEvil pv draws).1.wasAvoided
    (finishSend M w1 id dev dst actuallyEvil pv draws).1.verdict.ok
  exact ⟨a1.trans b1, a2.trans b2, a3.trans b3, a4.trans b4, a5.trans b5, a6.trans b6⟩

/-- A call of `verifyAndDecryptAtAP` that returns leaves the state as it was or with one
replay window rewritten. -/
theorem verify_world (H : Host F) (w w1 : World F) (packet : Packet) (tNow tPrune : Int)
    (v : Verdict) (h : verifyAndDecryptAtAP H w packet tNow tPrune = .ok (v, w1)) :
    w1 = w ∨ ∃ r rp, w1 = w.setReplay r rp := by
  have key : ∀ (v' : Verdict) (w' : World F),
      (Except.ok (v', w') : Except String (Verdict × World F)) = .ok (v, w1) → w1 = w' := by
    intro v' w' he
    simp only [Except.ok.injEq, Prod.mk.injEq] at he
    exact he.2.symm
  cases hl : lookupAP w packet.header.toAp with
  | none =>
    cases hname : objectPrototypeKeys.contains packet.header.toAp with
    | false =>
      rw [verify_dest_unknown H w packet tNow tPrune hl hname] at h
      exact Or.inl (key _ _ h)
    | true =>
      rw [verify_inherited H w packet tNow tPrune hl hname] at h
      split at h
      · exact Or.inl (key _ _ h)
      · split at h
        · exact Or.inl (key _ _ h)
        · cases h
  | some p =>
    obtain ⟨r, ap⟩ := p
    by_cases h2 : ((|tNow - packet.header.ts| : Int) : F) > w.tsTolSecs * 1000
    · rw [verify_stale H w packet tNow tPrune r ap hl h2] at h
      exact Or.inl (key _ _ h)
    · cases h3 : (!((getTrustedRepo w).read packet.header.toAp).isDefined &&
          !ap.isLegitimate) with
      | true =>
        rw [verify_untrusted H w packet tNow tPrune r ap hl h2 h3] at h
        exact Or.inl (key _ _ h)
      | false =>
        cases h4 : verifyEd25519 H packet.header.devEd25519Pub
            (headOf H packet ++ H.bufferFromBase64 packet.body.ct) packet.sig with
        | false =>
          rw [verify_bad_signature H w packet tNow tPrune r ap hl h2 h3 h4] at h
          exact Or.inl (key _ _ h)
        | true =>
          by_cases h5 : packet.body.nonce ∈ pruneReplay H tPrune ap.replay
          · rw [verify_replay H w packet tNow tPrune r ap hl h2 h3 h4 h5] at h
            exact Or.inr ⟨_, _, key _ _ h⟩
          · rw [verify_past_replay H w packet tNow tPrune r ap hl h2 h3 h4 h5] at h
            exact Or.inr ⟨_, _, key _ _ h⟩

/-- `verifyAndDecryptAtAP` writes replay windows only. -/
theorem verify_heap_identity (H : Host F) (w w1 : World F) (packet : Packet)
    (tNow tPrune : Int) (v : Verdict)
    (h : verifyAndDecryptAtAP H w packet tNow tPrune = .ok (v, w1)) :
    w1.heap.map AP.identity = w.heap.map AP.identity := by
  rcases verify_world H w w1 packet tNow tPrune v h with hw | ⟨r, rp, hw⟩
  · rw [hw]
  · rw [hw]
    exact map_identity_modify (fun ap => { ap with replay := rp }) (fun _ => rfl) r w.heap

/-- A send leaves the three AP registries, the identities of the AP objects and the
settings as they were. -/
theorem createSendPacket_frame (M : JsMath F) (H : Host F) (w : World F) (id : String)
    (draws : SendDraws) :
    (createSendPacket M H w id draws).2.heap.map AP.identity = w.heap.map AP.identity ∧
    (createSendPacket M H w id draws).2.LEGITIMATE_APS = w.LEGITIMATE_APS ∧
    (createSendPacket M H w id draws).2.EVIL_APS = w.EVIL_APS ∧
    (createSendPacket M H w id draws).2.GUEST_APS = w.GUEST_APS ∧
    (createSendPacket M H w id draws).2.settings = w.settings := by
  cases hdev : w.DEVICES.get id with
  | none => simp [createSendPacket, hdev]
  | some dev =>
    by_cases hkeys : (JsObject.keys (getAllAPs w)).length = 0
    · simp [createSendPacket, hdev, hkeys]
    · rw [createSendPacket_eq M H w id draws dev hdev hkeys]
      cases hp : protocolStep H w id dev draws with
      | error e => exact ⟨rfl, rfl, rfl, rfl, rfl⟩
      | ok res =>
        obtain ⟨pv, w1⟩ := res
        have hframe := runProtocol_frame H _ w1 id dev _ _ _ draws pv hp
        obtain ⟨f1, f2, f3, f4, _, f6⟩ := finishSend_frame M w1 id dev (chosenDst w draws)
          (!chosenIsLegitimate w draws) pv draws
        have hheap : w1.heap.map AP.identity = w.heap.map AP.identity := by
          unfold protocolStep runProtocol at hp
          split at hp
          · split at hp
            · dsimp only at hp
              split at hp
              · cases hp
              · rename_i packet _
                exact verify_heap_identity H (afterSelection w draws) w1 packet
                  draws.tVerify draws.tPrune pv hp
            · simp only [Except.ok.injEq, Prod.mk.injEq] at hp
              rw [← hp.2]; rfl
          · simp only [Except.ok.injEq, Prod.mk.injEq] at hp
            rw [← hp.2]; rfl
        dsimp only
        rw [f1, f2, f3, f4, f6]
        refine ⟨hheap, ?_, ?_, ?_, ?_⟩ <;> (rw [hframe]; rfl)

end Frames

section Spawns

variable {F : Type} [LinearOrderedField F]

/-! ### Guest spawns -/

/-- What `makeAP` does when called for a guest. -/
theorem makeAP_guest (M : JsMath F) (w : World F) (name : String) (isLegitimate : Bool)
    (sign kex : KeyPair) (spawnTime tDetector : Int) :
    (makeAP M w name isLegitimate true sign kex spawnTime tDetector).heap =
        w.heap ++
          [{ bssid := name, sign := sign, kex := kex, isLegitimate := isLegitimate,
             isGuest := true, spawnTime := spawnTime, replay := [] }] ∧
    (makeAP M w name isLegitimate true sign kex spawnTime tDetector).LEGITIMATE_APS =
        w.LEGITIMATE_APS ∧
    (makeAP M w name isLegitimate true sign kex spawnTime tDetector).GUEST_APS =
        w.GUEST_APS.set name w.heap.length ∧
    (makeAP M w name isLegitimate true sign kex spawnTime tDetector).EVIL_APS =
        (if isLegitimate then w.EVIL_APS else w.EVIL_APS.set name w.heap.length) ∧
    (makeAP M w name isLegitimate true sign kex spawnTime tDetector).settings = w.settings ∧
    (makeAP M w name isLegitimate true sign kex spawnTime tDetector).traffic = w.traffic := by
  unfold makeAP
  cases isLegitimate <;> exact ⟨rfl, rfl, rfl, rfl, rfl, rfl⟩

/-- A property kept by every `makeAP` call of the loop is kept by `spawnGuestAPs`. -/
theorem spawnGuestAPs_induction (M : JsMath F) (draws : Nat → GuestDraw F)
    (P : World F → Prop)
    (hstep : ∀ (w : World F) (i : Nat) (k : String) (r : Nat) (targetAP : AP),
      w.LEGITIMATE_APS.get k = some r → w.heap[r]? = some targetAP → P w →
      P (makeAP M w (guestIdOf targetAP (draws i).stamp i)
        (!decide ((draws i).evilDraw < w.evilProbability)) true (draws i).sign (draws i).kex
        (draws i).spawnTime (draws i).tDetector))
    (w : World F) (hw : P w) : P (spawnGuestAPs M w draws) := by
  unfold spawnGuestAPs
  dsimp only
  split
  · exact hw
  · rename_i hne
    clear hne
    generalize JsObject.keys w.LEGITIMATE_APS = legitKeys
    generalize List.range guestAPsPerSpawn = idxs
    induction idxs generalizing w with
    | nil => exact hw
    | cons i rest ih =>
      unfold spawnGuestLoop
      cases hk : legitKeys.get? (draws i).pick with
      | none => exact hw
      | some k =>
        cases hr : w.LEGITIMATE_APS.get k with
        | none => simp only [Option.some_bind, hr, Option.none_bind]; exact hw
        | some r =>
          cases ht : w.heap[r]? with
          | none => simp only [Option.some_bind, hr, ht]; exact hw
          | some targetAP =>
            simp only [Option.some_bind, hr, ht]
            exact ih _ (hstep w i k r targetAP hr ht hw)

theorem spawnGuestAPs_frame (M : JsMath F) (w : World F) (draws : Nat → GuestDraw F) :
    (spawnGuestAPs M w draws).LEGITIMATE_APS = w.LEGITIMATE_APS ∧
    (spawnGuestAPs M w draws).settings = w.settings ∧
    (spawnGuestAPs M w draws).traffic = w.traffic ∧
    ∃ added, (spawnGuestAPs M w draws).heap = w.heap ++ added := by
  apply spawnGuestAPs_induction M draws
    (fun w' => w'.LEGITIMATE_APS = w.LEGITIMATE_APS ∧ w'.settings = w.settings ∧
      w'.traffic = w.traffic ∧ ∃ added, w'.heap = w.heap ++ added)
  · intro w' i k r targetAP _ _ ⟨h1, h2, h3, added, h4⟩
    obtain ⟨m1, m2, _, _, m5, m6⟩ := makeAP_guest M w' (guestIdOf targetAP (draws i).stamp i)
      (!decide ((draws i).evilDraw < w'.evilProbability)) (draws i).sign (draws i).kex
      (draws i).spawnTime (draws i).tDetector
    refine ⟨m2.trans h1, m5.trans h2, m6.trans h3, ?_⟩
    rw [m1, h4, List.append_assoc]
    exact ⟨_, rfl⟩
  · exact ⟨rfl, rfl, rfl, [], (List.append_nil _).symm⟩

end Spawns

section Runs

variable {F : Type} [LinearOrderedField F]

/-! ### Invariants of runs -/

theorem run_induction (M : JsMath F) (H : Host F) (P : World F → Prop)
    (hstep : ∀ w e, P w → P (applyEvent M H w e)) :
    ∀ (events : List (Event F)) (w : World F), P w → P (run M H w events) := by
  intro events
  induction events with
  | nil => intro w hw; exact hw
  | cons e rest ih => intro w hw; exact ih _ (hstep w e hw)

theorem run_append (M : JsMath F) (H : Host F) (w : World F) (es1 es2 : List (Event F)) :
    run M H w (es1 ++ es2) = run M H (run M H w es1) es2 := by
  simp [run, List.foldl_append]

theorem despawnGuestAP_frame (w : World F) (bssid : String) :
    (despawnGuestAP w bssid).heap = w.heap ∧
    (despawnGuestAP w bssid).LEGITIMATE_APS = w.LEGITIMATE_APS ∧
    (despawnGuestAP w bssid).settings = w.settings ∧
    (despawnGuestAP w bssid).traffic = w.traffic := by
  unfold despawnGuestAP
  split <;> exact ⟨rfl, rfl, rfl, rfl⟩

theorem manualToggleEvil_frame (w : World F) (bssid : String) :
    (manualToggleEvil w bssid).heap.map AP.identity = w.heap.map AP.identity ∧
    (manualToggleEvil w bssid).LEGITIMATE_APS = w.LEGITIMATE_APS ∧
    (manualToggleEvil w bssid).GUEST_APS = w.GUEST_APS ∧
    (manualToggleEvil w bssid).settings = w.settings ∧
    (manualToggleEvil w bssid).traffic = w.traffic := by
  unfold manualToggleEvil
  split
  · exact ⟨rfl, rfl, rfl, rfl, rfl⟩
  · dsimp only
    split <;>
      · refine ⟨?_, rfl, rfl, rfl, rfl⟩
        apply map_identity_modify
        intro a
        rfl

theorem connectDevice_frame (w : World F) (id : String) (ed x : KeyPair) :
    (connectDevice w id ed x).heap = w.heap ∧
    (connectDevice w id ed x).LEGITIMATE_APS = w.LEGITIMATE_APS ∧
    (connectDevice w id ed x).GUEST_APS = w.GUEST_APS ∧
    (connectDevice w id ed x).settings = w.settings ∧
    (connectDevice w id ed x).traffic = w.traffic := by
  unfold connectDevice
  split
  · exact ⟨rfl, rfl, rfl, rfl, rfl⟩
  · split <;> exact ⟨rfl, rfl, rfl, rfl, rfl⟩

/-- No callback touches the registry of fixed APs. -/
theorem applyEvent_LEGITIMATE_APS (M : JsMath F) (H : Host F) (w : World F) (e : Event F) :
    (applyEvent M H w e).LEGITIMATE_APS = w.LEGITIMATE_APS := by
  cases e with
  | rotate t => rfl
  | spawnGuestAPs draws => exact (spawnGuestAPs_frame M w draws).1
  | despawnGuestAP bssid => exact (despawnGuestAP_frame w bssid).2.1
  | createSendPacket id draws => exact (createSendPacket_frame M H w id draws).2.1
  | setTolerance secs => rfl
  | setSensitivity s => rfl
  | setEvilProbability p => rfl
  | connectDevice id ed x => exact (connectDevice_frame w id ed x).2.1
  | manualToggleEvil bssid => exact (manualToggleEvil_frame w bssid).2.1
  | statsTick => rfl

/-- No callback removes an AP object or changes its identity fields. -/
theorem applyEvent_heap_identity (M : JsMath F) (H : Host F) (w : World F) (e : Event F)
    (i : Nat) (x : String × KeyPair × KeyPair × Bool)
    (h : (w.heap[i]?).map AP.identity = some x) :
    ((applyEvent M H w e).heap[i]?).map AP.identity = some x := by
  have hsame : ∀ heap' : List AP, heap'.map AP.identity = w.heap.map AP.identity →
      (heap'[i]?).map AP.identity = some x := by
    intro heap' hm
    rw [← List.getElem?_map, hm, List.getElem?_map]
    exact h
  cases e with
  | rotate t => exact h
  | spawnGuestAPs draws =>
    obtain ⟨added, ha⟩ := (spawnGuestAPs_frame M w draws).2.2.2
    show ((spawnGuestAPs M w draws).heap[i]?).map AP.identity = some x
    rw [ha]
    cases hi : w.heap[i]? with
    | none => rw [hi] at h; cases h
    | some a =>
      have hlt : i < w.heap.length := by
        by_contra hge
        rw [List.getElem?_eq_none (by omega)] at hi
        cases hi
      rw [List.getElem?_append_left hlt, hi]
      rw [hi] at h
      exact h
  | despawnGuestAP bssid =>
    show ((despawnGuestAP w bssid).heap[i]?).map AP.identity = some x
    rw [(despawnGuestAP_frame w bssid).1]; exact h
  | createSendPacket id draws => exact hsame _ (createSendPacket_frame M H w id draws).1
  | setTolerance secs => exact h
  | setSensitivity s => exact h
  | setEvilProbability p => exact h
  | connectDevice id ed x' =>
    show ((connectDevice w id ed x').heap[i]?).map AP.identity = some x
    rw [(connectDevice_frame w id ed x').1]; exact h
  | manualToggleEvil bssid => exact hsame _ (manualToggleEvil_frame w bssid).1
  | statsTick => exact h

end Runs

section StartState

variable {F : Type} [LinearOrderedField F]

/-! ### The start state -/

theorem initialWorld_settings (M : JsMath F) (tol : F) (t0 : Int)
    (keys : Nat → KeyPair × KeyPair) :
    (initialWorld M tol t0 keys).settings =
      (0, .TRUST, t0 + 30000, tol, .non, PAYOFF_MATRICES .non, 40 / 100) := by
  rfl

theorem initialWorld_counters (M : JsMath F) (tol : F) (t0 : Int)
    (keys : Nat → KeyPair × KeyPair) :
    (initialWorld M tol t0 keys).countersAgree := by
  simp [World.countersAgree, initialWorld, makeAP, emptyWorld, List.enum, List.enumFrom]

theorem initialWorld_registries (M : JsMath F) (tol : F) (t0 : Int)
    (keys : Nat → KeyPair × KeyPair) :
    (initialWorld M tol t0 keys).LEGITIMATE_APS = fixedRegistry ∧
    (initialWorld M tol t0 keys).EVIL_APS = [] ∧
    (initialWorld M tol t0 keys).GUEST_APS = [] := by
  simp [initialWorld, makeAP, emptyWorld, List.enum, List.enumFrom, JsObject.set, fixedRegistry,
    fixedNames]

theorem initialWorld_heap (M : JsMath F) (tol : F) (t0 : Int)
    (keys : Nat → KeyPair × KeyPair) :
    (initialWorld M tol t0 keys).heap.map AP.identity =
      fixedNames.enum.map (fun e => (e.2, (keys e.1).1, (keys e.1).2, false)) := by
  simp [initialWorld, makeAP, emptyWorld, List.enum, List.enumFrom, fixedNames, AP.identity]

end StartState

section Invariants

variable {F : Type} [LinearOrderedField F]

/-! ### Sensitivity mode, scheduler and counters along a run -/

/-- A callback other than `setSensitivity` leaves the mode and the active matrix alone. -/
theorem applyEvent_mode (M : JsMath F) (H : Host F) (w : World F) (e : Event F)
    (he : ∀ s, e ≠ .setSensitivity s) :
    (applyEvent M H w e).DATA_SENSITIVITY = w.DATA_SENSITIVITY ∧
      (applyEvent M H w e).PAYOFF_MATRIX = w.PAYOFF_MATRIX := by
  have hs : ∀ w' : World F, w'.settings = w.settings →
      w'.DATA_SENSITIVITY = w.DATA_SENSITIVITY ∧ w'.PAYOFF_MATRIX = w.PAYOFF_MATRIX := by
    intro w' h
    simp only [World.settings, Prod.mk.injEq] at h
    exact ⟨h.2.2.2.2.1, h.2.2.2.2.2.1⟩
  cases e with
  | rotate t => exact ⟨rfl, rfl⟩
  | spawnGuestAPs draws => exact hs _ (spawnGuestAPs_frame M w draws).2.1
  | despawnGuestAP bssid => exact hs _ (despawnGuestAP_frame w bssid).2.2.1
  | createSendPacket id draws => exact hs _ (createSendPacket_frame M H w id draws).2.2.2.2
  | setTolerance secs => exact ⟨rfl, rfl⟩
  | setSensitivity s => exact absurd rfl (he s)
  | setEvilProbability p => exact ⟨rfl, rfl⟩
  | connectDevice id ed x => exact hs _ (connectDevice_frame w id ed x).2.2.2.1
  | manualToggleEvil bssid => exact hs _ (manualToggleEvil_frame w bssid).2.2.2.1
  | statsTick => exact ⟨rfl, rfl⟩

/-- Every callback keeps the active matrix equal to the table entry of the mode. -/
theorem applyEvent_matrix_of_mode (M : JsMath F) (H : Host F) (w : World F) (e : Event F)
    (h : w.PAYOFF_MATRIX = PAYOFF_MATRICES w.DATA_SENSITIVITY) :
    (applyEvent M H w e).PAYOFF_MATRIX =
      PAYOFF_MATRICES (applyEvent M H w e).DATA_SENSITIVITY := by
  by_cases he : ∃ s, e = .setSensitivity s
  · obtain ⟨s, rfl⟩ := he
    rfl
  · obtain ⟨h1, h2⟩ := applyEvent_mode M H w e (fun s hs => he ⟨s, hs⟩)
    rw [h1, h2]
    exact h

/-- A callback other than the rotation tick leaves the scheduler alone. -/
theorem applyEvent_scheduler (M : JsMath F) (H : Host F) (w : World F) (e : Event F)
    (he : e.isRotate = false) :
    (applyEvent M H w e).STRAT_IDX = w.STRAT_IDX ∧
      (applyEvent M H w e).ACTIVE_STRATEGY = w.ACTIVE_STRATEGY := by
  have hs : ∀ w' : World F, w'.settings = w.settings →
      w'.STRAT_IDX = w.STRAT_IDX ∧ w'.ACTIVE_STRATEGY = w.ACTIVE_STRATEGY := by
    intro w' h
    simp only [World.settings, Prod.mk.injEq] at h
    exact ⟨h.1, h.2.1⟩
  cases e with
  | rotate t => cases he
  | spawnGuestAPs draws => exact hs _ (spawnGuestAPs_frame M w draws).2.1
  | despawnGuestAP bssid => exact hs _ (despawnGuestAP_frame w bssid).2.2.1
  | createSendPacket id draws => exact hs _ (createSendPacket_frame M H w id draws).2.2.2.2
  | setTolerance secs => exact ⟨rfl, rfl⟩
  | setSensitivity s => exact ⟨rfl, rfl⟩
  | setEvilProbability p => exact ⟨rfl, rfl⟩
  | connectDevice id ed x => exact hs _ (connectDevice_frame w id ed x).2.2.2.1
  | manualToggleEvil bssid => exact hs _ (manualToggleEvil_frame w bssid).2.2.2.1
  | statsTick => exact ⟨rfl, rfl⟩

/-- The scheduler after a run, from any state whose index and strategy agree. -/
theorem run_scheduler (M : JsMath F) (H : Host F) :
    ∀ (events : List (Event F)) (w : World F), w.STRAT_IDX < 3 →
      STRATEGIES[w.STRAT_IDX]? = some w.ACTIVE_STRATEGY →
      (run M H w events).STRAT_IDX = (w.STRAT_IDX + events.countP Event.isRotate) % 3 ∧
      STRATEGIES[(run M H w events).STRAT_IDX]? = some (run M H w events).ACTIVE_STRATEGY := by
  intro events
  induction events with
  | nil =>
    intro w h1 h2
    simp only [run, List.foldl_nil, List.countP_nil, Nat.add_zero]
    exact ⟨(Nat.mod_eq_of_lt h1).symm, h2⟩
  | cons e rest ih =>
    intro w h1 h2
    cases hr : e.isRotate with
    | true =>
      cases e with
      | rotate t =>
        have h3 : (rotateStrategy w t).STRAT_IDX = (w.STRAT_IDX + 1) % 3 := rfl
        have h4 : STRATEGIES[(rotateStrategy w t).STRAT_IDX]? =
            some (rotateStrategy w t).ACTIVE_STRATEGY := by
          simp only [rotateStrategy, List.get_eq_getElem]
          exact List.getElem?_eq_getElem _
        obtain ⟨i1, i2⟩ := ih (rotateStrategy w t) (by rw [h3]; exact Nat.mod_lt _ (by decide)) h4
        refine ⟨?_, i2⟩
        show (run M H (rotateStrategy w t) rest).STRAT_IDX = _
        rw [i1, h3, List.countP_cons_of_pos _ _ (by rfl)]
        omega
      | _ => cases hr
    | false =>
      obtain ⟨s1, s2⟩ := applyEvent_scheduler M H w e hr
      obtain ⟨i1, i2⟩ := ih (applyEvent M H w e) (by rw [s1]; exact h1) (by rw [s1, s2]; exact h2)
      refine ⟨?_, i2⟩
      show (run M H (applyEvent M H w e) rest).STRAT_IDX = _
      rw [i1, s1, List.countP_cons_of_neg _ _ (by simp [hr])]

/-- C14: in every state reached from start-up by any sequence of callbacks, the mode is
`non` or `sensitive`, the active payoff matrix is `PAYOFF_MATRICES[mode]`, and the cost of
any send made from that state is read from that one matrix. -/
theorem C14_matrix_is_table_entry_of_mode (M : JsMath F) (H : Host F) (tol : F) (t0 : Int)
    (keys : Nat → KeyPair × KeyPair) (events : List (Event F)) :
    ((run M H (initialWorld M tol t0 keys) events).DATA_SENSITIVITY = .non ∨
      (run M H (initialWorld M tol t0 keys) events).DATA_SENSITIVITY = .sensitive) ∧
    (run M H (initialWorld M tol t0 keys) events).PAYOFF_MATRIX =
      PAYOFF_MATRICES (run M H (initialWorld M tol t0 keys) events).DATA_SENSITIVITY ∧
    ∀ (id : String) (draws : SendDraws) (tr : SendTrace F) (w' : World F),
      createSendPacket M H (run M H (initialWorld M tol t0 keys) events) id draws =
        (.sent tr, w') →
      tr.cost = costBySpec
        (PAYOFF_MATRICES (run M H (initialWorld M tol t0 keys) events).DATA_SENSITIVITY)
        (run M H (initialWorld M tol t0 keys) events).ACTIVE_STRATEGY
        (chosenInAvoided (run M H (initialWorld M tol t0 keys) events) draws)
        (chosenIsLegitimate (run M H (initialWorld M tol t0 keys) events) draws) := by
  have hinv : (run M H (initialWorld M tol t0 keys) events).PAYOFF_MATRIX =
      PAYOFF_MATRICES (run M H (initialWorld M tol t0 keys) events).DATA_SENSITIVITY :=
    run_induction M H (fun w => w.PAYOFF_MATRIX = PAYOFF_MATRICES w.DATA_SENSITIVITY)
      (fun w e h => applyEvent_matrix_of_mode M H w e h) events _ rfl
  refine ⟨?_, hinv, ?_⟩
  · cases (run M H (initialWorld M tol t0 keys) events).DATA_SENSITIVITY
    · exact Or.inl rfl
    · exact Or.inr rfl
  · intro id draws tr w' h
    obtain ⟨dev, pv, w1, _, hp, hfin⟩ := createSendPacket_sent_inv M H _ w' id draws tr h
    have hframe := runProtocol_frame H _ w1 id dev _ _ _ draws pv hp
    have e1 : w1.PAYOFF_MATRIX = (run M H (initialWorld M tol t0 keys) events).PAYOFF_MATRIX := by
      rw [hframe]; rfl
    have e2 : w1.ACTIVE_STRATEGY =
        (run M H (initialWorld M tol t0 keys) events).ACTIVE_STRATEGY := by
      rw [hframe]; rfl
    have e3 : w1.AVOIDED_APS =
        avoidedAfterSelection (run M H (initialWorld M tol t0 keys) events) draws := by
      rw [hframe]; rfl
    have htr : tr = (finishSend M w1 id dev
        (chosenDst (run M H (initialWorld M tol t0 keys) events) draws)
        (!chosenIsLegitimate (run M H (initialWorld M tol t0 keys) events) draws) pv draws).1 := by
      rw [hfin]
    rw [htr]
    show (assignCost w1.PAYOFF_MATRIX w1.ACTIVE_STRATEGY
      (dstInAvoided w1.AVOIDED_APS
        (chosenDst (run M H (initialWorld M tol t0 keys) events) draws))
      (!chosenIsLegitimate (run M H (initialWorld M tol t0 keys) events) draws) pv).1 = _
    rw [assignCost_cost, e1, e2, e3, Bool.not_not, hinv]
    rfl

/-- C15: the scheduler starts at TRUST, and after a run that contains `n` rotation ticks
(among any other callbacks) the index is `n mod 3` and the active strategy is the entry
of `[TRUST, VERIFY, AVOID]` at that index; each tick sets the window end to its clock
read plus 30000 ms. -/
theorem C15_rotation_is_three_cycle (M : JsMath F) (H : Host F) (tol : F) (t0 : Int)
    (keys : Nat → KeyPair × KeyPair) (events : List (Event F)) :
    (initialWorld M tol t0 keys).ACTIVE_STRATEGY = .TRUST ∧
    (run M H (initialWorld M tol t0 keys) events).STRAT_IDX =
      events.countP Event.isRotate % 3 ∧
    [Strategy.TRUST, Strategy.VERIFY, Strategy.AVOID][events.countP Event.isRotate % 3]? =
      some (run M H (initialWorld M tol t0 keys) events).ACTIVE_STRATEGY ∧
    ∀ (w : World F) (t : Int),
      (applyEvent M H w (.rotate t)).MODE_ENDS_AT = t + 30000 ∧
      (applyEvent M H w (.rotate t)).STRAT_IDX = (w.STRAT_IDX + 1) % 3 := by
  have h0 : (initialWorld M tol t0 keys).STRAT_IDX = 0 := rfl
  obtain ⟨h1, h2⟩ := run_scheduler M H events (initialWorld M tol t0 keys)
    (by rw [h0]; exact Nat.zero_lt_succ 2) rfl
  rw [h0, Nat.zero_add] at h1
  refine ⟨rfl, h1, ?_, fun w t => ⟨rfl, rfl⟩⟩
  rw [← h1]
  exact h2

end Invariants

section Counters

variable {F : Type} [LinearOrderedField F]

/-! ### Global counters and per-strategy buckets -/

theorem countersAgree_of_traffic (w w' : World F) (h : w'.traffic = w.traffic)
    (hw : w.countersAgree) : w'.countersAgree := by
  simp only [World.traffic, Prod.mk.injEq] at h
  obtain ⟨h1, h2, h3, h4, h5⟩ := h
  unfold World.countersAgree at hw ⊢
  rw [h1, h2, h3, h4, h5]
  exact hw

theorem updateStatistics_countersAgree (w : World F) (id : String) (dev : Device) (cost : F)
    (wasAvoided ok : Bool) (hw : w.countersAgree) :
    (updateStatistics w id dev cost wasAvoided ok).countersAgree := by
  obtain ⟨h1, h2, h3, h4⟩ := hw
  unfold updateStatistics World.countersAgree
  cases ok <;> cases hs : w.ACTIVE_STRATEGY <;>
    simp only [PerMode.modify, Bool.false_eq_true, if_false, if_true] <;>
    refine ⟨by omega, by omega, by omega, ?_⟩ <;>
    rw [h4] <;> ring

theorem createSendPacket_countersAgree (M : JsMath F) (H : Host F) (w : World F)
    (id : String) (draws : SendDraws) (hw : w.countersAgree) :
    (createSendPacket M H w id draws).2.countersAgree := by
  cases hdev : w.DEVICES.get id with
  | none => simp only [createSendPacket, hdev]; exact hw
  | some dev =>
    by_cases hkeys : (JsObject.keys (getAllAPs w)).length = 0
    · simp only [createSendPacket, hdev, if_pos hkeys]; exact hw
    · rw [createSendPacket_eq M H w id draws dev hdev hkeys]
      cases hp : protocolStep H w id dev draws with
      | error e => exact hw
      | ok res =>
        obtain ⟨pv, w1⟩ := res
        have hframe := runProtocol_frame H _ w1 id dev _ _ _ draws pv hp
        have h1 : w1.countersAgree := by
          apply countersAgree_of_traffic w w1 _ hw
          rw [hframe]; rfl
        dsimp only
        apply countersAgree_of_traffic _ _ (feedDetector_frame M _ _ _ _ _ _ _).2.2.2.2.2.2
        exact updateStatistics_countersAgree w1 id dev _ _ _ h1

theorem applyEvent_countersAgree (M : JsMath F) (H : Host F) (w : World F) (e : Event F)
    (hw : w.countersAgree) : (applyEvent M H w e).countersAgree := by
  cases e with
  | rotate t => exact hw
  | spawnGuestAPs draws =>
    exact countersAgree_of_traffic w _ (spawnGuestAPs_frame M w draws).2.2.1 hw
  | despawnGuestAP bssid =>
    exact countersAgree_of_traffic w _ (despawnGuestAP_frame w bssid).2.2.2 hw
  | createSendPacket id draws => exact createSendPacket_countersAgree M H w id draws hw
  | setTolerance secs => exact hw
  | setSensitivity s => exact hw
  | setEvilProbability p => exact hw
  | connectDevice id ed x =>
    exact countersAgree_of_traffic w _ (connectDevice_frame w id ed x).2.2.2.2 hw
  | manualToggleEvil bssid =>
    exact countersAgree_of_traffic w _ (manualToggleEvil_frame w bssid).2.2.2.2 hw
  | statsTick => exact hw

/-- C18: in every state reached from start-up by any sequence of callbacks, `totalSent`,
`totalDelivered`, `dropped` and (in exact arithmetic) `cumulativeCost` of `STATS` each
equal the sum of the same counter over the TRUST, VERIFY and AVOID buckets of
`PER_MODE`. -/
theorem C18_counters_are_bucket_sums (M : JsMath F) (H : Host F) (tol : F) (t0 : Int)
    (keys : Nat → KeyPair × KeyPair) (events : List (Event F)) :
    (run M H (initialWorld M tol t0 keys) events).STATS.totalSent =
      ((run M H (initialWorld M tol t0 keys) events).PER_MODE.get .TRUST).sent +
        ((run M H (initialWorld M tol t0 keys) events).PER_MODE.get .VERIFY).sent +
        ((run M H (initialWorld M tol t0 keys) events).PER_MODE.get .AVOID).sent ∧
    (run M H (initialWorld M tol t0 keys) events).STATS.totalDelivered =
      ((run M H (initialWorld M tol t0 keys) events).PER_MODE.get .TRUST).delivered +
        ((run M H (initialWorld M tol t0 keys) events).PER_MODE.get .VERIFY).delivered +
        ((run M H (initialWorld M tol t0 keys) events).PER_MODE.get .AVOID).delivered ∧
    (run M H (initialWorld M tol t0 keys) events).STATS.dropped =
      ((run M H (initialWorld M tol t0 keys) events).PER_MODE.get .TRUST).dropped +
        ((run M H (initialWorld M tol t0 keys) events).PER_MODE.get .VERIFY).dropped +
        ((run M H (initialWorld M tol t0 keys) events).PER_MODE.get .AVOID).dropped ∧
    (run M H (initialWorld M tol t0 keys) events).STATS.cumulativeCost =
      ((run M H (initialWorld M tol t0 keys) events).PER_MODE.get .TRUST).cost +
        ((run M H (initialWorld M tol t0 keys) events).PER_MODE.get .VERIFY).cost +
        ((run M H (initialWorld M tol t0 keys) events).PER_MODE.get .AVOID).cost :=
  run_induction M H World.countersAgree (applyEvent_countersAgree M H) events _
    (initialWorld_counters M tol t0 keys)

end Counters

section FixedAPs

variable {F : Type} [LinearOrderedField F]

/-! ### The fixed APs and the guest ids along a run -/

theorem lookup_enumFrom_swap (k : String) (r : Nat) :
    ∀ (l : List String) (n : Nat),
      List.lookup k ((l.enumFrom n).map (fun e => (e.2, e.1))) = some r →
      ∃ j, r = n + j ∧ l[j]? = some k := by
  intro l
  induction l with
  | nil => intro n h; cases h
  | cons a rest ih =>
    intro n h
    rw [List.enumFrom_cons, List.map_cons, List.lookup_cons] at h
    cases hk : (k == a) with
    | true =>
      rw [hk] at h
      simp only [Option.some.injEq] at h
      have : k = a := by simpa using hk
      exact ⟨0, by omega, by simp [this]⟩
    | false =>
      rw [hk] at h
      obtain ⟨j, hj, hl⟩ := ih (n + 1) h
      exact ⟨j + 1, by omega, by simpa using hl⟩

theorem fixedRegistry_get (k : String) (r : Nat) (h : fixedRegistry.get k = some r) :
    fixedNames[r]? = some k := by
  obtain ⟨j, hj, hl⟩ := lookup_enumFrom_swap k r fixedNames 0 h
  rw [hj, Nat.zero_add]
  exact hl

theorem fixedRegistry_keys : JsObject.keys fixedRegistry = fixedNames := by
  decide

theorem fixedNames_length (k : String) (h : k ∈ fixedNames) : k.length = 3 := by
  revert k
  decide

theorem guestIdOf_length (target : AP) (stamp : String) (i : Nat) :
    target.bssid.length + 8 ≤ (guestIdOf target stamp i).length := by
  have h7 : "_guest_".length = 7 := by decide
  have h1 : "_".length = 1 := by decide
  simp only [guestIdOf, String.length_append, h7, h1]
  omega

theorem initialWorld_fixedAPsIntact (M : JsMath F) (tol : F) (t0 : Int)
    (keys : Nat → KeyPair × KeyPair) :
    (initialWorld M tol t0 keys).fixedAPsIntact keys := by
  refine ⟨(initialWorld_registries M tol t0 keys).1, ?_⟩
  intro i name hi
  rw [← List.getElem?_map, initialWorld_heap]
  simp only [fixedNames] at hi ⊢
  match i, hi with
  | 0, hi => simpa [List.enum, List.enumFrom] using hi
  | 1, hi => simpa [List.enum, List.enumFrom] using hi
  | 2, hi => simpa [List.enum, List.enumFrom] using hi
  | 3, hi => simpa [List.enum, List.enumFrom] using hi
  | 4, hi => simpa [List.enum, List.enumFrom] using hi
  | 5, hi => simpa [List.enum, List.enumFrom] using hi
  | n + 6, hi => simp at hi

theorem applyEvent_fixedAPsIntact (M : JsMath F) (H : Host F) (keys : Nat → KeyPair × KeyPair)
    (w : World F) (e : Event F) (h : w.fixedAPsIntact keys) :
    (applyEvent M H w e).fixedAPsIntact keys :=
  ⟨(applyEvent_LEGITIMATE_APS M H w e).trans h.1,
    fun i name hi => applyEvent_heap_identity M H w e i _ (h.2 i name hi)⟩

/-- Along a run the fixed APs stay intact. -/
theorem run_fixedAPsIntact (M : JsMath F) (H : Host F) (tol : F) (t0 : Int)
    (keys : Nat → KeyPair × KeyPair) (events : List (Event F)) :
    (run M H (initialWorld M tol t0 keys) events).fixedAPsIntact keys :=
  run_induction M H (World.fixedAPsIntact keys) (applyEvent_fixedAPsIntact M H keys) events _
    (initialWorld_fixedAPsIntact M tol t0 keys)

theorem applyEvent_guestIdsLong (M : JsMath F) (H : Host F) (keys : Nat → KeyPair × KeyPair)
    (w : World F) (e : Event F) (h : w.fixedAPsIntact keys ∧ w.guestIdsLong) :
    (applyEvent M H w e).fixedAPsIntact keys ∧ (applyEvent M H w e).guestIdsLong := by
  refine ⟨applyEvent_fixedAPsIntact M H keys w e h.1, ?_⟩
  have hsame : ∀ w' : World F, w'.GUEST_APS = w.GUEST_APS → w'.guestIdsLong := by
    intro w' hg
    unfold World.guestIdsLong
    rw [hg]
    exact h.2
  cases e with
  | rotate t => exact h.2
  | spawnGuestAPs draws =>
    refine (spawnGuestAPs_induction M draws
      (fun w' => w'.fixedAPsIntact keys ∧ w'.guestIdsLong) ?_ w h).2
    intro w' i k r targetAP hk hr hw'
    obtain ⟨m1, m2, m3, _, _, _⟩ := makeAP_guest M w' (guestIdOf targetAP (draws i).stamp i)
      (!decide ((draws i).evilDraw < w'.evilProbability)) (draws i).sign (draws i).kex
      (draws i).spawnTime (draws i).tDetector
    constructor
    · refine ⟨m2.trans hw'.1.1, ?_⟩
      intro j name hj
      have hold := hw'.1.2 j name hj
      rw [m1]
      cases hjj : w'.heap[j]? with
      | none => rw [hjj] at hold; cases hold
      | some a =>
        have hlt : j < w'.heap.length := by
          by_contra hge
          rw [List.getElem?_eq_none (by omega)] at hjj
          cases hjj
        rw [List.getElem?_append_left hlt, hjj]
        rw [hjj] at hold
        exact hold
    · intro x hx
      rw [m3, JsObject.mem_keys_set] at hx
      rcases hx with hx | hx
      · exact hw'.2 x hx
      · rw [hw'.1.1] at hk
        have hname := fixedRegistry_get k r hk
        have hid := hw'.1.2 r k hname
        rw [hr] at hid
        simp only [Option.map_some', Option.some.injEq, AP.identity, Prod.mk.injEq] at hid
        have hlen : targetAP.bssid.length = 3 := by
          rw [hid.1]
          exact fixedNames_length k (List.mem_iff_getElem?.2 ⟨r, hname⟩)
        have := guestIdOf_length targetAP (draws i).stamp i
        rw [hx]
        omega
  | despawnGuestAP bssid =>
    show (despawnGuestAP w bssid).guestIdsLong
    unfold despawnGuestAP
    split
    · intro x hx
      exact h.2 x ((JsObject.mem_keys_delete _ _ _).1 hx).1
    · exact h.2
  | createSendPacket id draws => exact hsame _ (createSendPacket_frame M H w id draws).2.2.2.1
  | setTolerance secs => exact h.2
  | setSensitivity s => exact h.2
  | setEvilProbability p => exact h.2
  | connectDevice id ed x => exact hsame _ (connectDevice_frame w id ed x).2.2.1
  | manualToggleEvil bssid => exact hsame _ (manualToggleEvil_frame w bssid).2.2.1
  | statsTick => exact h.2

/-- Along a run no guest id is the name of a fixed AP. -/
theorem run_guest_not_fixed (M : JsMath F) (H : Host F) (tol : F) (t0 : Int)
    (keys : Nat → KeyPair × KeyPair) (events : List (Event F)) (g : String)
    (hg : g ∈ (run M H (initialWorld M tol t0 keys) events).GUEST_APS.keys) :
    g ∉ (run M H (initialWorld M tol t0 keys) events).LEGITIMATE_APS.keys := by
  have hinv := run_induction M H (fun w => w.fixedAPsIntact keys ∧ w.guestIdsLong)
    (applyEvent_guestIdsLong M H keys) events (initialWorld M tol t0 keys)
    ⟨initialWorld_fixedAPsIntact M tol t0 keys, by
      intro k hk
      rw [(initialWorld_registries M tol t0 keys).2.2] at hk
      cases hk⟩
  intro hmem
  rw [hinv.1.1, fixedRegistry_keys] at hmem
  have h3 := fixedNames_length g hmem
  have hlong := hinv.2 g hg
  omega

/-- What `despawnGuestAP` leaves of an id, in any state where the id is no fixed name. -/
theorem despawnGuestAP_removes (w : World F) (g : String)
    (hguest : w.GUEST_APS.get g ≠ none) (hfixed : g ∉ w.LEGITIMATE_APS.keys) :
    g ∉ (getAllAPs (despawnGuestAP w g)).keys ∧
    (despawnGuestAP w g).DETECTORS.get g = none ∧
    g ∉ (despawnGuestAP w g).AVOIDED_APS ∧
    (despawnGuestAP w g).GUEST_APS.get g = none := by
  cases hg : w.GUEST_APS.get g with
  | none => exact absurd hg hguest
  | some r =>
    have hE : g ∉ JsObject.keys
        (if (w.EVIL_APS.get g).isSome then w.EVIL_APS.delete g else w.EVIL_APS) := by
      cases he : w.EVIL_APS.get g with
      | none =>
        simp only [Option.isSome_none, Bool.false_eq_true, if_false]
        exact (JsObject.get_eq_none_iff _ _).1 he
      | some r' =>
        simp only [Option.isSome_some, if_true]
        exact fun h => ((JsObject.mem_keys_delete _ _ _).1 h).2 rfl
    simp only [despawnGuestAP, hg]
    refine ⟨?_, JsObject.get_delete_self _ _, JsSet.not_mem_delete _ _,
      JsObject.get_delete_self _ _⟩
    unfold getAllAPs
    rw [JsObject.mem_keys_spread, JsObject.mem_keys_spread, JsObject.mem_keys_spread]
    rintro (((h | h) | h) | h)
    · cases h
    · exact hfixed h
    · exact hE h
    · exact ((JsObject.mem_keys_delete _ _ _).1 h).2 rfl

/-- C12: in every state reached from start-up, despawning an id of the guest registry
removes it from the table of `getAllAPs()`, from the detector table and from the avoided
set, and a second despawn changes nothing; despawning an id that is not in the guest
registry changes nothing at all. -/
theorem C12_despawn_removes_everywhere (M : JsMath F) (H : Host F) (tol : F) (t0 : Int)
    (keys : Nat → KeyPair × KeyPair) (events : List (Event F)) (g : String) :
    ((run M H (initialWorld M tol t0 keys) events).GUEST_APS.get g ≠ none →
      g ∉ (getAllAPs (despawnGuestAP (run M H (initialWorld M tol t0 keys) events) g)).keys ∧
      (getAllAPs (despawnGuestAP (run M H (initialWorld M tol t0 keys) events) g)).get g =
        none ∧
      (despawnGuestAP (run M H (initialWorld M tol t0 keys) events) g).DETECTORS.get g = none ∧
      g ∉ (despawnGuestAP (run M H (initialWorld M tol t0 keys) events) g).AVOIDED_APS ∧
      despawnGuestAP (despawnGuestAP (run M H (initialWorld M tol t0 keys) events) g) g =
        despawnGuestAP (run M H (initialWorld M tol t0 keys) events) g) ∧
    ((run M H (initialWorld M tol t0 keys) events).GUEST_APS.get g = none →
      despawnGuestAP (run M H (initialWorld M tol t0 keys) events) g =
        run M H (initialWorld M tol t0 keys) events) := by
  constructor
  · intro hguest
    have hmem : g ∈ (run M H (initialWorld M tol t0 keys) events).GUEST_APS.keys := by
      by_contra hn
      exact hguest ((JsObject.get_eq_none_iff _ _).2 hn)
    obtain ⟨h1, h2, h3, h4⟩ := despawnGuestAP_removes _ g hguest
      (run_guest_not_fixed M H tol t0 keys events g hmem)
    refine ⟨h1, (JsObject.get_eq_none_iff _ _).2 h1, h2, h3, ?_⟩
    generalize despawnGuestAP (run M H (initialWorld M tol t0 keys) events) g = w' at h4
    simp only [despawnGuestAP, h4]
  · intro hnone
    simp only [despawnGuestAP, hnone]

end FixedAPs

section Repository

variable {F : Type} [LinearOrderedField F]

/-! ### The trusted repository along a run -/

theorem identity_at (w : World F) (i : Nat) (name : String) (s k : KeyPair)
    (h : (w.heap[i]?).map AP.identity = some (name, s, k, false)) :
    ∃ ap, w.heap[i]? = some ap ∧ ap.bssid = name ∧ ap.sign = s ∧ ap.kex = k := by
  cases ha : w.heap[i]? with
  | none => rw [ha] at h; cases h
  | some ap =>
    rw [ha] at h
    simp only [Option.map_some', Option.some.injEq, AP.identity, Prod.mk.injEq] at h
    exact ⟨ap, rfl, h.1, h.2.1, h.2.2.1⟩

theorem getTrustedRepo_of_fixedAPsIntact (keys : Nat → KeyPair × KeyPair) (w : World F)
    (h : w.fixedAPsIntact keys) :
    getTrustedRepo w = fixedNames.enum.map (fun e => (e.2, fixedRepoEntry keys e.1 e.2)) := by
  obtain ⟨hL, hH⟩ := h
  obtain ⟨a0, e0, b0, s0, k0⟩ := identity_at w 0 "AP1" _ _ (hH 0 "AP1" rfl)
  obtain ⟨a1, e1, b1, s1, k1⟩ := identity_at w 1 "AP2" _ _ (hH 1 "AP2" rfl)
  obtain ⟨a2, e2, b2, s2, k2⟩ := identity_at w 2 "AP3" _ _ (hH 2 "AP3" rfl)
  obtain ⟨a3, e3, b3, s3, k3⟩ := identity_at w 3 "AP4" _ _ (hH 3 "AP4" rfl)
  obtain ⟨a4, e4, b4, s4, k4⟩ := identity_at w 4 "AP5" _ _ (hH 4 "AP5" rfl)
  obtain ⟨a5, e5, b5, s5, k5⟩ := identity_at w 5 "AP6" _ _ (hH 5 "AP6" rfl)
  have hv : JsObject.values fixedRegistry = [0, 1, 2, 3, 4, 5] := by decide
  unfold getTrustedRepo
  rw [hL, hv]
  simp only [List.foldl_cons, List.foldl_nil, e0, e1, e2, e3, e4, e5, b0, b1, b2, b3, b4, b5,
    s0, s1, s2, s3, s4, s5, k0, k1, k2, k3, k4, k5]
  simp [JsObject.set, fixedNames, fixedRepoEntry, List.enum, List.enumFrom]

/-- C17 (as amended): in every state reached from start-up the trusted repository lists
the six fixed APs, in start-up order, whatever their current legitimacy flag: the entry of
the n-th name carries the public halves of the key pairs generated for it and the literal
legitimacy true, and these are the keys of the object that `LEGITIMATE_APS` still binds
to that name. -/
theorem C17_repo_is_the_fixed_APs (M : JsMath F) (H : Host F) (tol : F) (t0 : Int)
    (keys : Nat → KeyPair × KeyPair) (events : List (Event F)) :
    getTrustedRepo (run M H (initialWorld M tol t0 keys) events) =
      fixedNames.enum.map (fun e => (e.2, fixedRepoEntry keys e.1 e.2)) ∧
    (run M H (initialWorld M tol t0 keys) events).LEGITIMATE_APS = fixedRegistry ∧
    ∀ (i : Nat) (name : String), fixedNames[i]? = some name →
      ((run M H (initialWorld M tol t0 keys) events).heap[i]?).map AP.identity =
        some (name, (keys i).1, (keys i).2, false) :=
  ⟨getTrustedRepo_of_fixedAPsIntact keys _ (run_fixedAPsIntact M H tol t0 keys events),
    (run_fixedAPsIntact M H tol t0 keys events).1,
    (run_fixedAPsIntact M H tol t0 keys events).2⟩

/-- C17 (counterexample to the original wording): after one `manualToggleEvil` of `AP1`
the object of `AP1` is a fixed AP whose flag is false, and the repository still has an
entry for `AP1`, marked legitimate. -/
theorem C17_counterexample :
    (lookupAP (run (JsMath.mk Real.exp Real.log) toyHost
        (initialWorld (JsMath.mk Real.exp Real.log) 60 0 toyKeys)
        [.manualToggleEvil "AP1"]) "AP1").map (fun x => (x.2.isLegitimate, x.2.isGuest)) =
      some (false, false) ∧
    ((getTrustedRepo (run (JsMath.mk Real.exp Real.log) toyHost
        (initialWorld (JsMath.mk Real.exp Real.log) 60 0 toyKeys)
        [.manualToggleEvil "AP1"])).get "AP1").map (fun e => e.isLegitimate) = some true := by
  decide

/-! ### The tolerance command -/

theorem clamp_swap (n : F) : max 5 (min 300 n) = min 300 (max 5 n) := by
  rcases le_total n 5 with h | h
  · rw [max_eq_left (le_trans (min_le_right _ _) h), max_eq_left h]
    exact (min_eq_right (by norm_num)).symm
  · rw [max_eq_right h, max_eq_right (le_min (by norm_num) h)]

theorem setTolerance_range (w : World F) (secs : Option F) :
    5 ≤ (setTolerance w secs).tsTolSecs ∧ (setTolerance w secs).tsTolSecs ≤ 300 :=
  ⟨le_max_left _ _, max_le (by norm_num) (min_le_left _ _)⟩

/-- C13 (as amended): for every numeric input other than zero, `setTolerance` stores the
input clamped to the interval from 5 to 300, that is `min(300, max(5, seconds))`; for the
input zero it stores the clamped previous tolerance; whatever the input, the stored
tolerance lies between 5 and 300. -/
theorem C13_nonzero_input_is_clamped (w : World F) (n : F) (hn : n ≠ 0) :
    (setTolerance w (some n)).tsTolSecs = min 300 (max 5 n) ∧
    (setTolerance w (some 0)).tsTolSecs = min 300 (max 5 w.tsTolSecs) ∧
    ∀ secs : Option F,
      5 ≤ (setTolerance w secs).tsTolSecs ∧ (setTolerance w secs).tsTolSecs ≤ 300 := by
  have h : (setTolerance w (some n)).tsTolSecs = max 5 (min 300 n) := by
    simp only [setTolerance, if_neg hn]
  have h0 : (setTolerance w (some 0)).tsTolSecs = max 5 (min 300 w.tsTolSecs) := by
    simp only [setTolerance, if_true]
  rw [h, h0]
  exact ⟨clamp_swap n, clamp_swap _, setTolerance_range w⟩

theorem C13_nonzero_input_is_clamped_witness :
    (2 : ℝ) ≠ 0 ∧
    (setTolerance (demoWorld (JsMath.mk Real.exp Real.log)) (some 2)).tsTolSecs =
      min 300 (max 5 2) :=
  ⟨by norm_num, (C13_nonzero_input_is_clamped _ 2 (by norm_num)).1⟩

/-- C13 (counterexample to the original wording): with the tolerance at 60 the input 0
leaves 60 stored, where clamping 0 gives 5. -/
theorem C13_counterexample :
    (setTolerance (demoWorld (JsMath.mk Real.exp Real.log)) (some 0)).tsTolSecs = 60 ∧
    (demoWorld (JsMath.mk Real.exp Real.log)).tsTolSecs = 60 ∧
    min (300 : ℝ) (max 5 0) = 5 ∧
    (setTolerance (demoWorld (JsMath.mk Real.exp Real.log)) (some 0)).tsTolSecs ≠
      min 300 (max 5 0) := by
  have ht : (demoWorld (JsMath.mk Real.exp Real.log)).tsTolSecs = 60 := rfl
  have hs : (setTolerance (demoWorld (JsMath.mk Real.exp Real.log)) (some 0)).tsTolSecs =
      60 := by
    simp only [setTolerance, if_true, ht]
    norm_num
  refine ⟨hs, ht, by norm_num, ?_⟩
  rw [hs]
  norm_num

end Repository

section AvoidFilter

variable {F : Type} [LinearOrderedField F]

/-! ### The exclusion test of the AVOID filter -/

theorem exclusion_test_iff (d : BayesianAPDetector F) :
    (d.isLikelyEvil (3 / 10) && decide (d.getConfidence > 4 / 10)) = true ↔
      d.posteriorEvil > 7 / 10 := by
  simp only [BayesianAPDetector.isLikelyEvil, BayesianAPDetector.getConfidence,
    Bool.and_eq_true, decide_eq_true_eq, gt_iff_lt]
  constructor
  · rintro ⟨h3, h4⟩
    have h2 : (2 / 10 : F) < |d.posteriorEvil - 5 / 10| := by linarith
    rcases lt_abs.1 h2 with h | h
    · linarith
    · linarith
  · intro h
    have h2 : (2 / 10 : F) < |d.posteriorEvil - 5 / 10| := lt_abs.2 (Or.inl (by linarith))
    exact ⟨by linarith, by linarith⟩

theorem avoidExcluded_iff (w : World F) (bssid : String) :
    avoidExcluded w bssid = true ↔
      ∃ d, w.DETECTORS.get bssid = some d ∧ d.posteriorEvil > 7 / 10 := by
  unfold avoidExcluded
  cases hd : w.DETECTORS.get bssid with
  | none => simp
  | some d =>
    simp only [Option.some.injEq, exists_eq_left']
    exact exclusion_test_iff d

theorem fresh_not_excluded (M : JsMath F) (apId : String) (t0 : Int) :
    ((BayesianAPDetector.create M apId t0).isLikelyEvil (3 / 10) &&
      decide ((BayesianAPDetector.create M apId t0).getConfidence > 4 / 10)) = false := by
  rw [Bool.eq_false_iff, Ne, exclusion_test_iff]
  simp only [BayesianAPDetector.create]
  norm_num

theorem selectDestination_avoid (w : World F) (apKeys : List String) (pick : Nat)
    (hA : w.ACTIVE_STRATEGY = .AVOID) (k : String) (hk : k ∈ apKeys)
    (hnot : avoidExcluded w k = false) :
    (selectDestination w apKeys pick).1 =
      (apKeys.filter (fun bssid => !(avoidExcluded w bssid))).get? pick := by
  have hpos : (apKeys.filter (fun bssid => !(avoidExcluded w bssid))).length > 0 :=
    List.length_pos_of_mem (List.mem_filter.2 ⟨hk, by simp [hnot]⟩)
  simp only [selectDestination, hA, if_pos hpos]

/-- C20: the exclusion test of the AVOID filter, `isLikelyEvil(0.3)` together with
`getConfidence() > 0.4`, holds exactly when the posterior exceeds 7/10; a detector fresh
from its constructor fails the test, so an AP with such a detector, or with none, is not
excluded; and in an AVOID window, when some listed AP is not excluded, the selected
destination, which exists for every index below the number of APs that are not excluded,
is a listed AP that is not excluded. -/
theorem C20_exclusion_test_is_posterior_above_seven_tenths :
    (∀ d : BayesianAPDetector F,
      (d.isLikelyEvil (3 / 10) && decide (d.getConfidence > 4 / 10)) = true ↔
        d.posteriorEvil > 7 / 10) ∧
    (∀ (w : World F) (bssid : String),
      avoidExcluded w bssid = true ↔
        ∃ d, w.DETECTORS.get bssid = some d ∧ d.posteriorEvil > 7 / 10) ∧
    (∀ (M : JsMath F) (apId : String) (t0 : Int),
      (BayesianAPDetector.create M apId t0).posteriorEvil = 25 / 100 ∧
      ((BayesianAPDetector.create M apId t0).isLikelyEvil (3 / 10) &&
        decide ((BayesianAPDetector.create M apId t0).getConfidence > 4 / 10)) = false) ∧
    (∀ (w : World F) (apKeys : List String) (k : String),
      w.ACTIVE_STRATEGY = .AVOID → k ∈ apKeys → avoidExcluded w k = false →
      (∀ (pick : Nat) (dst : String), (selectDestination w apKeys pick).1 = some dst →
        dst ∈ apKeys ∧ avoidExcluded w dst = false) ∧
      (∀ pick : Nat,
        pick < (apKeys.filter (fun bssid => !(avoidExcluded w bssid))).length →
        ∃ dst, (selectDestination w apKeys pick).1 = some dst)) := by
  refine ⟨exclusion_test_iff, avoidExcluded_iff,
    fun M apId t0 => ⟨rfl, fresh_not_excluded M apId t0⟩,
    ?_⟩
  intro w apKeys k hA hk hnot
  constructor
  · intro pick dst hdst
    rw [selectDestination_avoid w apKeys pick hA k hk hnot] at hdst
    have hmem := List.mem_filter.1 (List.get?_mem hdst)
    exact ⟨hmem.1, by simpa using hmem.2⟩
  · intro pick hpick
    rw [selectDestination_avoid w apKeys pick hA k hk hnot]
    exact ⟨_, List.get?_eq_get hpick⟩

end AvoidFilter

section NonceField

variable {F : Type} [LinearOrderedField F]

/-! ### What the nonce field takes part in -/

theorem checkFails_withNonce (H : Host F) (w : World F) (packet : Packet) (nonce : String)
    (tNow tPrune : Int) (c : Check) (hc : c ≠ .replay) :
    checkFails H w (packet.withNonce nonce) tNow tPrune c = checkFails H w packet tNow tPrune c := by
  cases c with
  | replay => exact absurd rfl hc
  | destUnknown => rfl
  | staleTimestamp => rfl
  | untrustedAP => rfl
  | badSignature => rfl
  | decryptFailure => rfl

theorem verify_withNonce_after_accept (H : Host F) (w w1 : World F) (packet : Packet)
    (t1 tPrune1 t2 tPrune2 : Int) (pt : String) (nonce : String)
    (hfirst : verifyAndDecryptAtAP H w packet t1 tPrune1 = .ok (.accept pt, w1))
    (hfresh : ¬ ((|t2 - packet.header.ts| : Int) : F) > w1.tsTolSecs * 1000)
    (hnew : ∀ r ap, lookupAP w1 packet.header.toAp = some (r, ap) →
      nonce ∉ pruneReplay H tPrune2 ap.replay) :
    (verifyAndDecryptAtAP H w1 (packet.withNonce nonce) t2 tPrune2).map Prod.fst =
      .ok (.accept pt) := by
  obtain ⟨r, ap, hl, _, h3, h4, _, h6, hw⟩ :=
    verify_accept_inv H w w1 packet t1 tPrune1 pt hfirst
  subst hw
  have hl1 := lookupAP_setReplay w r (pruneReplay H tPrune1 ap.replay ++ [packet.body.nonce])
    packet.header.toAp ap hl
  have h3' : (!((getTrustedRepo (w.setReplay r
      (pruneReplay H tPrune1 ap.replay ++ [packet.body.nonce]))).read
        (packet.withNonce nonce).header.toAp).isDefined &&
      !({ ap with replay := pruneReplay H tPrune1 ap.replay ++ [packet.body.nonce] } :
        AP).isLegitimate) = false := by
    rw [getTrustedRepo_setReplay]; exact h3
  have h5 := hnew r _ hl1
  rw [verify_past_replay H _ (packet.withNonce nonce) t2 tPrune2 r _ hl1 hfresh h3' h4 h5]
  have h6' : decryptAtAP H
      ({ ap with replay := pruneReplay H tPrune1 ap.replay ++ [packet.body.nonce] } : AP)
      (packet.withNonce nonce) (headOf H (packet.withNonce nonce)) = .ok pt := h6
  simp only [h6']
  rfl

/-- C19: the nonce field takes part in the replay check only. Every other check of the
receiver gives the same result for a packet and for its copy with another nonce, in every
state and at every time (the signed bytes and the decryption inputs do not contain the
field). So when a packet has been accepted, its copy with a nonce that is not in the
destination's pruned replay window, submitted afterwards within the timestamp tolerance,
is accepted with the same plaintext. -/
theorem C19_changed_nonce_is_accepted_again (H : Host F) (w w1 : World F) (packet : Packet)
    (t1 tPrune1 t2 tPrune2 : Int) (pt : String) (nonce : String)
    (hfirst : verifyAndDecryptAtAP H w packet t1 tPrune1 = .ok (.accept pt, w1))
    (hfresh : ¬ ((|t2 - packet.header.ts| : Int) : F) > w1.tsTolSecs * 1000)
    (hnew : ∀ r ap, lookupAP w1 packet.header.toAp = some (r, ap) →
      nonce ∉ pruneReplay H tPrune2 ap.replay) :
    (verifyAndDecryptAtAP H w1 (packet.withNonce nonce) t2 tPrune2).map Prod.fst =
      .ok (.accept pt) ∧
    (∀ (w' : World F) (t tp : Int) (c : Check), c ≠ .replay →
      checkFails H w' (packet.withNonce nonce) t tp c = checkFails H w' packet t tp c) ∧
    headOf H (packet.withNonce nonce) ++ H.bufferFromBase64 (packet.withNonce nonce).body.ct =
      headOf H packet ++ H.bufferFromBase64 packet.body.ct ∧
    (packet.withNonce nonce).sig = packet.sig ∧
    (∀ ap : AP, decryptAtAP H ap (packet.withNonce nonce) (headOf H (packet.withNonce nonce)) =
      decryptAtAP H ap packet (headOf H packet)) :=
  ⟨verify_withNonce_after_accept H w w1 packet t1 tPrune1 t2 tPrune2 pt nonce hfirst hfresh hnew,
    fun w' t tp c hc => checkFails_withNonce H w' packet nonce t tp c hc, rfl, rfl,
    fun _ => rfl⟩

theorem C19_changed_nonce_is_accepted_again_witness :
    (verifyAndDecryptAtAP toyHost (demoWorld (JsMath.mk Real.exp Real.log)) demoPacket 1000000
          1000000 =
        .ok (.accept "micro-pkt,1000000:abc",
          (demoWorld (JsMath.mk Real.exp Real.log)).setReplay 0 ["1000000:abc"]) ∧
      ¬ ((|(1050000 : Int) - demoPacket.header.ts| : Int) : ℝ) >
        ((demoWorld (JsMath.mk Real.exp Real.log)).setReplay 0 ["1000000:abc"]).tsTolSecs *
          1000 ∧
      ∀ r ap,
        lookupAP ((demoWorld (JsMath.mk Real.exp Real.log)).setReplay 0 ["1000000:abc"])
          demoPacket.header.toAp = some (r, ap) →
        "1000001:xyz" ∉ pruneReplay (toyHost : Host ℝ) 1050000 ap.replay) ∧
    (verifyAndDecryptAtAP toyHost
      ((demoWorld (JsMath.mk Real.exp Real.log)).setReplay 0 ["1000000:abc"])
      (demoPacket.withNonce "1000001:xyz") 1050000 1050000).map Prod.fst =
        .ok (.accept "micro-pkt,1000000:abc") := by
  have hfresh : ¬ ((|(1050000 : Int) - demoPacket.header.ts| : Int) : ℝ) >
      ((demoWorld (JsMath.mk Real.exp Real.log)).setReplay 0 ["1000000:abc"]).tsTolSecs *
        1000 := by
    show ¬ ((|(1050000 : Int) - demoPacket.header.ts| : Int) : ℝ) > (60 : ℝ) * 1000
    norm_num [demoPacket]
  have hnew : ∀ r ap,
      lookupAP ((demoWorld (JsMath.mk Real.exp Real.log)).setReplay 0 ["1000000:abc"])
        demoPacket.header.toAp = some (r, ap) →
      "1000001:xyz" ∉ pruneReplay (toyHost : Host ℝ) 1050000 ap.replay := by
    intro r ap h
    rw [lookupAP_setReplay _ 0 ["1000000:abc"] _ demoAP1 demo_lookup_AP1] at h
    simp only [Option.some.injEq, Prod.mk.injEq] at h
    rw [← h.2, mem_pruneReplay]
    intro hmem
    exact absurd hmem.1 (by decide)
  exact ⟨⟨demo_first_accept, hfresh, hnew⟩,
    (C19_changed_nonce_is_accepted_again toyHost _ _ demoPacket 1000000 1000000 1050000
      1050000 _ "1000001:xyz" demo_first_accept hfresh hnew).1⟩

end NonceField

section GuestIdCollision

variable {F : Type} [LinearOrderedField F]

/-! ### Two guest batches that read the same clock value -/

theorem spawnGuestLoop_step (M : JsMath F) (legitKeys : List String)
    (draws : Nat → GuestDraw F) (w : World F) (i : Nat) (rest : List Nat) (targetAP : AP)
    (b : Bool)
    (ht : (legitKeys.get? (draws i).pick).bind
      (fun k => (w.LEGITIMATE_APS.get k).bind (fun r => w.heap[r]?)) = some targetAP)
    (hb : decide ((draws i).evilDraw < w.evilProbability) = b) :
    spawnGuestLoop M legitKeys draws w (i :: rest) =
      spawnGuestLoop M legitKeys draws
        (makeAP M w (guestIdOf targetAP (draws i).stamp i) (!b) true (draws i).sign
          (draws i).kex (draws i).spawnTime (draws i).tDetector) rest := by
  rw [spawnGuestLoop, ht, hb]

theorem makeAP_guest_keeps (M : JsMath F) (w : World F) (name : String)
    (isLegitimate : Bool) (sign kex : KeyPair) (spawnTime tDetector : Int)
    (h : w.LEGITIMATE_APS = fixedRegistry ∧ w.heap[0]? = some demoAP1 ∧
      w.evilProbability = 40 / 100) :
    (makeAP M w name isLegitimate true sign kex spawnTime tDetector).LEGITIMATE_APS =
        fixedRegistry ∧
      (makeAP M w name isLegitimate true sign kex spawnTime tDetector).heap[0]? =
        some demoAP1 ∧
      (makeAP M w name isLegitimate true sign kex spawnTime tDetector).evilProbability =
        40 / 100 := by
  obtain ⟨m1, m2, _, _, m5, _⟩ := makeAP_guest M w name isLegitimate sign kex spawnTime tDetector
  refine ⟨m2.trans h.1, ?_, ?_⟩
  · have hlt : 0 < w.heap.length := by
      by_contra hge
      have := h.2.1
      rw [List.getElem?_eq_none (by omega)] at this
      cases this
    rw [m1, List.getElem?_append_left hlt]
    exact h.2.1
  · have := congrArg (fun s => s.2.2.2.2.2.2) m5
    exact this.trans h.2.2

theorem demoBatch_step (M : JsMath F) (x : F) (b : Bool) (w : World F) (i : Nat)
    (rest : List Nat)
    (h : w.LEGITIMATE_APS = fixedRegistry ∧ w.heap[0]? = some demoAP1 ∧
      w.evilProbability = 40 / 100)
    (hb : decide (x < 40 / 100) = b) :
    spawnGuestLoop M fixedNames (demoBatch x) w (i :: rest) =
      spawnGuestLoop M fixedNames (demoBatch x)
        (makeAP M w (guestIdOf demoAP1 "abcd" i) (!b) true { pub := "gs", priv := "gs" }
          { pub := "gk", priv := "gk" } 5000 5000) rest := by
  have hreg : fixedRegistry.get "AP1" = some 0 := by decide
  have ht : (fixedNames.get? (demoBatch x i).pick).bind
      (fun k => (w.LEGITIMATE_APS.get k).bind (fun r => w.heap[r]?)) = some demoAP1 := by
    rw [h.1]
    show (fixedRegistry.get "AP1").bind (fun r => w.heap[r]?) = some demoAP1
    rw [hreg]
    exact h.2.1
  have hb' : decide ((demoBatch x i).evilDraw < w.evilProbability) = b := by
    rw [h.2.2]
    exact hb
  exact spawnGuestLoop_step M fixedNames (demoBatch x) w i rest demoAP1 b ht hb'

/-- A batch all of whose iterations mimic `AP1` with stamp `abcd`: the four `makeAP`
calls it makes. -/
theorem demoBatch_spawn (M : JsMath F) (x : F) (b : Bool) (w : World F)
    (h : w.LEGITIMATE_APS = fixedRegistry ∧ w.heap[0]? = some demoAP1 ∧
      w.evilProbability = 40 / 100)
    (hb : decide (x < 40 / 100) = b) :
    spawnGuestAPs M w (demoBatch x) =
      makeAP M
        (makeAP M
          (makeAP M
            (makeAP M w "AP1_guest_abcd_0" (!b) true
              { pub := "gs", priv := "gs" } { pub := "gk", priv := "gk" } 5000 5000)
            "AP1_guest_abcd_1" (!b) true
            { pub := "gs", priv := "gs" } { pub := "gk", priv := "gk" } 5000 5000)
          "AP1_guest_abcd_2" (!b) true
          { pub := "gs", priv := "gs" } { pub := "gk", priv := "gk" } 5000 5000)
        "AP1_guest_abcd_3" (!b) true
        { pub := "gs", priv := "gs" } { pub := "gk", priv := "gk" } 5000 5000 := by
  have e0 : guestIdOf demoAP1 "abcd" 0 = "AP1_guest_abcd_0" := by decide
  have e1 : guestIdOf demoAP1 "abcd" 1 = "AP1_guest_abcd_1" := by decide
  have e2 : guestIdOf demoAP1 "abcd" 2 = "AP1_guest_abcd_2" := by decide
  have e3 : guestIdOf demoAP1 "abcd" 3 = "AP1_guest_abcd_3" := by decide
  have hk : JsObject.keys w.LEGITIMATE_APS = fixedNames := by rw [h.1, fixedRegistry_keys]
  have hne : ¬ fixedNames.length = 0 := by decide
  have hr : List.range guestAPsPerSpawn = [0, 1, 2, 3] := by decide
  unfold spawnGuestAPs
  simp only [hk, if_neg hne, hr]
  have k1 := makeAP_guest_keeps M w "AP1_guest_abcd_0" (!b) { pub := "gs", priv := "gs" }
    { pub := "gk", priv := "gk" } 5000 5000 h
  have k2 := makeAP_guest_keeps M _ "AP1_guest_abcd_1" (!b) { pub := "gs", priv := "gs" }
    { pub := "gk", priv := "gk" } 5000 5000 k1
  have k3 := makeAP_guest_keeps M _ "AP1_guest_abcd_2" (!b) { pub := "gs", priv := "gs" }
    { pub := "gk", priv := "gk" } 5000 5000 k2
  rw [demoBatch_step M x b w 0 _ h hb, e0, demoBatch_step M x b _ 1 _ k1 hb, e1,
    demoBatch_step M x b _ 2 _ k2 hb, e2, demoBatch_step M x b _ 3 _ k3 hb, e3]
  rfl

/-- C16 (the code at the failing input): from start-up, two guest batches that read the
same clock value and mimic the same AP, the first drawing evil guests and the second
legitimate ones. The second batch reuses the ids of the first; afterwards the id
`AP1_guest_abcd_0` is still a key of `EVIL_APS` (bound to the first, evil object) while
the AP that `getAllAPs()` returns for this id is the second object, whose legitimacy flag
is true. -/
theorem C16_stale_evil_entry_after_id_reuse :
    ((run (JsMath.mk Real.exp Real.log) toyHost
        (initialWorld (JsMath.mk Real.exp Real.log) 60 0 toyKeys)
        [.spawnGuestAPs (demoBatch 0), .spawnGuestAPs (demoBatch (1 / 2))]).EVIL_APS.get
      "AP1_guest_abcd_0") = some 6 ∧
    (lookupAP (run (JsMath.mk Real.exp Real.log) toyHost
        (initialWorld (JsMath.mk Real.exp Real.log) 60 0 toyKeys)
        [.spawnGuestAPs (demoBatch 0), .spawnGuestAPs (demoBatch (1 / 2))])
      "AP1_guest_abcd_0").map (fun x => (x.1, x.2.isLegitimate, x.2.isGuest)) =
        some (10, true, true) := by
  have h0 : (initialWorld (JsMath.mk Real.exp Real.log) 60 0 toyKeys).LEGITIMATE_APS =
        fixedRegistry ∧
      (initialWorld (JsMath.mk Real.exp Real.log) 60 0 toyKeys).heap[0]? = some demoAP1 ∧
      (initialWorld (JsMath.mk Real.exp Real.log) 60 0 toyKeys).evilProbability =
        40 / 100 :=
    ⟨(initialWorld_registries _ 60 0 toyKeys).1, by decide, rfl⟩
  have b1 : decide ((0 : ℝ) < 40 / 100) = true := decide_eq_true (by norm_num)
  have b2 : decide ((1 / 2 : ℝ) < 40 / 100) = false := decide_eq_false (by norm_num)
  have s1 := demoBatch_spawn (JsMath.mk Real.exp Real.log) 0 true _ h0 b1
  have h1 : (spawnGuestAPs (JsMath.mk Real.exp Real.log)
        (initialWorld (JsMath.mk Real.exp Real.log) 60 0 toyKeys) (demoBatch 0)).LEGITIMATE_APS =
        fixedRegistry ∧
      (spawnGuestAPs (JsMath.mk Real.exp Real.log)
        (initialWorld (JsMath.mk Real.exp Real.log) 60 0 toyKeys) (demoBatch 0)).heap[0]? =
          some demoAP1 ∧
      (spawnGuestAPs (JsMath.mk Real.exp Real.log)
        (initialWorld (JsMath.mk Real.exp Real.log) 60 0 toyKeys) (demoBatch 0)).evilProbability =
          40 / 100 := by
    rw [s1]
    exact makeAP_guest_keeps _ _ _ _ _ _ _ _ (makeAP_guest_keeps _ _ _ _ _ _ _ _
      (makeAP_guest_keeps _ _ _ _ _ _ _ _ (makeAP_guest_keeps _ _ _ _ _ _ _ _ h0)))
  have s2 := demoBatch_spawn (JsMath.mk Real.exp Real.log) (1 / 2) false _ h1 b2
  have hrun : run (JsMath.mk Real.exp Real.log) toyHost
      (initialWorld (JsMath.mk Real.exp Real.log) 60 0 toyKeys)
      [.spawnGuestAPs (demoBatch 0), .spawnGuestAPs (demoBatch (1 / 2))] =
      spawnGuestAPs (JsMath.mk Real.exp Real.log)
        (spawnGuestAPs (JsMath.mk Real.exp Real.log)
          (initialWorld (JsMath.mk Real.exp Real.log) 60 0 toyKeys) (demoBatch 0))
        (demoBatch (1 / 2)) := rfl
  rw [hrun, s2, s1]
  decide

end GuestIdCollision

section FilterExamples

/-! ### Worked examples for the despawn and the AVOID filter -/

theorem demo_first_batch :
    (run (JsMath.mk Real.exp Real.log) toyHost
        (initialWorld (JsMath.mk Real.exp Real.log) 60 0 toyKeys)
        [.spawnGuestAPs (demoBatch 0)]).GUEST_APS.get "AP1_guest_abcd_0" ≠ none := by
  have h0 : (initialWorld (JsMath.mk Real.exp Real.log) 60 0 toyKeys).LEGITIMATE_APS =
        fixedRegistry ∧
      (initialWorld (JsMath.mk Real.exp Real.log) 60 0 toyKeys).heap[0]? = some demoAP1 ∧
      (initialWorld (JsMath.mk Real.exp Real.log) 60 0 toyKeys).evilProbability =
        40 / 100 :=
    ⟨(initialWorld_registries _ 60 0 toyKeys).1, by decide, rfl⟩
  have b1 : decide ((0 : ℝ) < 40 / 100) = true := decide_eq_true (by norm_num)
  have hrun : run (JsMath.mk Real.exp Real.log) toyHost
      (initialWorld (JsMath.mk Real.exp Real.log) 60 0 toyKeys)
      [.spawnGuestAPs (demoBatch 0)] =
      spawnGuestAPs (JsMath.mk Real.exp Real.log)
        (initialWorld (JsMath.mk Real.exp Real.log) 60 0 toyKeys) (demoBatch 0) := rfl
  rw [hrun, demoBatch_spawn (JsMath.mk Real.exp Real.log) 0 true _ h0 b1]
  decide

theorem C12_despawn_removes_everywhere_witness :
    (run (JsMath.mk Real.exp Real.log) toyHost
        (initialWorld (JsMath.mk Real.exp Real.log) 60 0 toyKeys)
        [.spawnGuestAPs (demoBatch 0)]).GUEST_APS.get "AP1_guest_abcd_0" ≠ none ∧
    "AP1_guest_abcd_0" ∉ (getAllAPs (despawnGuestAP
      (run (JsMath.mk Real.exp Real.log) toyHost
        (initialWorld (JsMath.mk Real.exp Real.log) 60 0 toyKeys)
        [.spawnGuestAPs (demoBatch 0)]) "AP1_guest_abcd_0")).keys ∧
    (despawnGuestAP
      (run (JsMath.mk Real.exp Real.log) toyHost
        (initialWorld (JsMath.mk Real.exp Real.log) 60 0 toyKeys)
        [.spawnGuestAPs (demoBatch 0)]) "AP1_guest_abcd_0").DETECTORS.get
      "AP1_guest_abcd_0" = none :=
  ⟨demo_first_batch,
    ((C12_despawn_removes_everywhere (JsMath.mk Real.exp Real.log) toyHost 60 0 toyKeys
      [.spawnGuestAPs (demoBatch 0)] "AP1_guest_abcd_0").1 demo_first_batch).1,
    ((C12_despawn_removes_everywhere (JsMath.mk Real.exp Real.log) toyHost 60 0 toyKeys
      [.spawnGuestAPs (demoBatch 0)] "AP1_guest_abcd_0").1 demo_first_batch).2.2.1⟩

theorem demo_AP1_listed :
    "AP1" ∈ JsObject.keys (getAllAPs (demoAvoidWorld (JsMath.mk Real.exp Real.log))) := by
  rw [demo_keys]
  decide

theorem C20_exclusion_test_is_posterior_above_seven_tenths_witness :
    (demoAvoidWorld (JsMath.mk Real.exp Real.log)).ACTIVE_STRATEGY = .AVOID ∧
    "AP1" ∈ JsObject.keys (getAllAPs (demoAvoidWorld (JsMath.mk Real.exp Real.log))) ∧
    avoidExcluded (demoAvoidWorld (JsMath.mk Real.exp Real.log)) "AP1" = false ∧
    (selectDestination (demoAvoidWorld (JsMath.mk Real.exp Real.log))
      (JsObject.keys (getAllAPs (demoAvoidWorld (JsMath.mk Real.exp Real.log))))
      demoDraws.pick).1 = some "AP1" ∧
    ("AP1" ∈ JsObject.keys (getAllAPs (demoAvoidWorld (JsMath.mk Real.exp Real.log))) ∧
      avoidExcluded (demoAvoidWorld (JsMath.mk Real.exp Real.log)) "AP1" = false) :=
  ⟨rfl, demo_AP1_listed, demo_not_excluded _ _, congrArg Prod.fst (demo_selection _),
    ((@C20_exclusion_test_is_posterior_above_seven_tenths ℝ _).2.2.2
      (demoAvoidWorld (JsMath.mk Real.exp Real.log)) _ "AP1" rfl demo_AP1_listed
      (demo_not_excluded _ _)).1 demoDraws.pick "AP1" (congrArg Prod.fst (demo_selection _))⟩

end FilterExamples

section NonThresholds

variable {F : Type} [LinearOrderedField F]

/-! ### The thresholds of the router under the "non" matrix -/

theorem non_expectedPayoffs (p : F) :
    expectedPayoff (PAYOFF_MATRICES Sensitivity.non) .TRUST p = 10 - 60 * p ∧
    expectedPayoff (PAYOFF_MATRICES Sensitivity.non) .VERIFY p = 8 - 13 * p ∧
    expectedPayoff (PAYOFF_MATRICES Sensitivity.non) .AVOID p = 3 + 2 * p := by
  simp only [expectedPayoff, PAYOFF_MATRICES, PAYOFF_MATRICES_non]
  refine ⟨?_, ?_, ?_⟩ <;> ring

theorem eq_max3_iff (t v a x : F) (hx : x = v ∨ x = a) :
    x = max (max t v) a ↔ t ≤ x ∧ v ≤ x ∧ a ≤ x := by
  constructor
  · intro h
    rw [h]
    exact ⟨le_trans (le_max_left t v) (le_max_left _ a),
      le_trans (le_max_right t v) (le_max_left _ a), le_max_right _ a⟩
  · rintro ⟨h1, h2, h3⟩
    apply le_antisymm
    · rcases hx with h | h
      · rw [h]; exact le_trans (le_max_right t v) (le_max_left _ a)
      · rw [h]; exact le_max_right _ a
    · exact max_le (max_le h1 h2) h3

theorem non_strategy_thresholds (p : F) :
    ((computeOptimalStrategyFor (PAYOFF_MATRICES Sensitivity.non) p).strategy = .TRUST ↔
      p < 2 / 47) ∧
    ((computeOptimalStrategyFor (PAYOFF_MATRICES Sensitivity.non) p).strategy = .VERIFY ↔
      2 / 47 ≤ p ∧ p ≤ 1 / 3) ∧
    ((computeOptimalStrategyFor (PAYOFF_MATRICES Sensitivity.non) p).strategy = .AVOID ↔
      1 / 3 < p) := by
  obtain ⟨_, _, _, _, _, hV, hA, hT⟩ :=
    computeOptimalStrategyFor_spec (PAYOFF_MATRICES Sensitivity.non) p
  obtain ⟨eT, eV, eA⟩ := non_expectedPayoffs p
  have mV := eq_max3_iff (expectedPayoff (PAYOFF_MATRICES Sensitivity.non) .TRUST p)
    (expectedPayoff (PAYOFF_MATRICES Sensitivity.non) .VERIFY p)
    (expectedPayoff (PAYOFF_MATRICES Sensitivity.non) .AVOID p)
    (expectedPayoff (PAYOFF_MATRICES Sensitivity.non) .VERIFY p) (Or.inl rfl)
  have mA := eq_max3_iff (expectedPayoff (PAYOFF_MATRICES Sensitivity.non) .TRUST p)
    (expectedPayoff (PAYOFF_MATRICES Sensitivity.non) .VERIFY p)
    (expectedPayoff (PAYOFF_MATRICES Sensitivity.non) .AVOID p)
    (expectedPayoff (PAYOFF_MATRICES Sensitivity.non) .AVOID p) (Or.inr rfl)
  simp only [bestExpectedPayoff, ne_eq] at hV hA hT
  rw [mV] at hV hA hT
  rw [mA] at hA hT
  rw [eT, eV, eA] at hV hA hT
  have verifyBest : (10 - 60 * p ≤ 8 - 13 * p ∧ 8 - 13 * p ≤ 8 - 13 * p ∧
      3 + 2 * p ≤ 8 - 13 * p) ↔ 2 / 47 ≤ p ∧ p ≤ 1 / 3 := by
    constructor
    · rintro ⟨h1, _, h3⟩
      constructor
      · rw [div_le_iff₀ (by norm_num)]; linarith
      · rw [le_div_iff₀ (by norm_num)]; linarith
    · rintro ⟨h1, h2⟩
      rw [div_le_iff₀ (by norm_num)] at h1
      rw [le_div_iff₀ (by norm_num)] at h2
      exact ⟨by linarith, le_refl _, by linarith⟩
  have avoidBest : (10 - 60 * p ≤ 3 + 2 * p ∧ 8 - 13 * p ≤ 3 + 2 * p ∧
      3 + 2 * p ≤ 3 + 2 * p) ↔ 1 / 3 ≤ p := by
    constructor
    · rintro ⟨_, h2, _⟩
      rw [div_le_iff₀ (by norm_num)]; linarith
    · intro h
      rw [div_le_iff₀ (by norm_num)] at h
      exact ⟨by linarith, by linarith, le_refl _⟩
  rw [verifyBest] at hV hA hT
  rw [avoidBest] at hA hT
  have h247 : (2 / 47 : F) < 1 / 3 := by norm_num
  refine ⟨hT.trans ?_, hV, hA.trans ?_⟩
  · constructor
    · rintro ⟨h1, h2⟩
      by_contra hge
      push_neg at hge
      rcases le_or_lt p (1 / 3) with h | h
      · exact h1 ⟨hge, h⟩
      · exact h2 (le_of_lt h)
    · intro h
      exact ⟨fun hh => absurd h (not_lt.2 hh.1),
        fun hh => absurd (lt_of_lt_of_le h247 hh) (not_lt.2 (le_of_lt h))⟩
  · constructor
    · rintro ⟨h1, h2⟩
      rcases lt_or_eq_of_le h2 with h | h
      · exact h
      · exact absurd ⟨le_of_lt (h ▸ h247), le_of_eq h.symm⟩ h1
    · intro h
      exact ⟨fun hh => absurd h (not_lt.2 hh.2), le_of_lt h⟩

/-- C21: under the "non" payoff matrix and for every evil-probability `p` (so for every
`p` between 0 and 1), in exact arithmetic, the router selects TRUST exactly when
`p < 2/47`, VERIFY exactly when `2/47 ≤ p ≤ 1/3` and AVOID exactly when `p > 1/3`; at
`p = 0` it selects TRUST; and this is the strategy that `computeOptimalStrategy` records
for every AP of the belief map whose evil-probability is `p`. -/
theorem C21_non_matrix_thresholds (p : F) :
    ((computeOptimalStrategyFor (PAYOFF_MATRICES Sensitivity.non) p).strategy = .TRUST ↔
      p < 2 / 47) ∧
    ((computeOptimalStrategyFor (PAYOFF_MATRICES Sensitivity.non) p).strategy = .VERIFY ↔
      2 / 47 ≤ p ∧ p ≤ 1 / 3) ∧
    ((computeOptimalStrategyFor (PAYOFF_MATRICES Sensitivity.non) p).strategy = .AVOID ↔
      1 / 3 < p) ∧
    (computeOptimalStrategyFor (PAYOFF_MATRICES Sensitivity.non) (0 : F)).strategy = .TRUST ∧
    (∀ (apBeliefs : List (String × F)) (apId : String), (apId, p) ∈ apBeliefs →
      (apId, computeOptimalStrategyFor (PAYOFF_MATRICES Sensitivity.non) p) ∈
        computeOptimalStrategy (PAYOFF_MATRICES Sensitivity.non) apBeliefs) ∧
    (∀ (apBeliefs : List (String × F)) (e : String × StrategyChoice F),
      e ∈ computeOptimalStrategy (PAYOFF_MATRICES Sensitivity.non) apBeliefs →
      (e.2.strategy = .TRUST ↔ e.2.evilProb < 2 / 47) ∧
      (e.2.strategy = .VERIFY ↔ 2 / 47 ≤ e.2.evilProb ∧ e.2.evilProb ≤ 1 / 3) ∧
      (e.2.strategy = .AVOID ↔ 1 / 3 < e.2.evilProb)) := by
  refine ⟨(non_strategy_thresholds p).1, (non_strategy_thresholds p).2.1,
    (non_strategy_thresholds p).2.2, ((non_strategy_thresholds (0 : F)).1).2 (by norm_num),
    ?_, ?_⟩
  · intro apBeliefs apId h
    exact List.mem_map.2 ⟨(apId, p), h, rfl⟩
  · intro apBeliefs e he
    obtain ⟨b, _, rfl⟩ := List.mem_map.1 he
    exact non_strategy_thresholds b.2

end NonThresholds

end WifiSim
